import Mathlib

set_option linter.unusedSectionVars false
set_option linter.unusedVariables false
set_option linter.unnecessarySeqFocus false

/-! Muon absorber geometry builder (`Detectors/Passive/src/Absorber.cxx`) and the workflow of
the AOD to HepMC converter (`run/o2aod_mc_to_hepmc.cxx`).

A shallow embedding of the material table (`Absorber::createMaterials`), of the
polycone helper `MakeShapeFromTemplate`, of the polycones and of the volume tree built by
`Absorber::ConstructGeometry`, and of the tasks and the entry point of the converter workflow,
together with the properties proved about them.

Numbers are exact: the `Float_t` values of the material table are rationals, those of the
geometry are elements of an ordered field `K` (`ℚ` for evaluation, `ℝ` where the trigonometric
constants are the real ones).
-/

/-! ## The workflow of `o2aod_mc_to_hepmc.cxx`

Source: `src/run/o2aod_mc_to_hepmc.cxx`. The preprocessor symbols `HEPMC_PROCESS_AUX` and
`AODTOHEPMC_WITH_HEAVYION` are parameters of the definitions that depend on them; the source
leaves the first undefined. -/

namespace AodMcToHepMC

/-- Modelled from the spec: the value types of a workflow option (`VariantType`). -/
inductive VariantType where
  | Bool
  | Int
  | String
deriving DecidableEq, Repr

/-- Modelled from the spec: the kinds of a workflow option (`ConfigParamKind`). -/
inductive ConfigParamKind where
  | kGeneric
  | kProcessFlag
deriving DecidableEq, Repr

/-- Modelled from the spec: the declaration of a workflow option (`ConfigParamSpec`), by name,
type, default value, help text and kind. Only boolean defaults occur. -/
structure ConfigParamSpec where
  name : String
  type : VariantType
  defaultValue : Bool
  help : String
  kind : ConfigParamKind
deriving DecidableEq, Repr

/-- Function `customize`, compiled only when `HEPMC_PROCESS_AUX` is not defined: it appends the
declaration of the option "hepmc-aux". -/
def customize (HEPMC_PROCESS_AUX : Bool) (workflowOptions : List ConfigParamSpec) :
    List ConfigParamSpec :=
  if HEPMC_PROCESS_AUX then workflowOptions
  else
    workflowOptions ++
      [⟨"hepmc-aux", VariantType.Bool, false, "Also process auxiliary " ++ "HepMC tables",
        ConfigParamKind.kProcessFlag⟩]

/-- Modelled from the spec: the configuration of a workflow (`ConfigContext`): the options
declared and the boolean values given on the command line. -/
structure ConfigContext where
  specs : List ConfigParamSpec
  given : List (String × Bool)

/-- Modelled from the spec: `cfg.options().get<bool>(name)`: the value given for the option,
else its declared default; `none` when the option is not declared. -/
def ConfigContext.get (cfg : ConfigContext) (name : String) : Option Bool :=
  match cfg.specs.find? fun s => s.name == name with
  | none => none
  | some s =>
    match cfg.given.lookup name with
    | some v => some v
    | none => some s.defaultValue

/-- The tables of the input. -/
inductive Table where
  | Header
  | XSections
  | PdfInfos
  | HeavyIons
  | Tracks
deriving DecidableEq, Repr

/-- The task structs of the source. -/
inductive Task where
  | Task1
  | Task2
  | Task3
deriving DecidableEq, Repr

/-- The parameters of the method `process` of each task, in order. -/
def Task.processParams (AODTOHEPMC_WITH_HEAVYION : Bool) : Task → List Table
  | .Task1 =>
    [.Header, .XSections, .PdfInfos] ++
      (if AODTOHEPMC_WITH_HEAVYION then [.HeavyIons] else []) ++ [.Tracks]
  | .Task2 => [.Header, .Tracks]
  | .Task3 => [.Header, .Tracks]

/-- Modelled from the spec: a data processor (`DataProcessorSpec`) as `adaptAnalysisTask` makes
it: the task it runs and its name. -/
structure DataProcessorSpec where
  task : Task
  name : String
deriving DecidableEq, Repr

/-- Modelled from the spec: `adaptAnalysisTask<T>(cfg, TaskName{name})`. -/
def adaptAnalysisTask (task : Task) (name : String) : DataProcessorSpec :=
  ⟨task, name⟩

/-- Function `defineDataProcessing`, the entry point; `none` stands for the failure of the
option lookup. -/
def defineDataProcessing (HEPMC_PROCESS_AUX : Bool) (cfg : ConfigContext) :
    Option (List DataProcessorSpec) :=
  if HEPMC_PROCESS_AUX then
    some [adaptAnalysisTask .Task3 "o2-aod-mc-to-hepmc"]
  else do
    if ← cfg.get "hepmc-aux" then
      return [adaptAnalysisTask .Task1 "o2-aod-to-hepmc"]
    return [adaptAnalysisTask .Task2 "o2-aod-to-hepmc"]

/-- Modelled from the spec: a call made on the converter `mConverter` (`AODToHepMC`), with its
arguments: `startEvent()`, `process(collision, xsections, pdfs[, heavyions])`,
`process(collision, tracks)` and `endEvent()`. -/
inductive ConverterCall (Header XSections PdfInfos HeavyIons Tracks : Type) where
  | startEvent
  | processAux (collision : Header) (xsections : XSections) (pdfs : PdfInfos)
      (heavyions : Option HeavyIons)
  | processTracks (collision : Header) (tracks : Tracks)
  | endEvent

section Tasks

variable {Header XSections PdfInfos HeavyIons Tracks : Type}

/-- The call is the one on the auxiliary tables. -/
def ConverterCall.isAux : ConverterCall Header XSections PdfInfos HeavyIons Tracks → Bool
  | .processAux _ _ _ _ => true
  | _ => false

/-- The call is `startEvent()`. -/
def ConverterCall.isStartEvent : ConverterCall Header XSections PdfInfos HeavyIons Tracks → Bool
  | .startEvent => true
  | _ => false

/-- The call is `endEvent()`. -/
def ConverterCall.isEndEvent : ConverterCall Header XSections PdfInfos HeavyIons Tracks → Bool
  | .endEvent => true
  | _ => false

/-- Modelled from the spec: the converter, as the sequence of the calls made on it. -/
abbrev Converter (Header XSections PdfInfos HeavyIons Tracks : Type) :=
  List (ConverterCall Header XSections PdfInfos HeavyIons Tracks)

/-- Method `Task1::process`: "Processing everything". -/
def Task1.process (AODTOHEPMC_WITH_HEAVYION : Bool)
    (mConverter : Converter Header XSections PdfInfos HeavyIons Tracks) (collision : Header)
    (xsections : XSections) (pdfs : PdfInfos) (heavyions : HeavyIons) (tracks : Tracks) :
    Converter Header XSections PdfInfos HeavyIons Tracks :=
  let mConverter := mConverter ++ [.startEvent]
  let mConverter := mConverter ++
    [.processAux collision xsections pdfs
      (if AODTOHEPMC_WITH_HEAVYION then some heavyions else none)]
  let mConverter := mConverter ++ [.processTracks collision tracks]
  mConverter ++ [.endEvent]

/-- Method `Task2::process`: "Processing only tracks". -/
def Task2.process (mConverter : Converter Header XSections PdfInfos HeavyIons Tracks)
    (collision : Header) (tracks : Tracks) :
    Converter Header XSections PdfInfos HeavyIons Tracks :=
  let mConverter := mConverter ++ [.startEvent]
  let mConverter := mConverter ++ [.processTracks collision tracks]
  mConverter ++ [.endEvent]

end Tasks

end AodMcToHepMC

namespace Absorber

/-! ## Polycones -/

/-- One cross-section of a polycone: the `z` position, the inner radius and the outer radius. -/
structure PconSection (K : Type) where
  z : K
  rmin : K
  rmax : K
deriving DecidableEq, Repr

/-- Modelled from the spec: the geometry library's polycone (`TGeoPcon`), whose implementation is
not part of the sources. A polycone is an ordered sequence of `(z, rmin, rmax)` cross-sections
with an angular range; all sections exist from construction on and are filled in by
`DefineSection`. -/
structure TGeoPcon (K : Type) where
  phi1 : K
  dphi : K
  sections : List (PconSection K)
deriving DecidableEq, Repr

namespace TGeoPcon

variable {K : Type} [LinearOrderedField K]

/-- Constructor `TGeoPcon(phi1, dphi, nz)`: `nz` sections, all zero until defined. -/
def new (phi1 dphi : K) (nz : Nat) : TGeoPcon K :=
  { phi1 := phi1, dphi := dphi, sections := List.replicate nz ⟨0, 0, 0⟩ }

/-- Number of sections, `GetNz()`. -/
def GetNz (p : TGeoPcon K) : Nat := p.sections.length

/-- Position of section `i`, `GetZ(i)`. -/
def GetZ (p : TGeoPcon K) (i : Nat) : K := (p.sections.getD i ⟨0, 0, 0⟩).z

/-- Inner radius of section `i`, `GetRmin(i)`. -/
def GetRmin (p : TGeoPcon K) (i : Nat) : K := (p.sections.getD i ⟨0, 0, 0⟩).rmin

/-- Outer radius of section `i`, `GetRmax(i)`. -/
def GetRmax (p : TGeoPcon K) (i : Nat) : K := (p.sections.getD i ⟨0, 0, 0⟩).rmax

/-- Call `DefineSection(snum, z, rmin, rmax)`: stores the three values in section `snum`
(a section number outside `0..nz-1` stores nothing). -/
def DefineSection (p : TGeoPcon K) (snum : Nat) (z rmin rmax : K) : TGeoPcon K :=
  { p with sections := p.sections.set snum ⟨z, rmin, rmax⟩ }

end TGeoPcon

variable {K : Type} [LinearOrderedField K]

/-- Function `MakeShapeFromTemplate(pcon, drMin, drMax)`: a new polycone with the sections of `pcon`,
the inner radii changed by `drMin` and the outer radii by `drMax`. -/
def MakeShapeFromTemplate (pcon : TGeoPcon K) (drMin drMax : K) : TGeoPcon K :=
  let nz := pcon.GetNz
  let cpcon := TGeoPcon.new 0 360 nz
  (List.range nz).foldl
    (fun cpcon i =>
      cpcon.DefineSection i (pcon.GetZ i) (pcon.GetRmin i + drMin) (pcon.GetRmax i + drMax))
    cpcon

/-- A three-section polycone used to evaluate the helper on concrete numbers. -/
def samplePcon : TGeoPcon ℚ :=
  { phi1 := 0, dphi := 360, sections := [⟨0, 1, 5⟩, ⟨2, 1, 6⟩, ⟨2, 3, 7⟩] }


/-! ## Materials and tracking media -/

/-- Arguments of one call of the helper `Material(imat, name, a, z, dens, radl, absl)`. -/
structure MaterialArgs where
  imat : Int
  name : String
  a : ℚ
  z : ℚ
  dens : ℚ
  radl : ℚ
  absl : ℚ
deriving DecidableEq, Repr

/-- Arguments of one call of the helper `Mixture(imat, name, a, z, dens, nlmat, wmat)`. -/
structure MixtureArgs where
  imat : Int
  name : String
  a : List ℚ
  z : List ℚ
  dens : ℚ
  nlmat : Int
  wmat : List ℚ
deriving DecidableEq, Repr

/-- Arguments of one call of the helper
`Medium(numed, name, nmat, isvol, ifield, fieldm, tmaxfd, stemax, deemax, epsil, stmin)`. -/
structure MediumArgs where
  numed : Int
  name : String
  nmat : Int
  isvol : Int
  ifield : Int
  fieldm : ℚ
  tmaxfd : ℚ
  stemax : ℚ
  deemax : ℚ
  epsil : ℚ
  stmin : ℚ
deriving DecidableEq, Repr

/-- One entry of the registry: the arguments of the helper call that made it and the key the
registry returned for it. -/
inductive Registration where
  | material (x : MaterialArgs) (kmat : Int)
  | mixture (x : MixtureArgs) (kmat : Int)
  | medium (x : MediumArgs) (kmed : Int)
deriving DecidableEq, Repr

/-- Modelled from the spec: the material and medium registry behind `TVirtualMC::GetMC()` and
`gGeoManager`, whose implementation is not part of the sources. It keeps every registration in
call order, counts the materials and the media it has been given and hands out that count as the
key of a new entry, does not change the arrays it is given, and is searched by name. -/
structure VMC where
  entries : List Registration
  nmat : Int
  nmed : Int
deriving DecidableEq, Repr

namespace VMC

/-- A registry that holds nothing. -/
def empty : VMC := ⟨[], 0, 0⟩

/-- The `Material` helper calls recorded, in call order. -/
def materials (mc : VMC) : List MaterialArgs :=
  mc.entries.filterMap fun e =>
    match e with
    | .material x _ => some x
    | _ => none

/-- The `Mixture` helper calls recorded, in call order. -/
def mixtures (mc : VMC) : List MixtureArgs :=
  mc.entries.filterMap fun e =>
    match e with
    | .mixture x _ => some x
    | _ => none

/-- The `Medium` helper calls recorded, in call order. -/
def media (mc : VMC) : List MediumArgs :=
  mc.entries.filterMap fun e =>
    match e with
    | .medium x _ => some x
    | _ => none

/-- Registration of a material through `TVirtualMC::Material(kmat, ...)`: the key `kmat` is set
by the registry. -/
def Material (mc : VMC) (x : MaterialArgs) : Int × VMC :=
  let kmat := mc.nmat + 1
  (kmat, { mc with entries := mc.entries ++ [.material x kmat], nmat := kmat })

/-- Registration of a mixture through `TVirtualMC::Mixture(kmat, ...)`. -/
def Mixture (mc : VMC) (x : MixtureArgs) : Int × VMC :=
  let kmat := mc.nmat + 1
  (kmat, { mc with entries := mc.entries ++ [.mixture x kmat], nmat := kmat })

/-- Registration of a medium through `TVirtualMC::Medium(kmed, ...)`. -/
def Medium (mc : VMC) (x : MediumArgs) : Int × VMC :=
  let kmed := mc.nmed + 1
  (kmed, { mc with entries := mc.entries ++ [.medium x kmed], nmed := kmed })

/-- Lookup of a medium by name, `gGeoManager->GetMedium(x)`: the first medium registered under
the name, or nothing. -/
def GetMedium (mc : VMC) (x : String) : Option MediumArgs :=
  mc.media.find? fun med => med.name == x

end VMC

/-- Helper `Material`: registers a material and returns the key given by the registry (the
number `imat` is not passed on to it; the optional user buffer `buf`, `nwbuf` is never given by
`createMaterials` and is left out, here and in `Medium`). -/
def Material (imat : Int) (name : String) (a z dens radl absl : ℚ) : StateM VMC Int := fun mc =>
  mc.Material ⟨imat, name, a, z, dens, radl, absl⟩

/-- Helper `Mixture`: registers a mixture and returns the key given by the registry. -/
def Mixture (imat : Int) (name : String) (a z : List ℚ) (dens : ℚ) (nlmat : Int)
    (wmat : List ℚ) : StateM VMC Int := fun mc =>
  mc.Mixture ⟨imat, name, a, z, dens, nlmat, wmat⟩

/-- Helper `Medium`: registers a tracking medium and returns the key given by the registry. -/
def Medium (numed : Int) (name : String) (nmat isvol ifield : Int)
    (fieldm tmaxfd stemax deemax epsil stmin : ℚ) : StateM VMC Int := fun mc =>
  mc.Medium ⟨numed, name, nmat, isvol, ifield, fieldm, tmaxfd, stemax, deemax, epsil, stmin⟩

/-- First loop over the polymer-concrete weights: `wtot += wPolyCc[i]` for `i = 0..8`. -/
def wtotLoop (wPolyCc : List ℚ) : ℚ :=
  (List.range 9).foldl (fun wtot i => wtot + wPolyCc.getD i 0) 0

/-- Second loop over the polymer-concrete weights: `wPolyCc[i] /= wtot` for `i = 0..8`. -/
def normalizeLoop (wPolyCc : List ℚ) (wtot : ℚ) : List ℚ :=
  (List.range 9).foldl (fun wPolyCc i => wPolyCc.set i (wPolyCc.getD i 0 / wtot)) wPolyCc

/-- The array `wPolyCc` as initialised in `createMaterials`, before normalisation. -/
def wPolyCcLiteral : List ℚ := [4.9, 1.2, 1.3, 1.1, 0.15, 0.02, 0.06, 0.7, 1.1]

/-- Method `Absorber::createMaterials`: the material table of the muon absorber.
`initFieldTrackingParams` stands for `o2::Base::Detector::initFieldTrackingParams`, which
receives `isxfld` and `sxmgmx` by reference and is not part of the sources. -/
def createMaterials (initFieldTrackingParams : Int → ℚ → Int × ℚ) : StateM VMC Unit := do
  let (isxfld, sxmgmx) := initFieldTrackingParams 2 10
  -- Air
  let aAir : List ℚ := [12.0107, 14.0067, 15.9994, 39.948]
  let zAir : List ℚ := [6, 7, 8, 18]
  let wAir : List ℚ := [0.000124, 0.755267, 0.231781, 0.012827]
  let dAir : ℚ := 1.20479e-3
  let dAir1 : ℚ := 1.20479e-10
  -- Polyethylene
  let apoly : List ℚ := [12.01, 1]
  let zpoly : List ℚ := [6, 1]
  let wpoly : List ℚ := [0.33, 0.67]
  -- Concrete
  let aconc : List ℚ := [1, 12.01, 15.994, 22.99, 24.305, 26.98, 28.086, 39.1, 40.08, 55.85]
  let zconc : List ℚ := [1, 6, 8, 11, 12, 13, 14, 19, 20, 26]
  let wconc : List ℚ :=
    [0.01, 0.001, 0.529107, 0.016, 0.002, 0.033872, 0.337021, 0.013, 0.044, 0.014]
  -- Steel
  let asteel : List ℚ := [55.847, 51.9961, 58.6934, 28.0855]
  let zsteel : List ℚ := [26, 24, 28, 14]
  let wsteel : List ℚ := [0.715, 0.18, 0.1, 0.005]
  -- Ni-Cu-W alloy
  let aniwcu : List ℚ := [58.6934, 183.84, 63.546]
  let zniwcu : List ℚ := [28, 74, 29]
  let wniwcu : List ℚ := [0.015, 0.95, 0.035]
  -- Poly Concrete
  --                      H     Li     F       C      Al     Si      Ca      Pb     O
  let aPolyCc : List ℚ := [1, 6.941, 18.998, 12.01, 26.98, 28.086, 40.078, 207.2, 15.999]
  let zPolyCc : List ℚ := [1, 3, 9, 6, 13, 14, 20, 82, 8]
  let wPolyCc : List ℚ := wPolyCcLiteral
  let wtot := wtotLoop wPolyCc
  let wPolyCc := normalizeLoop wPolyCc wtot
  -- Insulation powder
  --                    Si         O       Ti     Al
  let ains : List ℚ := [28.0855, 15.9994, 47.867, 26.982]
  let zins : List ℚ := [14, 8, 22, 13]
  let wins : List ℚ := [0.3019, 0.4887, 0.1914, 0.018]
  -- Tracking media parameters
  let epsil : ℚ := 0.001
  let stemax : ℚ := -0.01
  let tmaxfd : ℚ := -20
  let deemax : ℚ := -0.3
  let stmin : ℚ := -0.8
  -- Carbon Material and Medium
  let kC0 ← Material 6 "CARBON0$" 12.01 6 1.75 24.4 49.9
  let kC1 ← Material 26 "CARBON1$" 12.01 6 1.75 24.4 49.9
  let kC2 ← Material 46 "CARBON2$" 12.01 6 1.75 24.4 49.9
  discard <| Medium 6 "ABSO_C_C0" kC0 0 isxfld sxmgmx tmaxfd stemax deemax epsil stmin
  discard <| Medium 26 "ABSO_C_C1" kC1 0 isxfld sxmgmx tmaxfd stemax deemax epsil stmin
  discard <| Medium 46 "ABSO_C_C2" kC2 0 isxfld sxmgmx tmaxfd stemax deemax epsil stmin
  -- Aluminum Material and Medium
  let kAl0 ← Material 9 "ALUMINIUM0$" 26.98 13 2.7 8.9 37.2
  let kAl1 ← Material 29 "ALUMINIUM1$" 26.98 13 2.7 8.9 37.2
  let kAl2 ← Material 49 "ALUMINIUM2$" 26.98 13 2.7 8.9 37.2
  discard <| Medium 9 "ABSO_ALU_C0" kAl0 0 isxfld sxmgmx tmaxfd stemax deemax epsil stmin
  discard <| Medium 29 "ABSO_ALU_C1" kAl1 0 isxfld sxmgmx tmaxfd stemax deemax epsil stmin
  discard <| Medium 49 "ABSO_ALU_C2" kAl2 0 isxfld sxmgmx tmaxfd stemax deemax epsil stmin
  -- Magnesium
  let kMAG ← Material 7 "MAGNESIUM$" 24.31 12 1.74 25.3 46.0
  discard <| Medium 7 "ABSO_MG_C0" kMAG 0 isxfld sxmgmx tmaxfd stemax deemax epsil stmin
  -- Iron
  let kFe0 ← Material 10 "IRON0$" 55.85 26 7.87 1.76 17.1
  let kFe1 ← Material 30 "IRON1$" 55.85 26 7.87 1.76 17.1
  let kFe2 ← Material 50 "IRON2$" 55.85 26 7.87 1.76 17.1
  discard <| Medium 10 "ABSO_FE_C0" kFe0 0 isxfld sxmgmx tmaxfd stemax deemax epsil stmin
  discard <| Medium 30 "ABSO_FE_C1" kFe1 0 isxfld sxmgmx tmaxfd stemax deemax epsil stmin
  discard <| Medium 50 "ABSO_FE_C2" kFe2 0 isxfld sxmgmx tmaxfd stemax deemax epsil stmin
  -- Copper
  let kCu0 ← Material 11 "COPPER0$" 63.55 29 8.96 1.43 15.1
  let kCu1 ← Material 31 "COPPER1$" 63.55 29 8.96 1.43 15.1
  let kCu2 ← Material 51 "COPPER2$" 63.55 29 8.96 1.43 15.1
  discard <| Medium 11 "ABSO_Cu_C0" kCu0 0 isxfld sxmgmx tmaxfd stemax deemax epsil stmin
  discard <| Medium 31 "ABSO_Cu_C1" kCu1 0 isxfld sxmgmx tmaxfd (-stemax) deemax epsil stmin
  discard <| Medium 51 "ABSO_Cu_C2" kCu2 0 isxfld sxmgmx tmaxfd stemax deemax epsil stmin
  -- Tungsten
  let kW0 ← Material 12 "TUNGSTEN0$ " 183.85 74 19.3 0.35 10.3
  let kW1 ← Material 32 "TUNGSTEN1$ " 183.85 74 19.3 0.35 10.3
  let kW2 ← Material 52 "TUNGSTEN2$ " 183.85 74 19.3 0.35 10.3
  discard <| Medium 12 "ABSO_W_C0" kW0 0 isxfld sxmgmx tmaxfd stemax deemax epsil stmin
  discard <| Medium 32 "ABSO_W_C1" kW1 0 isxfld sxmgmx tmaxfd (-stemax) deemax epsil stmin
  discard <| Medium 52 "ABSO_W_C2" kW2 0 isxfld sxmgmx tmaxfd stemax deemax epsil stmin
  -- Ni-W-Cu
  let k1 ← Mixture 21 "Ni-W-Cu0$" aniwcu zniwcu 18.78 3 wniwcu
  let k2 ← Mixture 41 "Ni-W-Cu1$" aniwcu zniwcu 18.78 3 wniwcu
  let k3 ← Mixture 61 "Ni-W-Cu2$" aniwcu zniwcu 18.78 3 wniwcu
  discard <| Medium 21 "ABSO_Ni/W0" k1 0 isxfld sxmgmx tmaxfd stemax deemax epsil stmin
  discard <| Medium 41 "ABSO_Ni/W1" k2 0 isxfld sxmgmx tmaxfd stemax deemax epsil stmin
  discard <| Medium 61 "ABSO_Ni/W3" k3 0 isxfld sxmgmx tmaxfd stemax deemax epsil stmin
  -- Lead
  let kPb0 ← Material 13 "LEAD0$" 207.19 82 11.35 0.56 18.5
  let kPb1 ← Material 33 "LEAD1$" 207.19 82 11.35 0.56 18.5
  let kPb2 ← Material 53 "LEAD2$" 207.19 82 11.35 0.56 18.5
  discard <| Medium 13 "ABSO_PB_C0" kPb0 0 isxfld sxmgmx tmaxfd stemax deemax epsil stmin
  discard <| Medium 33 "ABSO_PB_C1" kPb1 0 isxfld sxmgmx tmaxfd (-stemax) deemax epsil stmin
  discard <| Medium 53 "ABSO_PB_C2" kPb2 0 isxfld sxmgmx tmaxfd stemax deemax epsil stmin
  -- Insulation Powder
  let kINS0 ← Mixture 14 "INSULATION0$" ains zins 0.41 4 wins
  let kINS1 ← Mixture 34 "INSULATION1$" ains zins 0.41 4 wins
  let kINS2 ← Mixture 54 "INSULATION2$" ains zins 0.41 4 wins
  discard <| Medium 14 "ABSO_INS_C0" kINS0 0 isxfld sxmgmx tmaxfd stemax deemax epsil stmin
  discard <| Medium 34 "ABSO_INS_C1" kINS1 0 isxfld sxmgmx tmaxfd stemax deemax epsil stmin
  discard <| Medium 54 "ABSO_INS_C2" kINS2 0 isxfld sxmgmx tmaxfd stemax deemax epsil stmin
  -- Air
  let kAir0 ← Mixture 15 "AIR0$" aAir zAir dAir 4 wAir
  let kAir1 ← Mixture 35 "AIR1$" aAir zAir dAir 4 wAir
  let kAir2 ← Mixture 55 "AIR2$" aAir zAir dAir 4 wAir
  discard <| Medium 15 "ABSO_AIR_C0" kAir0 0 isxfld sxmgmx tmaxfd stemax deemax epsil stmin
  discard <| Medium 35 "ABSO_AIR_C1" kAir1 0 isxfld sxmgmx tmaxfd stemax deemax epsil stmin
  discard <| Medium 55 "ABSO_AIR_C2" kAir2 0 isxfld sxmgmx tmaxfd stemax deemax epsil stmin
  -- Vacuum
  let kVA0 ← Mixture 16 "VACUUM0$" aAir zAir dAir1 4 wAir
  let kVA1 ← Mixture 36 "VACUUM1$" aAir zAir dAir1 4 wAir
  let kVA2 ← Mixture 56 "VACUUM2$" aAir zAir dAir1 4 wAir
  discard <| Medium 16 "ABSO_VA_C0" kVA0 0 isxfld sxmgmx tmaxfd stemax deemax epsil stmin
  discard <| Medium 36 "ABSO_VA_C1" kVA1 0 isxfld sxmgmx tmaxfd stemax deemax epsil stmin
  discard <| Medium 56 "ABSO_VA_C2" kVA2 0 isxfld sxmgmx tmaxfd stemax deemax epsil stmin
  -- Concrete
  let kCC0 ← Mixture 17 "CONCRETE0$" aconc zconc 2.35 10 wconc
  let kCC1 ← Mixture 37 "CONCRETE1$" aconc zconc 2.35 10 wconc
  let kCC2 ← Mixture 57 "CONCRETE2$" aconc zconc 2.35 10 wconc
  discard <| Medium 17 "ABSO_CC_C0" kCC0 0 isxfld sxmgmx tmaxfd stemax deemax epsil stmin
  discard <| Medium 37 "ABSO_CC_C1" kCC1 0 isxfld sxmgmx tmaxfd stemax deemax epsil stmin
  discard <| Medium 57 "ABSO_CC_C2" kCC2 0 isxfld sxmgmx tmaxfd stemax deemax epsil stmin
  -- Polyethilene CH2
  let kCH2_0 ← Mixture 18 "POLYETHYLEN0$" apoly zpoly 0.95 (-2) wpoly
  let kCH2_1 ← Mixture 38 "POLYETHYLEN1$" apoly zpoly 0.95 2 wpoly
  let kCH2_2 ← Mixture 58 "POLYETHYLEN2$" apoly zpoly 0.95 2 wpoly
  discard <| Medium 18 "ABSO_CH2_C0" kCH2_0 0 isxfld sxmgmx tmaxfd stemax deemax epsil stmin
  discard <| Medium 38 "ABSO_CH2_C1" kCH2_1 0 isxfld sxmgmx tmaxfd stemax deemax epsil stmin
  discard <| Medium 58 "ABSO_CH2_C2" kCH2_2 0 isxfld sxmgmx tmaxfd stemax deemax epsil stmin
  -- Steel
  let kST0 ← Mixture 19 "STAINLESS STEEL0$" asteel zsteel 7.88 4 wsteel
  let kST1 ← Mixture 39 "STAINLESS STEEL1$" asteel zsteel 7.88 4 wsteel
  let kST2 ← Mixture 59 "STAINLESS STEEL2$" asteel zsteel 7.88 4 wsteel
  discard <| Medium 19 "ABSO_ST_C0" kST0 0 isxfld sxmgmx tmaxfd stemax deemax epsil stmin
  discard <| Medium 39 "ABSO_ST_C1" kST1 0 isxfld sxmgmx tmaxfd stemax deemax epsil stmin
  discard <| Medium 59 "ABSO_ST_C3" kST2 0 isxfld sxmgmx tmaxfd stemax deemax epsil stmin
  -- Polymer Concrete
  let kPolyC0 ← Mixture 20 "Poly Concrete0$" aPolyCc zPolyCc 3.53 (-9) wPolyCc
  let kPolyC1 ← Mixture 40 "Poly Concrete1$" aPolyCc zPolyCc 3.53 9 wPolyCc
  let kPolyC2 ← Mixture 60 "Poly Concrete2$" aPolyCc zPolyCc 3.53 9 wPolyCc
  discard <| Medium 20 "ABSO_PCc_C0" kPolyC0 0 isxfld sxmgmx tmaxfd stemax deemax epsil stmin
  discard <| Medium 40 "ABSO_PCc_C1" kPolyC1 0 isxfld sxmgmx tmaxfd stemax deemax epsil stmin
  discard <| Medium 60 "ABSO_PCc_C3" kPolyC2 0 isxfld sxmgmx tmaxfd stemax deemax epsil stmin

/-- The registry after one run of `createMaterials` on an empty registry. -/
def registered (initFieldTrackingParams : Int → ℚ → Int × ℚ) : VMC :=
  ((createMaterials initFieldTrackingParams).run VMC.empty).2

/-- The substances of the material table, each with the number `n` of its normal-cut (tier 0)
`Material`/`Mixture` and `Medium` calls. -/
def substances : List (String × Int) :=
  [("carbon", 6), ("aluminum", 9), ("magnesium", 7), ("iron", 10), ("copper", 11),
    ("tungsten", 12), ("Ni-W-Cu alloy", 21), ("lead", 13), ("insulation", 14), ("air", 15),
    ("vacuum", 16), ("concrete", 17), ("polyethylene", 18), ("stainless steel", 19),
    ("polymer concrete", 20)]

/-- The numbers passed to the `Material` and `Mixture` helpers, in call order. -/
def VMC.materialNumbers (mc : VMC) : List Int :=
  mc.entries.filterMap fun e =>
    match e with
    | .material x _ => some x.imat
    | .mixture x _ => some x.imat
    | .medium _ _ => none

/-- The numbers passed to the `Medium` helper, in call order. -/
def VMC.mediumNumbers (mc : VMC) : List Int :=
  mc.media.map fun x => x.numed

/-- The registrations of the substance whose tier 0 number is `n` are exactly three material
(or mixture) calls and three medium calls, numbered `n`, `n + 20` and `n + 40`. -/
def RegisteredInThreeTiers (mc : VMC) (n : Int) : Prop :=
  mc.materialNumbers.filter (fun k => k = n ∨ k = n + 20 ∨ k = n + 40) = [n, n + 20, n + 40] ∧
    mc.mediumNumbers.filter (fun k => k = n ∨ k = n + 20 ∨ k = n + 40) = [n, n + 20, n + 40]

/-- The number `k` is that of a tight-cut variant of the substance whose tier 0 number is `n`. -/
def IsTightVariant (n k : Int) : Prop := k = n + 20 ∨ k = n + 40

/-- Two `Material` calls have the same composition arguments. -/
def SameMaterial (x0 x : MaterialArgs) : Prop :=
  x.a = x0.a ∧ x.z = x0.z ∧ x.dens = x0.dens ∧ x.radl = x0.radl ∧ x.absl = x0.absl

/-- Two `Mixture` calls have the same composition arguments, `nlmat` left aside. -/
def SameMixture (x0 x : MixtureArgs) : Prop :=
  x.a = x0.a ∧ x.z = x0.z ∧ x.dens = x0.dens ∧ x.wmat = x0.wmat

/-- Two `Medium` calls have the same transport arguments, `stemax` left aside. -/
def SameTransport (m0 m : MediumArgs) : Prop :=
  m.isvol = m0.isvol ∧ m.ifield = m0.ifield ∧ m.fieldm = m0.fieldm ∧ m.tmaxfd = m0.tmaxfd ∧
    m.deemax = m0.deemax ∧ m.epsil = m0.epsil ∧ m.stmin = m0.stmin

instance (mc : VMC) (n : Int) : Decidable (RegisteredInThreeTiers mc n) := by
  unfold RegisteredInThreeTiers; infer_instance

instance (n k : Int) : Decidable (IsTightVariant n k) := by
  unfold IsTightVariant; infer_instance

instance (x0 x : MaterialArgs) : Decidable (SameMaterial x0 x) := by
  unfold SameMaterial; infer_instance

instance (x0 x : MixtureArgs) : Decidable (SameMixture x0 x) := by
  unfold SameMixture; infer_instance

instance (m0 m : MediumArgs) : Decidable (SameTransport m0 m) := by
  unfold SameTransport; infer_instance

/-- Stand-in for `initFieldTrackingParams` that leaves `isxfld` and `sxmgmx` as they are, used
to evaluate the material table on concrete numbers. -/
def keepFieldParams (isxfld : Int) (sxmgmx : ℚ) : Int × ℚ := (isxfld, sxmgmx)

/-! ## Media looked up by `ConstructGeometry` -/

/-- The lambda `GetMedium` of `ConstructGeometry`: the lookup by name followed by
`assert(med)`; `none` stands for the failed assertion. The geometry manager itself is taken to
exist, so `assert(gGeoManager)` holds. -/
def GetMedium (mc : VMC) (x : String) : Option MediumArgs :=
  mc.GetMedium x

/-- The media held by the local variables of `ConstructGeometry`. -/
structure Media where
  kMedNiW : MediumArgs
  kMedNiWsh : MediumArgs
  kMedSteel : MediumArgs
  kMedSteelSh : MediumArgs
  kMedAir : MediumArgs
  kMedPb : MediumArgs
  kMedPbSh : MediumArgs
  kMedConcSh : MediumArgs
  kMedCH2Sh : MediumArgs
  kMedC : MediumArgs
  kMedCsh : MediumArgs
  kMedAlu : MediumArgs
  kMedMg : MediumArgs
deriving DecidableEq, Repr

/-- The names `ConstructGeometry` passes to `GetMedium`, in program order. -/
def mediumLookups : List String :=
  ["ABSO_Ni/W0", "ABSO_Ni/W3", "ABSO_ST_C0", "ABSO_ST_C3", "ABSO_AIR_C0", "ABSO_PB_C0",
    "ABSO_PB_C2", "ABSO_CC_C2", "ABSO_CH2_C2", "ABSO_C_C0", "ABSO_C_C2", "ABSO_ALU_C0",
    "ABSO_MG_C0"]

/-- The first part of `Absorber::ConstructGeometry`, run on the registry `mc0`:
`createMaterials()` and then the thirteen medium lookups, each guarded by its assertion. The
result is `none` when an assertion fails, and else the media found and the registry. -/
def ConstructGeometry_media (initFieldTrackingParams : Int → ℚ → Int × ℚ) (mc0 : VMC) :
    Option (Media × VMC) := do
  let mc := ((createMaterials initFieldTrackingParams).run mc0).2
  let kMedNiW ← GetMedium mc "ABSO_Ni/W0"
  let kMedNiWsh ← GetMedium mc "ABSO_Ni/W3"
  let kMedSteel ← GetMedium mc "ABSO_ST_C0"
  let kMedSteelSh ← GetMedium mc "ABSO_ST_C3"
  let kMedAir ← GetMedium mc "ABSO_AIR_C0"
  let kMedPb ← GetMedium mc "ABSO_PB_C0"
  let kMedPbSh ← GetMedium mc "ABSO_PB_C2"
  let kMedConcSh ← GetMedium mc "ABSO_CC_C2"
  let kMedCH2Sh ← GetMedium mc "ABSO_CH2_C2"
  let kMedC ← GetMedium mc "ABSO_C_C0"
  let kMedCsh ← GetMedium mc "ABSO_C_C2"
  let kMedAlu ← GetMedium mc "ABSO_ALU_C0"
  let kMedMg ← GetMedium mc "ABSO_MG_C0"
  pure ({ kMedNiW, kMedNiWsh, kMedSteel, kMedSteelSh, kMedAir, kMedPb, kMedPbSh, kMedConcSh,
          kMedCH2Sh, kMedC, kMedCsh, kMedAlu, kMedMg }, mc)

/-! ## Dimensions of the front absorber -/

/-- The functions of `TMath` that `ConstructGeometry` calls. They are not part of the sources
and are a parameter of the geometry: the real functions over `ℝ`, any approximation over `ℚ`. -/
structure TMath (K : Type) where
  Pi : K
  Tan : K → K
  Cos : K → K
  ATan : K → K

/-- Rational stand-ins for the `TMath` functions (truncated power series), used to evaluate the
geometry on concrete numbers. -/
def TMath.approx : TMath ℚ :=
  { Pi := 355 / 113
    Tan := fun x => x + x ^ 3 / 3
    Cos := fun x => 1 - x ^ 2 / 2
    ATan := fun x => x - x ^ 3 / 3 }

def kDegRad (m : TMath K) : K := m.Pi / 180
/-- Mimimum angle of the tracking region. -/
def angle02 (m : TMath K) : K := m.Tan (2 * kDegRad m)
/-- Maximum angle of the tracking region. -/
def angle10 (m : TMath K) : K := m.Tan (10 * kDegRad m)
/-- Opening angle of W rear plug. -/
def angle03 (m : TMath K) : K := m.Tan (3 * kDegRad m)
def angle05 (m : TMath K) : K := m.Tan (5 * kDegRad m)
/-- Opening angle of the FA snout. -/
def angle24 (m : TMath K) : K := m.Tan (24 * kDegRad m)
/-- Opening angle of the inner cone. -/
def angle71 (m : TMath K) : K := m.Tan (0.697 * kDegRad m)
/-- Starting position in z. -/
def zFa : K := 90.0

/-! ### Pos 1: steel envelope -/

/-- Thickness of the envelope. -/
def dSteelEnvelope : K := 1.5
def dzSteelEnvelopeFC : K := 4.00
def rInSteelEnvelopeFC1 : K := 35.90 / 2
def rInSteelEnvelopeFC2 (m : TMath K) : K := rInSteelEnvelopeFC1 + dzSteelEnvelopeFC * angle10 m
def rOuSteelEnvelopeFC1 : K := 88.97 / 2
def rOuSteelEnvelopeFC2 (m : TMath K) : K := rOuSteelEnvelopeFC1 + dzSteelEnvelopeFC * angle05 m
def dzSteelEnvelopeC5 : K := 168.9
def rInSteelEnvelopeC5 (m : TMath K) : K :=
  rOuSteelEnvelopeFC2 m - dSteelEnvelope / m.Cos (5 * kDegRad m)
def rOuSteelEnvelopeC5 (m : TMath K) : K := rOuSteelEnvelopeFC2 m
def dzSteelEnvelopeC10 : K := 227.1 - 4
def rInSteelEnvelopeC10 : K := 116.22 / 2
def rOuSteelEnvelopeC10 (m : TMath K) : K :=
  rInSteelEnvelopeC10 + dSteelEnvelope / m.Cos (10 * kDegRad m)
def dzSteelEnvelopeR : K := 4
def rInSteelEnvelopeR2 : K := 196.3 / 2
def rOuSteelEnvelopeR2 : K := 212.0 / 2
def rInSteelEnvelopeR1 (m : TMath K) : K := rInSteelEnvelopeR2 - dzSteelEnvelopeR * angle10 m
def rOuSteelEnvelopeR1 (m : TMath K) : K :=
  rInSteelEnvelopeR1 m + dSteelEnvelope / m.Cos (10 * kDegRad m)
def dzSteelEnvelopeFI : K := 1
def rInSteelEnvelopeFI : K := 42.0 / 2
def rOuSteelEnvelopeFI : K := 85.0 / 2 + 0.06

/-! ### Pos 2: end plate -/

def dxEndPlate : K := 220.0
def dyEndPlate : K := 220.0
def dzEndPlate : K := 6.0
def rInEndPlate : K := 52.5 / 2
def rInEndPlateI : K := 175.3 / 2
def rOuEndPlateI : K := 212.2 / 2
def dzEndPlateI : K := 2.0

/-! ### Pos 3: flange -/

def dzFaFlange : K := 2
def rOuFaFlange : K := 41.0 / 2
def dzFaFlange1 : K := 0.8
def rInFaFlange1 : K := 33.4 / 2
def dzFaFlange2 : K := 1.2
def rInFaFlange2 : K := 36.4 / 2

/-! ### Pos 4+5: W plate A+B -/

def dzFaWPlateF : K := 2.00
def rInFaQPlateF : K := 20.50
def rOuFaQPlateF : K := 40.05
def dzFaWPlateC1 : K := 7.95
def rInFaQPlateC1 : K := 16.35
def rOuFaQPlateC1 (m : TMath K) : K := rOuFaQPlateF + dzFaWPlateF * angle24 m
def dzFaWPlateC2 : K := 1.05
def rInFaQPlateC2 (m : TMath K) : K := rInFaQPlateC1 + dzFaWPlateC1 * angle10 m
def rOuFaQPlateC2 (m : TMath K) : K := rOuFaQPlateC1 m + dzFaWPlateC1 * angle24 m
def rInFaQPlateC3 : K := 17.94
def rOuFaQPlateC3 : K := 44.49
def dzFaWPlateR : K := 1.00
def rInFaQPlateR : K := 21.00
def rOuFaQPlateR : K := 42.55
/-- Length of the plate without the rear flange. -/
def dzFaWPlate : K := dzFaWPlateF + dzFaWPlateC1 + dzFaWPlateC2

/-! ### Pos 6-9: tungsten tubes -/

def rInFaWTube1C1 : K := 9.1 / 2
def dzFaWTube1C : K := 98.8
def rOuFaWTube1C1 : K := 13.8 / 2
def rOuFaWTube1C2 : K := 20.7 / 2
def dzFaWTube1R : K := 1.0
def rOuFaWTube1R : K := 15.0 / 2
def dzFaWTube1 : K := dzFaWTube1C + dzFaWTube1R
def dzFaWTube2C : K := 142.9
def rInFaWTube2C1 : K := 9.10 / 2
def rInFaWTube2C2 : K := 12.58 / 2
def rOuFaWTube2C1 : K := 20.70 / 2
def rOuFaWTube2C2 : K := 30.72 / 2 - 0.05
def dzFaWTube2F : K := 0.6
def rInFaWTube2F : K := 15.4 / 2
def dzFaWTube2 : K := dzFaWTube2C + dzFaWTube2F
def dzFaWTube3 : K := 25.0
def rInFaWTube3C1 : K := 12.59 / 2
def rInFaWTube3C2 : K := 13.23 / 2
def rOuFaWTube3C1 : K := 30.60 / 2
def rOuFaWTube3C2 : K := 32.35 / 2
def dzFaWTube4 : K := 31.0
def rInFaWTube4C1 : K := 13.23 / 2
def rInFaWTube4C2 : K := 13.98 / 2
def rOuFaWTube4C1 : K := 48.80 / 2
def rOuFaWTube4C2 : K := 52.05 / 2

/-! ### Pos 11: graphite cone -/

def dzFaGraphiteCone : K := 225.0
/-- Straight section, start of the 2 deg inner cone. -/
def dzFaGraphiteConeS : K := 108.3
def rInFaGraphiteCone1 : K := 4.5
def rOuFaGraphiteCone1 (m : TMath K) : K := (zFa + dzFaFlange) * angle10 m
def rInFaGraphiteCone2 : K := 7.0
def rOuFaGraphiteCone2 (m : TMath K) : K := (zFa + dzFaFlange + dzFaGraphiteConeS) * angle10 m
def rInFaGraphiteCone3 : K := 11.0
def rOuFaGraphiteCone3 (m : TMath K) : K := (zFa + dzFaFlange + dzFaGraphiteCone) * angle10 m

/-! ### Pos 12: lead cone -/

def dzFaPbCone5 : K := 168.9
def rInFaPbCone5 : K := 37.35 / 2
def rOuFaPbCone5 : K := 85.66 / 2
def dzFaPbCone10 : K := 25.9
def rInFaPbCone10 (m : TMath K) : K := rInFaPbCone5 + dzFaPbCone5 * angle10 m
def rOuFaPbCone10 : K := 115.2 / 2
def rInFaPbConeE : K := 106.05 / 2
def rOuFaPbConeE : K := 124.35 / 2
def dzFaPbCone : K := dzFaPbCone5 + dzFaPbCone10

/-! ### Pos 13-16: concrete cone, polyethylene parts, steel plates -/

def dzFaConcreteCone : K := 126
def rOuFaConcreteCone1 (m : TMath K) : K := rOuFaGraphiteCone3 m
def rInFaConcreteCone1 : K := 11
def rOuFaConcreteCone2 (m : TMath K) : K := rOuFaConcreteCone1 m + dzFaConcreteCone * angle10 m
def rInFaConcreteCone2 (m : TMath K) : K := rInFaConcreteCone1 + dzFaConcreteCone * angle02 m
def dzFaCH2Cone : K := 201
def rInFaCH2Cone1 : K := 106.0 / 2
def rInFaCH2Cone2 : K := 176.9 / 2
def dFaCH2Cone (m : TMath K) : K := 7.5 / m.Cos (10 * kDegRad m)
def dzFaSteelCone25 : K := 25
def eps : K := 0.001
def rInFaSteelCone25A (m : TMath K) : K := rInFaConcreteCone2 m
def rOuFaSteelCone25A (m : TMath K) : K := rOuFaConcreteCone2 m
def rInFaSteelCone25B (m : TMath K) : K := rInFaSteelCone25A m + dzFaSteelCone25 * angle02 m
def rOuFaSteelCone25B (m : TMath K) : K := rOuFaSteelCone25A m + dzFaSteelCone25 * angle10 m
def dzFaSteelCone31 : K := 31
def rInFaSteelCone31A : K := rOuFaWTube4C1
def rOuFaSteelCone31A (m : TMath K) : K := rOuFaSteelCone25B m
def rInFaSteelCone31B : K := rOuFaWTube4C2
def rOuFaSteelCone31B (m : TMath K) : K := rOuFaSteelCone31A m + dzFaSteelCone31 * angle10 m

/-! ### Composite ring and magnesium ring -/

def dzFaCompRing1 : K := 0.8
def rInFaCompRing1 : K := 11.0 / 2
def rOuFaCompRing1 : K := 32.4 / 2
def dzFaCompRing2 : K := 1.2
def rInFaCompRing2 : K := 14.0 / 2
def rOuFaCompRing2 : K := 35.3 / 2
def dzFaMgRingO : K := 0.7
def rInFaMgRingO : K := 3.0
def dzFaMgRingI : K := 0.6
def rInFaMgRingI : K := 3.5

/-- Length of the absorber without endplate. -/
def dzFa : K := dzFaFlange + dzFaGraphiteCone + dzFaConcreteCone + dzFaSteelCone25 + dzFaSteelCone31

/-! ## The polycones built by `ConstructGeometry` -/

/-- One call `DefineSection(snum, z, rmin, rmax)`. -/
structure DefineSectionCall (K : Type) where
  snum : Nat
  z : K
  rmin : K
  rmax : K
deriving DecidableEq, Repr

/-- Runs a sequence of `DefineSection` calls on a polycone, in order. -/
def TGeoPcon.DefineSections (p : TGeoPcon K) (calls : List (DefineSectionCall K)) : TGeoPcon K :=
  calls.foldl (fun p c => p.DefineSection c.snum c.z c.rmin c.rmax) p

/-- The `DefineSection` calls made by the loop of `MakeShapeFromTemplate`, in order. -/
def MakeShapeFromTemplate_calls (pcon : TGeoPcon K) (drMin drMax : K) :
    List (DefineSectionCall K) :=
  (List.range pcon.GetNz).map fun i =>
    ⟨i, pcon.GetZ i, pcon.GetRmin i + drMin, pcon.GetRmax i + drMax⟩

/-- Calls on `shFaSteelEnvelopeC` (named "steelEnvC"), a polycone of 7 sections. -/
def shFaSteelEnvelopeC_calls (m : TMath K) : List (DefineSectionCall K) :=
  let z : K := 0
  -- Front cover
  let s0 := ⟨0, z, rInSteelEnvelopeFC1, rOuSteelEnvelopeFC1⟩
  let z := z + dzSteelEnvelopeFC
  let s1 := ⟨1, z, rInSteelEnvelopeFC2 m, rOuSteelEnvelopeFC2 m⟩
  -- 5 deg cone
  let s2 := ⟨2, z, rInSteelEnvelopeC5 m, rOuSteelEnvelopeC5 m⟩
  let z := z + dzSteelEnvelopeC5
  let s3 := ⟨3, z, rInSteelEnvelopeC10, rOuSteelEnvelopeC10 m⟩
  -- 10 deg cone
  let z := z + dzSteelEnvelopeC10
  let s4 := ⟨4, z, rInSteelEnvelopeR1 m, rOuSteelEnvelopeR1 m⟩
  -- Rear Ring
  let s5 := ⟨5, z, rInSteelEnvelopeR1 m, rOuSteelEnvelopeR2⟩
  let z := z + dzSteelEnvelopeR
  let s6 := ⟨6, z, rInSteelEnvelopeR2, rOuSteelEnvelopeR2⟩
  [s0, s1, s2, s3, s4, s5, s6]

def shFaSteelEnvelopeC (m : TMath K) : TGeoPcon K :=
  (TGeoPcon.new 0 360 7).DefineSections (shFaSteelEnvelopeC_calls m)

/-- Calls on `shFaFlange`, a polycone of 4 sections. -/
def shFaFlange_calls : List (DefineSectionCall K) :=
  let z : K := 0
  let s0 := ⟨0, z, rInFaFlange1, rOuFaFlange⟩
  let z := z + dzFaFlange1
  let s1 := ⟨1, z, rInFaFlange1, rOuFaFlange⟩
  let s2 := ⟨2, z, rInFaFlange2, rOuFaFlange⟩
  let z := z + dzFaFlange2
  let s3 := ⟨3, z, rInFaFlange2, rOuFaFlange⟩
  [s0, s1, s2, s3]

def shFaFlange : TGeoPcon K :=
  (TGeoPcon.new 0 360 4).DefineSections shFaFlange_calls

/-- Calls on `shFaWPlateA`, a polycone of 7 sections. -/
def shFaWPlateA_calls (m : TMath K) : List (DefineSectionCall K) :=
  let z : K := 0
  -- Front Flange
  let s0 := ⟨0, z, rInFaQPlateF, rOuFaQPlateF⟩
  let z := z + dzFaWPlateF
  let s1 := ⟨1, z, rInFaQPlateF, rOuFaQPlateC1 m⟩
  -- 24 deg cone
  let s2 := ⟨2, z, rInFaQPlateC1, rOuFaQPlateC1 m⟩
  let z := z + dzFaWPlateC1
  let s3 := ⟨3, z, rInFaQPlateC2 m, rOuFaQPlateC2 m⟩
  -- 5 deg cone
  let z := z + dzFaWPlateC2
  let s4 := ⟨4, z, rInFaQPlateC3, rOuFaQPlateC3⟩
  -- Rear Flange
  let s5 := ⟨5, z, rInFaQPlateR, rOuFaQPlateR⟩
  let z := z + dzFaWPlateR
  let s6 := ⟨6, z, rInFaQPlateR, rOuFaQPlateR⟩
  [s0, s1, s2, s3, s4, s5, s6]

def shFaWPlateA (m : TMath K) : TGeoPcon K :=
  (TGeoPcon.new 0 360 7).DefineSections (shFaWPlateA_calls m)

/-- Calls on `shFaWPlateAI`, the inner region of the W plate with higher transport cuts, a
polycone of 5 sections: one call and then the loop `for (i = 1; i < 5; i++)`. -/
def shFaWPlateAI_calls (m : TMath K) : List (DefineSectionCall K) :=
  let z : K := 3
  let s0 : DefineSectionCall K :=
    ⟨0, z, rInFaQPlateF + z * angle10 m, rOuFaQPlateC1 m + (z - dzFaWPlateF) * angle24 m⟩
  s0 :: (List.range' 1 4).map fun i =>
    let rmin := (shFaWPlateA m).GetRmin (i + 2)
    let rmax := (shFaWPlateA m).GetRmax (i + 2) - 3
    let zpos := (shFaWPlateA m).GetZ (i + 2)
    ⟨i, zpos, rmin, rmax⟩

def shFaWPlateAI (m : TMath K) : TGeoPcon K :=
  (TGeoPcon.new 0 360 5).DefineSections (shFaWPlateAI_calls m)

/-- Calls on `shFaWTube1`, a polycone of 4 sections. -/
def shFaWTube1_calls : List (DefineSectionCall K) :=
  let z : K := 0
  -- Central Part
  let s0 := ⟨0, z, rInFaWTube1C1, rOuFaWTube1C1⟩
  let z := z + dzFaWTube1C
  let s1 := ⟨1, z, rInFaWTube1C1, rOuFaWTube1C2⟩
  -- Rear Flange
  let s2 := ⟨2, z, rInFaWTube1C1, rOuFaWTube1R⟩
  let z := z + dzFaWTube1R
  let s3 := ⟨3, z, rInFaWTube1C1, rOuFaWTube1R⟩
  [s0, s1, s2, s3]

def shFaWTube1 : TGeoPcon K :=
  (TGeoPcon.new 0 360 4).DefineSections shFaWTube1_calls

/-- Calls on `shFaWTube2`, a polycone of 4 sections. -/
def shFaWTube2_calls : List (DefineSectionCall K) :=
  let z : K := 0
  -- Front Flange
  let s0 := ⟨0, z, rInFaWTube2F, rOuFaWTube2C1⟩
  let z := z + dzFaWTube2F
  let s1 := ⟨1, z, rInFaWTube2F, rOuFaWTube2C1⟩
  -- Central part
  let s2 := ⟨2, z, rInFaWTube2C1, rOuFaWTube2C1⟩
  let z := z + dzFaWTube2C
  let s3 := ⟨3, z, rInFaWTube2C2, rOuFaWTube2C2⟩
  [s0, s1, s2, s3]

def shFaWTube2 : TGeoPcon K :=
  (TGeoPcon.new 0 360 4).DefineSections shFaWTube2_calls

/-- Calls on `shFaGraphiteCone`, a polycone of 4 sections. -/
def shFaGraphiteCone_calls (m : TMath K) : List (DefineSectionCall K) :=
  let z : K := 0
  -- Straight section
  let s0 := ⟨0, z, rInFaGraphiteCone1, rOuFaGraphiteCone1 m⟩
  let z := z + dzFaGraphiteConeS
  let s1 := ⟨1, z, rInFaGraphiteCone1, rOuFaGraphiteCone2 m⟩
  -- 2 deg opening cone
  let s2 := ⟨2, z, rInFaGraphiteCone2, rOuFaGraphiteCone2 m⟩
  let z : K := dzFaGraphiteCone
  let s3 := ⟨3, z, rInFaGraphiteCone3, rOuFaGraphiteCone3 m⟩
  [s0, s1, s2, s3]

def shFaGraphiteCone (m : TMath K) : TGeoPcon K :=
  (TGeoPcon.new 0 360 4).DefineSections (shFaGraphiteCone_calls m)

/-- Calls on `shFaPbCone`, a polycone of 3 sections. -/
def shFaPbCone_calls (m : TMath K) : List (DefineSectionCall K) :=
  let z : K := 0
  -- 5 deg cone
  let s0 := ⟨0, z, rInFaPbCone5, rOuFaPbCone5⟩
  let z := z + dzFaPbCone5
  -- 10 deg cone
  let s1 := ⟨1, z, rInFaPbCone10 m, rOuFaPbCone10⟩
  let z := z + dzFaPbCone10
  let s2 := ⟨2, z, rInFaPbConeE, rOuFaPbConeE⟩
  [s0, s1, s2]

def shFaPbCone (m : TMath K) : TGeoPcon K :=
  (TGeoPcon.new 0 360 3).DefineSections (shFaPbCone_calls m)

/-- Calls on `shFaPbConeI`, the inner region of the lead cone with higher transport cuts:
those of `MakeShapeFromTemplate(shFaPbCone, 0., -3.)`. -/
def shFaPbConeI_calls (m : TMath K) : List (DefineSectionCall K) :=
  MakeShapeFromTemplate_calls (shFaPbCone m) 0 (-3)

def shFaPbConeI (m : TMath K) : TGeoPcon K :=
  MakeShapeFromTemplate (shFaPbCone m) 0 (-3)

/-- Calls on `shFaCompRing`, a polycone of 4 sections. -/
def shFaCompRing_calls : List (DefineSectionCall K) :=
  let z : K := 0
  -- 1st section
  let s0 := ⟨0, z, rInFaCompRing1, rOuFaCompRing1⟩
  let z := z + dzFaCompRing1
  let s1 := ⟨1, z, rInFaCompRing1, rOuFaCompRing1⟩
  -- 2nd section
  let s2 := ⟨2, z, rInFaCompRing2, rOuFaCompRing2⟩
  let z := z + dzFaCompRing2
  let s3 := ⟨3, z, rInFaCompRing2, rOuFaCompRing2⟩
  [s0, s1, s2, s3]

def shFaCompRing : TGeoPcon K :=
  (TGeoPcon.new 0 360 4).DefineSections shFaCompRing_calls

/-- Calls on `shFaMgRing`, a polycone of 8 sections. -/
def shFaMgRing_calls : List (DefineSectionCall K) :=
  -- 1st section
  let z : K := 0
  let s0 := ⟨0, z, rInFaMgRingO, rInFaCompRing1⟩
  let z := z + dzFaMgRingO
  let s1 := ⟨1, z, rInFaMgRingO, rInFaCompRing1⟩
  -- 2nd section
  let s2 := ⟨2, z, rInFaMgRingI, rInFaCompRing1⟩
  let z := z + dzFaMgRingI / 2
  let s3 := ⟨3, z, rInFaMgRingI, rInFaCompRing1⟩
  -- 3rd section
  let s4 := ⟨4, z, rInFaMgRingI, rInFaCompRing2⟩
  let z := z + dzFaMgRingI / 2
  let s5 := ⟨5, z, rInFaMgRingI, rInFaCompRing2⟩
  -- 4th section
  let s6 := ⟨6, z, rInFaMgRingO, rInFaCompRing2⟩
  let z := z + dzFaMgRingO
  let s7 := ⟨7, z, rInFaMgRingO, rInFaCompRing2⟩
  [s0, s1, s2, s3, s4, s5, s6, s7]

def shFaMgRing : TGeoPcon K :=
  (TGeoPcon.new 0 360 8).DefineSections shFaMgRing_calls

/-- Calls on `shFaM`, the absorber mother volume, a polycone of 16 sections. -/
def shFaM_calls (m : TMath K) : List (DefineSectionCall K) :=
  -- Front -> Flange (Mg Ring details)
  let z : K := 0
  let s0 := ⟨0, z, rInFaMgRingO, rOuFaQPlateF⟩
  let z := z + dzFaMgRingO
  let dz : K := dzFaMgRingO
  let s1 := ⟨1, z, rInFaMgRingO, rOuFaQPlateF + dz * angle24 m⟩
  let s2 := ⟨2, z, rInFaMgRingI, rOuFaQPlateF + dz * angle24 m⟩
  let z := z + dzFaMgRingI
  let dz := dz + dzFaMgRingI
  let s3 := ⟨3, z, rInFaMgRingI, rOuFaQPlateF + dz * angle24 m⟩
  let s4 := ⟨4, z, rInFaMgRingO, rOuFaQPlateF + dz * angle24 m⟩
  let z := z + dzFaMgRingO
  let dz := dz + dzFaMgRingO
  let s5 := ⟨5, z, rInFaMgRingO, rOuFaQPlateF + dz * angle24 m⟩
  let s6 := ⟨6, z, rInFaGraphiteCone1, rOuFaQPlateF + dz * angle24 m⟩
  -- Flange -> W-Plate B
  let z := z + dzFaWPlateC1
  let s7 := ⟨7, z, rInFaGraphiteCone1, rOuFaQPlateC2 m⟩
  let z := z + dzFaWPlateC2
  let zFaSteelEnvelope := z
  let s8 := ⟨8, z, rInFaGraphiteCone1, rOuFaQPlateC3⟩
  -- 5 deg cone -> 10 deg cone
  let z := zFaSteelEnvelope + dzSteelEnvelopeFC + dzSteelEnvelopeC5
  let s9 := ⟨9, z, rInFaGraphiteCone1, rOuSteelEnvelopeC10 m⟩
  -- 10 deg cone up to end of straight section
  let z0 := z
  let z : K := dzFaFlange + dzFaGraphiteConeS + dzFaWTube1C
  let dz := z - z0
  let s10 := ⟨10, z, rInFaGraphiteCone1, rOuSteelEnvelopeC10 m + dz * angle10 m⟩
  -- 0.7 deg inner opening cone up to outer rear ring
  let z0 := z
  let z : K := dzFa - dzSteelEnvelopeR / 2
  let dz := z - z0
  let s11 := ⟨11, z, rInFaGraphiteCone1 + dz * angle71 m, rOuSteelEnvelopeR1 m⟩
  let s12 := ⟨12, z, rInFaGraphiteCone1 + dz * angle71 m, rOuSteelEnvelopeR2⟩
  let z := z + dzSteelEnvelopeR / 2
  let s13 := ⟨13, z, rInFaWTube4C2, rOuSteelEnvelopeR2⟩
  -- Recess for end plate
  let dz : K := dzSteelEnvelopeR / 2
  let s14 := ⟨14, z, rInFaCH2Cone2 - dz * angle10 m, rOuSteelEnvelopeR2⟩
  let z := z + dzSteelEnvelopeR / 2
  let s15 := ⟨15, z, rInFaCH2Cone2, rOuSteelEnvelopeR2⟩
  [s0, s1, s2, s3, s4, s5, s6, s7, s8, s9, s10, s11, s12, s13, s14, s15]

def shFaM (m : TMath K) : TGeoPcon K :=
  (TGeoPcon.new 0 360 16).DefineSections (shFaM_calls m)

/-- Calls on `shFaAccM`, the volume inside the acceptance, a polycone of 7 sections: the loop
`for (i = 0; i < 4; i++)` over the sections of the graphite cone and three more calls. -/
def shFaAccM_calls (m : TMath K) : List (DefineSectionCall K) :=
  let loop : List (DefineSectionCall K) := (List.range 4).map fun i =>
    let zpos := (shFaGraphiteCone m).GetZ i
    let rmin := (shFaGraphiteCone m).GetRmin i
    let rmax := (shFaGraphiteCone m).GetRmax i
    ⟨i, zpos, rmin, rmax⟩
  let z : K := dzFaGraphiteCone + dzFaConcreteCone + dzFaSteelCone25
  let z0 : K := z + zFa + dzFaFlange
  let s4 := ⟨4, z, rOuFaWTube3C2, z0 * angle10 m⟩
  let s5 := ⟨5, z, rOuFaWTube4C1, z0 * angle10 m⟩
  let z := z + dzFaSteelCone31
  let z0 := z0 + dzFaSteelCone31
  let s6 := ⟨6, z, rOuFaWTube4C2, z0 * angle10 m⟩
  loop ++ [s4, s5, s6]

def shFaAccM (m : TMath K) : TGeoPcon K :=
  (TGeoPcon.new 0 360 7).DefineSections (shFaAccM_calls m)

/-- One polycone as `ConstructGeometry` builds it: the shape's name (the variable's name where
the shape is given none), the number of sections passed to the constructor and the
`DefineSection` calls made on it, in program order. -/
structure PconBuild (K : Type) where
  name : String
  nz : Nat
  calls : List (DefineSectionCall K)

/-- The polycones built by `ConstructGeometry`, in program order. -/
def polycones (m : TMath K) : List (PconBuild K) :=
  [ ⟨"steelEnvC", 7, shFaSteelEnvelopeC_calls m⟩,
    ⟨"shFaFlange", 4, shFaFlange_calls⟩,
    ⟨"shFaWPlateA", 7, shFaWPlateA_calls m⟩,
    ⟨"shFaWPlateAI", 5, shFaWPlateAI_calls m⟩,
    ⟨"shFaWTube1", 4, shFaWTube1_calls⟩,
    ⟨"shFaWTube2", 4, shFaWTube2_calls⟩,
    ⟨"shFaGraphiteCone", 4, shFaGraphiteCone_calls m⟩,
    ⟨"shFaPbCone", 3, shFaPbCone_calls m⟩,
    ⟨"shFaPbConeI", (shFaPbCone m).GetNz, shFaPbConeI_calls m⟩,
    ⟨"shFaCompRing", 4, shFaCompRing_calls⟩,
    ⟨"shFaMgRing", 8, shFaMgRing_calls⟩,
    ⟨"shFaM", 16, shFaM_calls m⟩,
    ⟨"shFaAccM", 7, shFaAccM_calls m⟩ ]

/-- Bounds on the trigonometric constants of `ConstructGeometry` under which every section of
its polycones has its inner radius below its outer radius. -/
structure AngleBounds (m : TMath K) : Prop where
  cos05_pos : 0 < m.Cos (5 * kDegRad m)
  cos10_pos : 0 < m.Cos (10 * kDegRad m)
  angle05_nonneg : 0 ≤ angle05 m
  angle24_nonneg : 0 ≤ angle24 m
  angle10_lower : 0.17 ≤ angle10 m
  angle10_upper : angle10 m ≤ 0.18
  angle71_nonneg : 0 ≤ angle71 m
  angle71_upper : angle71 m ≤ 0.013

/-- The names of the polycones of `ConstructGeometry`, in program order. -/
def polyconeNames : List String :=
  ["steelEnvC", "shFaFlange", "shFaWPlateA", "shFaWPlateAI", "shFaWTube1", "shFaWTube2",
    "shFaGraphiteCone", "shFaPbCone", "shFaPbConeI", "shFaCompRing", "shFaMgRing", "shFaM",
    "shFaAccM"]

/-! ## Shapes, transformations and volumes -/

/-- Modelled from the spec: a rotation of the geometry library (`TGeoRotation`), given by its
name and the six angles passed to the constructor. -/
structure TGeoRotation (K : Type) where
  name : String
  theta1 : K
  phi1 : K
  theta2 : K
  phi2 : K
  theta3 : K
  phi3 : K
deriving DecidableEq, Repr

/-- Modelled from the spec: the transformation of a placement, one of `gGeoIdentity`,
`TGeoTranslation(dx, dy, dz)` and `TGeoCombiTrans(dx, dy, dz, rotation)`. -/
inductive TGeoMatrix (K : Type) where
  | identity
  | translation (dx dy dz : K)
  | combi (dx dy dz : K) (rotation : TGeoRotation K)
deriving DecidableEq, Repr

/-- Modelled from the spec: the solids of the geometry library used by `ConstructGeometry`, each
with the arguments of its constructor. A tube and a cone are given by their half length `dz`, a
box by its half lengths; a composite shape by its name and its boolean expression over named
shapes. -/
inductive TGeoShape (K : Type) where
  | pcon (p : TGeoPcon K)
  | pgon (nedges : Nat) (p : TGeoPcon K)
  | tube (rmin rmax dz : K)
  | cone (dz rmin1 rmax1 rmin2 rmax2 : K)
  | bbox (dx dy dz : K)
  | trap (dz theta phi h1 bl1 tl1 alpha1 h2 bl2 tl2 alpha2 : K)
  | composite (name expression : String)
deriving DecidableEq, Repr

/-- Modelled from the spec: a volume of the geometry library: a named pairing of a shape with a
medium (`TGeoVolume`) or a pure grouping node (`TGeoVolumeAssembly`), with its child placements
in the order of the `AddNode` calls. A placement is a daughter volume, a copy number and a
transformation. -/
inductive TGeoVolume (K : Type) where
  | volume (name : String) (shape : TGeoShape K) (medium : MediumArgs)
      (nodes : List (TGeoVolume K × Int × TGeoMatrix K))
  | assembly (name : String) (nodes : List (TGeoVolume K × Int × TGeoMatrix K))

namespace TGeoVolume

/-- Constructor `TGeoVolume(name, shape, medium)`: a volume without daughters. -/
def new (name : String) (shape : TGeoShape K) (medium : MediumArgs) : TGeoVolume K :=
  .volume name shape medium []

/-- Constructor `TGeoVolumeAssembly(name)`: an assembly without daughters. -/
def newAssembly (name : String) : TGeoVolume K :=
  .assembly name []

/-- Name of the volume, `GetName()`. -/
def name : TGeoVolume K → String
  | .volume name _ _ _ => name
  | .assembly name _ => name

/-- Child placements of the volume, in the order they were added. -/
def nodes : TGeoVolume K → List (TGeoVolume K × Int × TGeoMatrix K)
  | .volume _ _ _ nodes => nodes
  | .assembly _ nodes => nodes

/-- Medium of the volume; an assembly has none. -/
def medium : TGeoVolume K → Option MediumArgs
  | .volume _ _ medium _ => some medium
  | .assembly _ _ => none

/-- Shape of the volume; an assembly has none. -/
def shape : TGeoVolume K → Option (TGeoShape K)
  | .volume _ shape _ _ => some shape
  | .assembly _ _ => none

/-- Call `mother->AddNode(daughter, copyNo, matrix)`: one more child placement. -/
def AddNode (mother daughter : TGeoVolume K) (copyNo : Int) (matrix : TGeoMatrix K) :
    TGeoVolume K :=
  match mother with
  | .volume name shape medium nodes => .volume name shape medium (nodes ++ [(daughter, copyNo, matrix)])
  | .assembly name nodes => .assembly name (nodes ++ [(daughter, copyNo, matrix)])

/-- The child placements by the name of the daughter, the copy number and the transformation. -/
def placements (v : TGeoVolume K) : List (String × Int × TGeoMatrix K) :=
  v.nodes.map fun n => (n.1.name, n.2.1, n.2.2)

/-- The daughters of the volume that carry the given name. -/
def daughters (v : TGeoVolume K) (name : String) : List (TGeoVolume K) :=
  (v.nodes.filter fun n => n.1.name == name).map fun n => n.1

end TGeoVolume

/-- Extent in `z` of a polycone in its own frame: from its first to its last section. -/
def TGeoPcon.zRange (p : TGeoPcon K) : K × K :=
  (p.GetZ 0, p.GetZ (p.GetNz - 1))

/-- Modelled from the spec: the extent in `z` of a shape placed with a shift `z0` along `z`: a
cone or a tube is centred at the shift with half its length on either side, a polycone runs from
its first to its last section. -/
def zExtent (shape : TGeoShape K) (z0 : K) : Option (K × K) :=
  match shape with
  | .pcon p => some (z0 + p.zRange.1, z0 + p.zRange.2)
  | .pgon _ p => some (z0 + p.zRange.1, z0 + p.zRange.2)
  | .tube _ _ dz => some (z0 - dz, z0 + dz)
  | .cone dz _ _ _ _ => some (z0 - dz, z0 + dz)
  | .bbox _ _ dz => some (z0 - dz, z0 + dz)
  | .trap dz _ _ _ _ _ _ _ _ _ _ => some (z0 - dz, z0 + dz)
  | .composite _ _ => none

/-- The shift along `z` of a transformation without rotation. -/
def TGeoMatrix.zShift (t : TGeoMatrix K) : Option K :=
  match t with
  | .identity => some 0
  | .translation _ _ dz => some dz
  | .combi _ _ _ _ => none

/-- The extents in `z`, in the frame of the mother, of the daughters of a volume that are placed
without rotation and have a simple shape, each with the name of the daughter. -/
def TGeoVolume.daughterExtents (v : TGeoVolume K) : List (String × K × K) :=
  v.nodes.filterMap fun n => do
    let shape ← n.1.shape
    let z0 ← n.2.2.zShift
    let e ← zExtent shape z0
    pure (n.1.name, e)

/-! ## The volumes built by `ConstructGeometry` -/

/-- Rotation `rotxz` of the absorber in the top volume. -/
def rotxz : TGeoRotation K := ⟨"rotxz", 90, 0, 90, 90, 180, 0⟩

/-- Insert of the steel envelope, named "steelEnvT". -/
def shFaSteelEnvelopeT : TGeoShape K :=
  .tube rInSteelEnvelopeFI rOuSteelEnvelopeFI dzSteelEnvelopeFI

def shFaSteelEnvelope : TGeoShape K :=
  .composite "shFaSteelEnvelope" "steelEnvC-steelEnvT"

def voFaSteelEnvelope (med : Media) : TGeoVolume K :=
  TGeoVolume.new "AFaSteelEnvelope" shFaSteelEnvelope med.kMedSteel

def endPlate1 : TGeoShape K := .bbox (dxEndPlate / 2) (dyEndPlate / 2) (dzEndPlate / 2)
def endPlate2 : TGeoShape K := .tube 0 rInEndPlate ((dzEndPlate + 0.1) / 2)
def endPlate3 : TGeoShape K := .tube rInEndPlateI rOuEndPlateI ((dzEndPlateI + 0.1) / 2)
/-- Translation registered under the name "tPlate". -/
def tPlate : TGeoMatrix K := .translation 0 0 (-dzEndPlateI - 0.05)

def shFaEndPlate : TGeoShape K :=
  .composite "shFaEndPlate" "endPlate1-(endPlate2+endPlate3:tPlate)"

def voFaEndPlate (med : Media) : TGeoVolume K :=
  TGeoVolume.new "AFaEndPlate" shFaEndPlate med.kMedSteel

def voFaFlange (med : Media) : TGeoVolume K :=
  TGeoVolume.new "AFaFlange" (.pcon shFaFlange) med.kMedSteel

/-- Inner region of the W plate with higher transport cuts. -/
def voFaWPlateAI (med : Media) (m : TMath K) : TGeoVolume K :=
  TGeoVolume.new "AFaWPlateAI" (.pcon (shFaWPlateAI m)) med.kMedNiWsh

def voFaWPlateA (med : Media) (m : TMath K) : TGeoVolume K :=
  let voFaWPlateA := TGeoVolume.new "AFaWPlateA" (.pcon (shFaWPlateA m)) med.kMedNiW
  voFaWPlateA.AddNode (voFaWPlateAI med m) 1 .identity

def voFaWTube1 (med : Media) : TGeoVolume K :=
  TGeoVolume.new "AFaWTube1" (.pcon shFaWTube1) med.kMedNiWsh

def voFaWTube2 (med : Media) : TGeoVolume K :=
  TGeoVolume.new "AFaWTube2" (.pcon shFaWTube2) med.kMedNiWsh

def voFaWTube3 (med : Media) : TGeoVolume K :=
  TGeoVolume.new "AFaWTube3"
    (.cone (dzFaWTube3 / 2) rInFaWTube3C1 rOuFaWTube3C1 rInFaWTube3C2 rOuFaWTube3C2)
    med.kMedNiWsh

def voFaWTube4 (med : Media) : TGeoVolume K :=
  TGeoVolume.new "AFaWTube4"
    (.cone (dzFaWTube4 / 2) rInFaWTube4C1 rOuFaWTube4C1 rInFaWTube4C2 rOuFaWTube4C2)
    med.kMedNiWsh

/-- Outer region of the graphite cone with lower transport cuts. -/
def voFaGraphiteConeO (med : Media) (m : TMath K) : TGeoVolume K :=
  let dz : K := 50
  let shFaGraphiteConeO : TGeoShape K :=
    .cone (dz / 2) rInFaGraphiteCone1 (rOuFaGraphiteCone1 m) rInFaGraphiteCone1
      (rOuFaGraphiteCone1 m + dz * angle10 m)
  TGeoVolume.new "AFaGraphiteConeO" shFaGraphiteConeO med.kMedC

def voFaGraphiteCone (med : Media) (m : TMath K) : TGeoVolume K :=
  let voFaGraphiteCone :=
    TGeoVolume.new "AFaGraphiteCone" (.pcon (shFaGraphiteCone m)) med.kMedCsh
  let dz : K := 50
  voFaGraphiteCone.AddNode (voFaGraphiteConeO med m) 1 (.translation 0 0 (dz / 2))

/-- Inner region of the lead cone with higher transport cuts. -/
def voFaPbConeI (med : Media) (m : TMath K) : TGeoVolume K :=
  TGeoVolume.new "AFaPbConeI" (.pcon (shFaPbConeI m)) med.kMedPbSh

def voFaPbCone (med : Media) (m : TMath K) : TGeoVolume K :=
  let voFaPbCone := TGeoVolume.new "AFaPbCone" (.pcon (shFaPbCone m)) med.kMedPb
  voFaPbCone.AddNode (voFaPbConeI med m) 1 .identity

def voFaConcreteCone (med : Media) (m : TMath K) : TGeoVolume K :=
  TGeoVolume.new "AFaConcreteCone"
    (.cone (dzFaConcreteCone / 2) rInFaConcreteCone1 (rOuFaConcreteCone1 m)
      (rInFaConcreteCone2 m) (rOuFaConcreteCone2 m))
    med.kMedConcSh

def voFaCH2Cone (med : Media) (m : TMath K) : TGeoVolume K :=
  TGeoVolume.new "AFaCH2Cone"
    (.cone (dzFaCH2Cone / 2) rInFaCH2Cone1 (rInFaCH2Cone1 + dFaCH2Cone m) rInFaCH2Cone2
      (rInFaCH2Cone2 + dFaCH2Cone m))
    med.kMedCH2Sh

def voFaSteelCone25 (med : Media) (m : TMath K) : TGeoVolume K :=
  TGeoVolume.new "AFaSteelCone25"
    (.cone (dzFaSteelCone25 / 2) (rInFaSteelCone25A m + eps) (rOuFaSteelCone25A m - eps)
      (rInFaSteelCone25B m + eps) (rOuFaSteelCone25B m - eps))
    med.kMedSteelSh

/-- The region of `AFaSteelCone31` built after it, 5 cm long. -/
def voFaSteelCone31I (med : Media) (m : TMath K) : TGeoVolume K :=
  let dz : K := 5
  TGeoVolume.new "AFaSteelCone31I"
    (.cone (dz / 2) (rInFaSteelCone31B - dz * angle03 m + eps)
      (rOuFaSteelCone31B m - dz * angle10 m - eps) (rInFaSteelCone31B + eps)
      (rOuFaSteelCone31B m - eps))
    med.kMedSteel

def voFaSteelCone31 (med : Media) (m : TMath K) : TGeoVolume K :=
  let voFaSteelCone31 :=
    TGeoVolume.new "AFaSteelCone31"
      (.cone (dzFaSteelCone31 / 2) (rInFaSteelCone31A + eps) (rOuFaSteelCone31A m - eps)
        (rInFaSteelCone31B + eps) (rOuFaSteelCone31B m - eps))
      med.kMedSteelSh
  let dz : K := 5
  voFaSteelCone31.AddNode (voFaSteelCone31I med m) 1
    (.translation 0 0 (dzFaSteelCone31 / 2 - dz / 2))

def voFaCompRing (med : Media) : TGeoVolume K :=
  TGeoVolume.new "AFaCompRing" (.pcon shFaCompRing) med.kMedC

def voFaMgRing (med : Media) : TGeoVolume K :=
  TGeoVolume.new "AFaMgRing" (.pcon shFaMgRing) med.kMedMg

/-- Volumes inside the acceptance, assembled in `AFaAcc`. -/
def voFaAccM (med : Media) (m : TMath K) : TGeoVolume K :=
  let voFaAccM := TGeoVolume.new "AFaAcc" (.pcon (shFaAccM m)) med.kMedAir
  let z : K := 0
  let voFaAccM := voFaAccM.AddNode (voFaGraphiteCone med m) 1 .identity
  let z := z + dzFaGraphiteCone
  let voFaAccM :=
    voFaAccM.AddNode (voFaConcreteCone med m) 1 (.translation 0 0 (z + dzFaConcreteCone / 2))
  let z := z + dzFaConcreteCone
  let voFaAccM :=
    voFaAccM.AddNode (voFaSteelCone25 med m) 1 (.translation 0 0 (z + dzFaSteelCone25 / 2))
  let z := z + dzFaSteelCone25
  voFaAccM.AddNode (voFaSteelCone31 med m) 1 (.translation 0 0 (z + dzFaSteelCone31 / 2))

/-- Inner shield, the assembly of the four tungsten tubes. -/
def voFaInnerShield (med : Media) : TGeoVolume K :=
  let voFaInnerShield : TGeoVolume K := TGeoVolume.newAssembly "AFaInnerShield"
  let voFaInnerShield := voFaInnerShield.AddNode (voFaWTube1 med) 1 .identity
  let z : K := dzFaWTube1 - 0.6
  let voFaInnerShield := voFaInnerShield.AddNode (voFaWTube2 med) 1 (.translation 0 0 z)
  let z := z + dzFaWTube2
  let voFaInnerShield :=
    voFaInnerShield.AddNode (voFaWTube3 med) 1 (.translation 0 0 (z + dzFaWTube3 / 2))
  let z := z + dzFaWTube3
  voFaInnerShield.AddNode (voFaWTube4 med) 1 (.translation 0 0 (z + dzFaWTube4 / 2))

/-- Absorber mother volume `AFaM` with the volumes added to it, in program order. -/
def voFaM (med : Media) (m : TMath K) : TGeoVolume K :=
  let voFaM := TGeoVolume.new "AFaM" (.pcon (shFaM m)) med.kMedAir
  let z : K := dzFaGraphiteConeS + dzFaFlange
  let voFaM := voFaM.AddNode (voFaInnerShield med) 1 (.translation 0 0 z)
  -- Adding volumes to mother volume
  let z : K := 0
  let voFaM := voFaM.AddNode (voFaWPlateA med m) 1 .identity
  let z := z + dzFaWPlate
  let voFaM := voFaM.AddNode (voFaSteelEnvelope med) 1 (.translation 0 0 z)
  let z := z + dzSteelEnvelopeFC
  let voFaM := voFaM.AddNode (voFaPbCone med m) 1 (.translation 0 0 z)
  let z := z + (dzFaPbCone + dzFaCH2Cone / 2)
  let voFaM := voFaM.AddNode (voFaCH2Cone med m) 1 (.translation 0 0 z)
  let voFaM := voFaM.AddNode (voFaFlange med) 1 .identity
  let voFaM := voFaM.AddNode (voFaMgRing med) 1 .identity
  let voFaM := voFaM.AddNode (voFaCompRing med) 1 .identity
  voFaM.AddNode (voFaAccM med m) 1 (.translation 0 0 dzFaFlange)

/-! ### Front absorber support structure -/

def kFassUBFlangeH : K := 380
def kFassUBFlangeW : K := 77
def kFassUMFlangeH : K := 380
def kFassUMFlangeB : K := 246
def kFassUMFlangeT : K := 10
def kFassUMFalpha (m : TMath K) : K :=
  -m.ATan ((kFassUMFlangeB - kFassUMFlangeT) / kFassUMFlangeH / 2) / kDegRad m
def kFassLMFlangeH : K := 242
def kFassLMFlangeB : K := 246
def kFassLMFlangeT : K := 43
def kFassLMFalpha (m : TMath K) : K :=
  -m.ATan ((kFassLMFlangeB - kFassLMFlangeT) / kFassLMFlangeH / 2) / kDegRad m

/-- Upper back flange. -/
def voFassUBFlange (med : Media) : TGeoVolume K :=
  TGeoVolume.new "AFassUBFlange" (.bbox (kFassUBFlangeW / 2) (kFassUBFlangeH / 2) (3 / 2))
    med.kMedSteel

/-- Upper median flange. -/
def voFassUMFlange (med : Media) (m : TMath K) : TGeoVolume K :=
  TGeoVolume.new "AFassUMFlange"
    (.trap (kFassUMFlangeH / 2) (kFassUMFalpha m) 0 1.5 (kFassUMFlangeB / 2)
      (kFassUMFlangeB / 2) 0 1.5 (kFassUMFlangeT / 2) (kFassUMFlangeT / 2) 0)
    med.kMedSteel

def rotFass1 : TGeoRotation K := ⟨"rotFass1", 180, 0, 90, 0, 90, 90⟩

/-- Lower median flange. -/
def voFassLMFlange (med : Media) (m : TMath K) : TGeoVolume K :=
  TGeoVolume.new "AFassLMFlange"
    (.trap (kFassLMFlangeH / 2) (kFassLMFalpha m) 0 1.5 (kFassLMFlangeB / 2)
      (kFassLMFlangeB / 2) 0 1.5 (kFassLMFlangeT / 2) (kFassLMFlangeT / 2) 0)
    med.kMedSteel

def rotFass2 : TGeoRotation K := ⟨"rotFass2", 180, 0, 90, 0, 90, 270⟩

/-- Central cone of the support, named "FassCone". -/
def shFassCone : TGeoShape K :=
  let shFassCone : TGeoPcon K := TGeoPcon.new 22.5 360 4
  let shFassCone := shFassCone.DefineSection 0 0 0 180
  let shFassCone := shFassCone.DefineSection 1 3 0 180
  let shFassCone := shFassCone.DefineSection 2 3 177 180
  let shFassCone := shFassCone.DefineSection 3 246 177 180
  .pgon 8 shFassCone

/-- Window of the support, named "FassWindow". -/
def shFassWindow : TGeoShape K := .bbox 190 53 28
/-- Translation registered under the name "tFassWindow". -/
def tFassWindow : TGeoMatrix K := .translation 0 0 78
/-- Aperture of the support, named "FassApperture". -/
def shFassApperture : TGeoShape K := .tube 0 104 3

def shFassCentral : TGeoShape K :=
  .composite "shFassCentral" "FassCone-(FassWindow:tFassWindow+FassApperture)"

def voFassCentral (med : Media) : TGeoVolume K :=
  TGeoVolume.new "AFassCentral" shFassCentral med.kMedSteel

/-- Support structure `AFass` with the volumes added to it, in program order. -/
def voFass (med : Media) (m : TMath K) : TGeoVolume K :=
  let voFass : TGeoVolume K := TGeoVolume.newAssembly "AFass"
  let voFass := voFass.AddNode (voFassUBFlange med) 1
    (.translation (1.5 + kFassUBFlangeW / 2) (180 + kFassUBFlangeH / 2) (kFassUMFlangeB - 1.5))
  let voFass := voFass.AddNode (voFassUBFlange med) 2
    (.translation (-1.5 - kFassUBFlangeW / 2) (180 + kFassUBFlangeH / 2) (kFassUMFlangeB - 1.5))
  let voFass := voFass.AddNode (voFassUMFlange med m) 1
    (.combi 0 (180 + kFassUMFlangeH / 2) (-(kFassUMFlangeB + kFassUMFlangeT) / 4 + kFassUMFlangeB)
      rotFass1)
  let voFass := voFass.AddNode (voFassLMFlange med m) 1
    (.combi 0 (-180 - kFassLMFlangeH / 2) (-(kFassLMFlangeB + kFassLMFlangeT) / 4 + kFassLMFlangeB)
      rotFass2)
  voFass.AddNode (voFassCentral med) 1 .identity

/-- Aluminum ring. -/
def voFassAlRing (med : Media) : TGeoVolume K :=
  TGeoVolume.new "AFassAlRing" (.tube 104 180 10) med.kMedAlu

/-- Absorber and support, the assembly `AFA`. -/
def voFA (med : Media) (m : TMath K) : TGeoVolume K :=
  let voFA : TGeoVolume K := TGeoVolume.newAssembly "AFA"
  let voFA := voFA.AddNode (voFaM med m) 1 .identity
  let voFA := voFA.AddNode (voFaEndPlate med) 1 (.translation 0 0 (dzFa + dzEndPlate / 2))
  let voFA := voFA.AddNode (voFass med m) 1 (.translation 0 0 388.45)
  voFA.AddNode (voFassAlRing med) 1 (.translation 0 0 (382 - 3.56))

/-- Modelled from the spec: the part of the geometry manager `gGeoManager` that
`ConstructGeometry` acts on: the material and medium registry and the top volume, the volume
that `GetVolume("cave")` returns. Both are taken to exist. -/
structure TGeoManager (K : Type) where
  mc : VMC
  cave : TGeoVolume K

/-- Method `Absorber::ConstructGeometry`: `createMaterials()`, the lookup of the media (`none`
when an assertion fails), the construction of the volumes, and the placement of the assembly
`AFA` in the top volume. -/
def ConstructGeometry (initFieldTrackingParams : Int → ℚ → Int × ℚ) (m : TMath K)
    (g : TGeoManager K) : Option (TGeoManager K) := do
  let (med, mc) ← ConstructGeometry_media initFieldTrackingParams g.mc
  let top := g.cave
  let top := top.AddNode (voFA med m) 1 (.combi 0 0 (-90) rotxz)
  pure { mc := mc, cave := top }

/-- The registration `e`, made on an empty registry, as it is made on a registry that already
holds `dmat` materials and `dmed` media: the keys handed out are higher by these counts. -/
def Registration.shift (dmat dmed : Int) (e : Registration) : Registration :=
  match e with
  | .material x kmat => .material x (dmat + kmat)
  | .mixture x kmat => .mixture x (dmat + kmat)
  | .medium ⟨numed, name, nmat, isvol, ifield, fieldm, tmaxfd, stemax, deemax, epsil, stmin⟩
      kmed =>
    .medium ⟨numed, name, dmat + nmat, isvol, ifield, fieldm, tmaxfd, stemax, deemax, epsil,
      stmin⟩ (dmed + kmed)

/-- Name under which a registration is made. -/
def Registration.name (e : Registration) : String :=
  match e with
  | .material x _ => x.name
  | .mixture x _ => x.name
  | .medium x _ => x.name

/-- The names of the materials, mixtures and media of a registry, in registration order. -/
def VMC.names (mc : VMC) : List String :=
  mc.entries.map Registration.name

/-- The registry `mc` after the registrations of `r` are made on it as well: the entries of `r`
follow those of `mc`, with the keys that `mc` hands out. -/
def VMC.extend (mc r : VMC) : VMC :=
  ⟨mc.entries ++ r.entries.map (Registration.shift mc.nmat mc.nmed), mc.nmat + r.nmat,
    mc.nmed + r.nmed⟩

/-- The step `x'`, run on the registry `mc` extended by `r`, makes the registrations that the
step `x` makes when run on `r`, and the values they return are related by `Q`. -/
def RunsAlike (mc : VMC) {α : Type} (Q : α → α → Prop) (x x' : StateM VMC α) : Prop :=
  ∀ r : VMC, Q (x r).1 (x' (mc.extend r)).1 ∧ (x' (mc.extend r)).2 = mc.extend (x r).2

/-- The volume `bulk` is a dual-medium pair with `sub`: `bulk` is made of the normal-cut (tier 0)
medium of a substance and holds, as its only child, one copy of `sub`, made of a tight-cut medium
of the same substance and placed with the identity. -/
def IsDualMediumPair (bulk sub : TGeoVolume K) : Prop :=
  ∃ mb ms, bulk.medium = some mb ∧ sub.medium = some ms ∧
    mb.numed ∈ substances.map (fun s => s.2) ∧ IsTightVariant mb.numed ms.numed ∧
    bulk.nodes = [(sub, 1, .identity)]

/-! ## Materials wrapped by the media -/

/-- The number passed to each `Material` or `Mixture` helper call among the registrations `l`,
with the key the call returned, in call order. -/
def materialKeys (l : List Registration) : List (Int × Int) :=
  l.filterMap fun e =>
    match e with
    | .material x kmat => some (x.imat, kmat)
    | .mixture x kmat => some (x.imat, kmat)
    | .medium _ _ => none

/-- The number and the name passed to each `Medium` helper call among the registrations `l`,
with the material key `nmat` it was given, in call order. -/
def mediumMaterials (l : List Registration) : List (Int × String × Int) :=
  l.filterMap fun e =>
    match e with
    | .medium x _ => some (x.numed, x.name, x.nmat)
    | _ => none

/-- Every `Medium` call among the registrations `l` was given the key returned by the `Material`
or `Mixture` call made with the same number. -/
def MediaWrapOwnMaterial (l : List Registration) : Prop :=
  ∀ x ∈ mediumMaterials l, (x.1, x.2.2) ∈ materialKeys l

instance (l : List Registration) : Decidable (MediaWrapOwnMaterial l) := by
  unfold MediaWrapOwnMaterial; infer_instance

/-! ## Radial profiles along `z` -/

/-- Modelled from the spec: the stretch of a solid of revolution of the geometry library between
two planes `z1` and `z2`, with the inner and the outer radius on each plane; between the planes
both radii are linear in `z`. A polycone is one stretch per pair of consecutive sections, a cone
or a tube is one stretch. -/
structure Segment (K : Type) where
  z1 : K
  rmin1 : K
  rmax1 : K
  z2 : K
  rmin2 : K
  rmax2 : K
deriving DecidableEq, Repr

/-- Linear interpolation at `z` between the value `r1` at `z1` and the value `r2` at `z2`. -/
def interpolate (z1 r1 z2 r2 z : K) : K :=
  r1 + (z - z1) / (z2 - z1) * (r2 - r1)

namespace Segment

/-- Inner radius of the stretch at `z`. -/
def rminAt (s : Segment K) (z : K) : K := interpolate s.z1 s.rmin1 s.z2 s.rmin2 z

/-- Outer radius of the stretch at `z`. -/
def rmaxAt (s : Segment K) (z : K) : K := interpolate s.z1 s.rmax1 s.z2 s.rmax2 z

/-- The stretch moved by `dz` along `z`. -/
def shift (dz : K) (s : Segment K) : Segment K :=
  { s with z1 := dz + s.z1, z2 := dz + s.z2 }

/-- The two stretches share a range of `z` of positive length. -/
def Overlaps (s b : Segment K) : Prop :=
  s.z1 < s.z2 ∧ b.z1 < b.z2 ∧ s.z1 < b.z2 ∧ b.z1 < s.z2

/-- The position `z` lies in the range of `z` that the two stretches share, a range of positive
length. A plane on which a solid steps from one stretch to the next belongs to both stretches,
each with its own radii. -/
def Common (s b : Segment K) (z : K) : Prop :=
  s.Overlaps b ∧ max s.z1 b.z1 ≤ z ∧ z ≤ min s.z2 b.z2

/-- Wherever the two stretches share `z`, the stretch `s` lies radially within `b`: its inner
radius is at least, and its outer radius at most, that of `b`. -/
def Within (s b : Segment K) : Prop :=
  ∀ z, s.Common b z → b.rminAt z ≤ s.rminAt z ∧ s.rmaxAt z ≤ b.rmaxAt z

/-- Wherever the two stretches share `z`, the stretch `s` lies in the bore of `b`: its outer
radius is at most the inner radius of `b`. -/
def InBore (s b : Segment K) : Prop :=
  ∀ z, s.Common b z → s.rmaxAt z ≤ b.rminAt z

/-- Wherever the two stretches share `z`, the outer radius of `s` is at most that of `b`. -/
def OuterWithin (s b : Segment K) : Prop :=
  ∀ z, s.Common b z → s.rmaxAt z ≤ b.rmaxAt z

end Segment

/-- The stretches between consecutive sections of a polycone, in a frame shifted by `z0` along
`z`. -/
def stretches : List (PconSection K) → K → List (Segment K)
  | a :: b :: rest, z0 =>
    ⟨z0 + a.z, a.rmin, a.rmax, z0 + b.z, b.rmin, b.rmax⟩ :: stretches (b :: rest) z0
  | _, _ => []

/-- The stretches of a polycone whose frame is shifted by `z0` along `z`. -/
def TGeoPcon.segments (p : TGeoPcon K) (z0 : K) : List (Segment K) :=
  stretches p.sections z0

/-- Modelled from the spec: the stretches of a solid of revolution placed with a shift `z0`
along `z`: a cone `TGeoCone(dz, rmin1, rmax1, rmin2, rmax2)` has the radii `rmin1`, `rmax1` at
`-dz` and `rmin2`, `rmax2` at `+dz`, a tube has constant radii. Other shapes have none. -/
def TGeoShape.segments (shape : TGeoShape K) (z0 : K) : List (Segment K) :=
  match shape with
  | .pcon p => p.segments z0
  | .tube rmin rmax dz => [⟨z0 - dz, rmin, rmax, z0 + dz, rmin, rmax⟩]
  | .cone dz rmin1 rmax1 rmin2 rmax2 => [⟨z0 - dz, rmin1, rmax1, z0 + dz, rmin2, rmax2⟩]
  | _ => []

/-- The stretches of the shape of a volume, in a frame shifted by `z0`. -/
def TGeoVolume.segments (v : TGeoVolume K) (z0 : K) : List (Segment K) :=
  match v.shape with
  | some shape => shape.segments z0
  | none => []

/-- The stretches of the daughters of a volume that are placed without rotation, in the frame of
the volume, each list with the name of the daughter. -/
def TGeoVolume.daughterSegments (v : TGeoVolume K) : List (String × List (Segment K)) :=
  v.nodes.filterMap fun n => do
    let z0 ← n.2.2.zShift
    pure (n.1.name, n.1.segments z0)

/-- Bounds on the trigonometric constants of `ConstructGeometry` under which the embedded
volumes stay within their bulk volumes and the steel envelope within the mother volume. -/
structure SharpAngleBounds (m : TMath K) : Prop where
  cos10_pos : 0 < m.Cos (10 * kDegRad m)
  cos10_le_one : m.Cos (10 * kDegRad m) ≤ 1
  angle03_upper : angle03 m ≤ 0.052415
  angle05_upper : angle05 m ≤ 0.0886
  angle10_lower : 0.17631 ≤ angle10 m
  angle24_nonneg : 0 ≤ angle24 m

/-- An embedded volume lies within its bulk volume: every stretch of every daughter of `bulk`
that is placed without rotation stays in the extent of `bulk` along `z`, every such stretch of
positive length lies between the two planes of one stretch of `bulk`, and at every `z` the stretch
shares with a stretch of `bulk` its inner radius is at least that of `bulk` and its outer radius
at most that of `bulk`. -/
def EmbeddedWithin (bulk : TGeoVolume K) : Prop :=
  ∀ d ∈ bulk.daughterSegments, ∀ s ∈ d.2,
    (∃ lo hi, (bulk.shape.bind fun shape => zExtent shape 0) = some (lo, hi) ∧
      lo ≤ s.z1 ∧ s.z2 ≤ hi) ∧
    (s.z1 < s.z2 → ∃ b ∈ bulk.segments 0, b.z1 ≤ s.z1 ∧ s.z2 ≤ b.z2) ∧
    ∀ b ∈ bulk.segments 0, s.Within b

/-! ## Single-precision arithmetic of the inner shield

The lengths of `ConstructGeometry` are `Float_t` variables, while the definitions above take the
decimal literals exactly. This section evaluates the inner shield as the compiled program does:
a decimal literal is a `double`, an operation on two `Float_t` is rounded to single precision,
an operation with a `double` operand is rounded to double precision, and an assignment to a
`Float_t` rounds to single precision. Every number is the rational it stands for. -/

namespace Float_t

/-- The power `2 ^ e` for an integer exponent. -/
def pow2 (e : Int) : ℚ :=
  if 0 ≤ e then ((2 ^ e.toNat : Nat) : ℚ) else 1 / ((2 ^ (-e).toNat : Nat) : ℚ)

/-- The number of halvings that bring `n` below 2, for `n` up to `2 ^ fuel`. -/
def log2 : Nat → Nat → Nat
  | 0, _ => 0
  | fuel + 1, n => if n < 2 then 0 else log2 fuel (n / 2) + 1

/-- The binary exponent of a non-zero number: the `e` with `2 ^ e ≤ |x| < 2 ^ (e + 1)`. -/
def exponent (x : ℚ) : Int :=
  let n := x.num.natAbs
  let e : Int := (log2 n n : Int) - (log2 x.den x.den : Int)
  if pow2 e ≤ (if x < 0 then -x else x) then e else e - 1

/-- The integer nearest to `x`; of two integers equally near, the even one. -/
def roundHalfEven (x : ℚ) : Int :=
  let f := Rat.floor x
  let r := x - f
  if r < 1 / 2 then f else if 1 / 2 < r then f + 1 else if f % 2 = 0 then f else f + 1

/-- The binary floating-point number with a significand of `p` bits nearest to `x`, ties going
to the even significand (the rounding of IEEE 754 arithmetic). The range of the exponent is not
modelled: the lengths of the geometry lie far inside the normal range. -/
def roundTo (p : Nat) (x : ℚ) : ℚ :=
  if x = 0 then 0 else
    let ulp := pow2 (exponent x - ((p : Int) - 1))
    (roundHalfEven (x / ulp) : ℚ) * ulp

/-- A value stored in a `Float_t`, a binary32 number. -/
def single (x : ℚ) : ℚ := roundTo 24 x

/-- A value of type `double`, a binary64 number: the type of the literals with a decimal point
and of every operation that has one as an operand. -/
def double (x : ℚ) : ℚ := roundTo 53 x

/-- The initialisation `Float_t v = x;` from the decimal literal `x`, which is a `double`. -/
def literal (x : ℚ) : ℚ := single (double x)

/-- Declaration `const Float_t zFa = 90.0`. -/
def zFa : ℚ := literal 90.0
/-- Declaration `Float_t dzFaFlange = 2.`. -/
def dzFaFlange : ℚ := literal 2
def rInFaWTube1C1 : ℚ := single (double (double 9.1 / double 2))
def dzFaWTube1C : ℚ := literal 98.8
def rOuFaWTube1C1 : ℚ := single (double (double 13.8 / double 2))
def rOuFaWTube1C2 : ℚ := single (double (double 20.7 / double 2))
def dzFaWTube1R : ℚ := literal 1.0
def rOuFaWTube1R : ℚ := single (double (double 15.0 / double 2))
/-- Declaration `Float_t dzFaWTube1 = dzFaWTube1C + dzFaWTube1R`, a sum of two `Float_t`. -/
def dzFaWTube1 : ℚ := single (dzFaWTube1C + dzFaWTube1R)
def dzFaWTube2C : ℚ := literal 142.9
def rInFaWTube2C1 : ℚ := single (double (double 9.10 / double 2))
def rInFaWTube2C2 : ℚ := single (double (double 12.58 / double 2))
def rOuFaWTube2C1 : ℚ := single (double (double 20.70 / double 2))
def rOuFaWTube2C2 : ℚ := single (double (double (double 30.72 / double 2) - double 0.05))
def dzFaWTube2F : ℚ := literal 0.6
def rInFaWTube2F : ℚ := single (double (double 15.4 / double 2))
def dzFaWTube2 : ℚ := single (dzFaWTube2C + dzFaWTube2F)
def dzFaWTube3 : ℚ := literal 25.0
def rInFaWTube3C1 : ℚ := single (double (double 12.59 / double 2))
def rInFaWTube3C2 : ℚ := single (double (double 13.23 / double 2))
def rOuFaWTube3C1 : ℚ := single (double (double 30.60 / double 2))
def rOuFaWTube3C2 : ℚ := single (double (double 32.35 / double 2))
def dzFaWTube4 : ℚ := literal 31.0
def rInFaWTube4C1 : ℚ := single (double (double 13.23 / double 2))
def rInFaWTube4C2 : ℚ := single (double (double 13.98 / double 2))
def rOuFaWTube4C1 : ℚ := single (double (double 48.80 / double 2))
def rOuFaWTube4C2 : ℚ := single (double (double 52.05 / double 2))
def dzFaGraphiteCone : ℚ := literal 225.0
def dzFaGraphiteConeS : ℚ := literal 108.3
def dzFaConcreteCone : ℚ := literal 126
def dzFaSteelCone25 : ℚ := literal 25
def dzFaSteelCone31 : ℚ := literal 31
/-- Declaration `Float_t dzFa = dzFaFlange + dzFaGraphiteCone + dzFaConcreteCone +
dzFaSteelCone25 + dzFaSteelCone31`, each sum of two `Float_t` stored as a `Float_t`. -/
def dzFa : ℚ :=
  single (single (single (single (dzFaFlange + dzFaGraphiteCone) + dzFaConcreteCone) +
    dzFaSteelCone25) + dzFaSteelCone31)

/-- Calls on `shFaWTube1`, in single precision; `z` is a `Float_t`. -/
def shFaWTube1_calls : List (DefineSectionCall ℚ) :=
  let z : ℚ := literal 0
  -- Central Part
  let s0 := ⟨0, z, rInFaWTube1C1, rOuFaWTube1C1⟩
  let z := single (z + dzFaWTube1C)
  let s1 := ⟨1, z, rInFaWTube1C1, rOuFaWTube1C2⟩
  -- Rear Flange
  let s2 := ⟨2, z, rInFaWTube1C1, rOuFaWTube1R⟩
  let z := single (z + dzFaWTube1R)
  let s3 := ⟨3, z, rInFaWTube1C1, rOuFaWTube1R⟩
  [s0, s1, s2, s3]

def shFaWTube1 : TGeoPcon ℚ :=
  (TGeoPcon.new 0 360 4).DefineSections shFaWTube1_calls

/-- Calls on `shFaWTube2`, in single precision. -/
def shFaWTube2_calls : List (DefineSectionCall ℚ) :=
  let z : ℚ := literal 0
  -- Front Flange
  let s0 := ⟨0, z, rInFaWTube2F, rOuFaWTube2C1⟩
  let z := single (z + dzFaWTube2F)
  let s1 := ⟨1, z, rInFaWTube2F, rOuFaWTube2C1⟩
  -- Central part
  let s2 := ⟨2, z, rInFaWTube2C1, rOuFaWTube2C1⟩
  let z := single (z + dzFaWTube2C)
  let s3 := ⟨3, z, rInFaWTube2C2, rOuFaWTube2C2⟩
  [s0, s1, s2, s3]

def shFaWTube2 : TGeoPcon ℚ :=
  (TGeoPcon.new 0 360 4).DefineSections shFaWTube2_calls

def voFaWTube1 (med : Media) : TGeoVolume ℚ :=
  TGeoVolume.new "AFaWTube1" (.pcon shFaWTube1) med.kMedNiWsh

def voFaWTube2 (med : Media) : TGeoVolume ℚ :=
  TGeoVolume.new "AFaWTube2" (.pcon shFaWTube2) med.kMedNiWsh

/-- Tube 3; the half length `dzFaWTube3 / 2.` is a `double`. -/
def voFaWTube3 (med : Media) : TGeoVolume ℚ :=
  TGeoVolume.new "AFaWTube3"
    (.cone (double (dzFaWTube3 / double 2)) rInFaWTube3C1 rOuFaWTube3C1 rInFaWTube3C2
      rOuFaWTube3C2)
    med.kMedNiWsh

def voFaWTube4 (med : Media) : TGeoVolume ℚ :=
  TGeoVolume.new "AFaWTube4"
    (.cone (double (dzFaWTube4 / double 2)) rInFaWTube4C1 rOuFaWTube4C1 rInFaWTube4C2
      rOuFaWTube4C2)
    med.kMedNiWsh

/-- Inner shield, in the arithmetic of the program: `z` is a `Float_t`, `dzFaWTube1 - 0.6` and
the arguments of the translations are `double`. -/
def voFaInnerShield (med : Media) : TGeoVolume ℚ :=
  let voFaInnerShield : TGeoVolume ℚ := TGeoVolume.newAssembly "AFaInnerShield"
  let voFaInnerShield := voFaInnerShield.AddNode (voFaWTube1 med) 1 .identity
  let z : ℚ := single (double (dzFaWTube1 - double 0.6))
  let voFaInnerShield := voFaInnerShield.AddNode (voFaWTube2 med) 1 (.translation 0 0 z)
  let z := single (z + dzFaWTube2)
  let voFaInnerShield :=
    voFaInnerShield.AddNode (voFaWTube3 med) 1
      (.translation 0 0 (double (z + double (dzFaWTube3 / double 2))))
  let z := single (z + dzFaWTube3)
  voFaInnerShield.AddNode (voFaWTube4 med) 1
    (.translation 0 0 (double (z + double (dzFaWTube4 / double 2))))

/-- The value of `z` in `voFaM->AddNode(voFaInnerShield, 1, new TGeoTranslation(0., 0., z))`,
assigned by `z = dzFaGraphiteConeS + dzFaFlange`. -/
def zFaInnerShield : ℚ := single (dzFaGraphiteConeS + dzFaFlange)

end Float_t

/-! ## Properties of `MakeShapeFromTemplate` -/

/-- The sections after one `DefineSection` call. -/
theorem DefineSection_sections (p : TGeoPcon K) (snum : Nat) (z rmin rmax : K) :
    (p.DefineSection snum z rmin rmax).sections = p.sections.set snum ⟨z, rmin, rmax⟩ := rfl

/-- The loop of `DefineSection` calls over `0..n-1` keeps the number of sections. -/
theorem defineLoop_length (f : Nat → PconSection K) (n : Nat) (c : TGeoPcon K) :
    ((List.range n).foldl (fun c i => c.DefineSection i (f i).z (f i).rmin (f i).rmax) c).sections.length
      = c.sections.length := by
  induction n with
  | zero => simp
  | succ n ih => simp [List.range_succ, List.foldl_append, DefineSection_sections, ih]

/-- After the loop of `DefineSection` calls over `0..n-1`, every section `i < n` that exists
holds the values the loop passed for it. -/
theorem defineLoop_getD (f : Nat → PconSection K) (n : Nat) (c : TGeoPcon K) (d : PconSection K)
    (i : Nat) (hi : i < n) (hn : n ≤ c.sections.length) :
    ((List.range n).foldl (fun c i => c.DefineSection i (f i).z (f i).rmin (f i).rmax)
      c).sections.getD i d = f i := by
  induction n with
  | zero => omega
  | succ n ih =>
    simp only [List.range_succ, List.foldl_append, List.foldl_cons, List.foldl_nil,
      DefineSection_sections]
    have hlen := defineLoop_length f n c
    rcases Nat.lt_succ_iff_lt_or_eq.mp hi with h | h
    · rw [List.getD_eq_getElem?_getD, List.getElem?_set_ne (by omega),
        ← List.getD_eq_getElem?_getD]
      exact ih h (by omega)
    · subst h
      rw [List.getD_eq_getElem?_getD, List.getElem?_set_eq_of_lt _ (by omega)]
      rfl

/-- The sections of the polycone returned by `MakeShapeFromTemplate`, one by one. -/
theorem MakeShapeFromTemplate_getD (p : TGeoPcon K) (drMin drMax : K) (i : Nat)
    (hi : i < p.GetNz) :
    (MakeShapeFromTemplate p drMin drMax).sections.getD i ⟨0, 0, 0⟩
      = ⟨p.GetZ i, p.GetRmin i + drMin, p.GetRmax i + drMax⟩ := by
  have h := defineLoop_getD
    (fun i => (⟨p.GetZ i, p.GetRmin i + drMin, p.GetRmax i + drMax⟩ : PconSection K))
    p.GetNz (TGeoPcon.new 0 360 p.GetNz) ⟨0, 0, 0⟩ i hi (by simp [TGeoPcon.new])
  simpa [MakeShapeFromTemplate] using h

/-- The polycone returned by `MakeShapeFromTemplate` has as many sections as the template. -/
theorem MakeShapeFromTemplate_GetNz (p : TGeoPcon K) (drMin drMax : K) :
    (MakeShapeFromTemplate p drMin drMax).GetNz = p.GetNz := by
  have h := defineLoop_length
    (fun i => (⟨p.GetZ i, p.GetRmin i + drMin, p.GetRmax i + drMax⟩ : PconSection K))
    p.GetNz (TGeoPcon.new 0 360 p.GetNz)
  simpa [MakeShapeFromTemplate, TGeoPcon.GetNz, TGeoPcon.new] using h

/-- C1: for every polycone `p`, all offsets and every section index `i` of `p`,
`MakeShapeFromTemplate p drMin drMax` has the same number of sections as `p` and its `i`-th
section has the same `z` as the `i`-th section of `p`. -/
theorem MakeShapeFromTemplate_preserves_nz_and_z (p : TGeoPcon K) (drMin drMax : K) (i : Nat)
    (hi : i < p.GetNz) :
    (MakeShapeFromTemplate p drMin drMax).GetNz = p.GetNz ∧
      (MakeShapeFromTemplate p drMin drMax).GetZ i = p.GetZ i := by
  refine ⟨MakeShapeFromTemplate_GetNz p drMin drMax, ?_⟩
  simp only [TGeoPcon.GetZ]
  rw [MakeShapeFromTemplate_getD p drMin drMax i hi]
  rfl

/-- Witness of C1 on `samplePcon` with offsets `1/2` and `-3`, at section `2`. -/
theorem MakeShapeFromTemplate_preserves_nz_and_z_witness :
    (2 < samplePcon.GetNz) ∧
      ((MakeShapeFromTemplate samplePcon (1 / 2) (-3)).GetNz = samplePcon.GetNz ∧
        (MakeShapeFromTemplate samplePcon (1 / 2) (-3)).GetZ 2 = samplePcon.GetZ 2) :=
  ⟨by decide, MakeShapeFromTemplate_preserves_nz_and_z samplePcon (1 / 2) (-3) 2 (by decide)⟩

/-- C2: for every polycone `p`, every section index `i` of `p` and all offsets of either sign,
the `i`-th section of `MakeShapeFromTemplate p drMin drMax` has inner radius
`Rmin_p(i) + drMin` and outer radius `Rmax_p(i) + drMax`; a negative `drMax` gives a strictly
smaller outer radius in that section. -/
theorem MakeShapeFromTemplate_shifts_radii (p : TGeoPcon K) (drMin drMax : K) (i : Nat)
    (hi : i < p.GetNz) :
    (MakeShapeFromTemplate p drMin drMax).GetRmin i = p.GetRmin i + drMin ∧
      (MakeShapeFromTemplate p drMin drMax).GetRmax i = p.GetRmax i + drMax ∧
      (drMax < 0 → (MakeShapeFromTemplate p drMin drMax).GetRmax i < p.GetRmax i) := by
  have h := MakeShapeFromTemplate_getD p drMin drMax i hi
  have hmin : (MakeShapeFromTemplate p drMin drMax).GetRmin i = p.GetRmin i + drMin := by
    simp only [TGeoPcon.GetRmin] at *
    rw [h]
  have hmax : (MakeShapeFromTemplate p drMin drMax).GetRmax i = p.GetRmax i + drMax := by
    simp only [TGeoPcon.GetRmax] at *
    rw [h]
  refine ⟨hmin, hmax, fun hneg => ?_⟩
  rw [hmax]
  linarith

/-- Witness of C2 on `samplePcon` with offsets `1/2` and `-3`, at section `1`. -/
theorem MakeShapeFromTemplate_shifts_radii_witness :
    (1 < samplePcon.GetNz) ∧
      ((MakeShapeFromTemplate samplePcon (1 / 2) (-3)).GetRmin 1 = samplePcon.GetRmin 1 + 1 / 2 ∧
        (MakeShapeFromTemplate samplePcon (1 / 2) (-3)).GetRmax 1 = samplePcon.GetRmax 1 + (-3) ∧
        (((-3 : ℚ)) < 0 →
          (MakeShapeFromTemplate samplePcon (1 / 2) (-3)).GetRmax 1 < samplePcon.GetRmax 1)) :=
  ⟨by decide, MakeShapeFromTemplate_shifts_radii samplePcon (1 / 2) (-3) 1 (by decide)⟩

/-! ## The registrations made by `createMaterials` -/

/-- One step of the run: a `Material` call followed by the rest of the body. -/
theorem Material_bind {α : Type} (imat : Int) (name : String) (a z dens radl absl : ℚ)
    (f : Int → StateM VMC α) (mc : VMC) :
    (Material imat name a z dens radl absl >>= f) mc =
      f (mc.nmat + 1)
        ⟨mc.entries ++ [.material ⟨imat, name, a, z, dens, radl, absl⟩ (mc.nmat + 1)],
          mc.nmat + 1, mc.nmed⟩ := rfl

/-- One step of the run: a `Mixture` call followed by the rest of the body. -/
theorem Mixture_bind {α : Type} (imat : Int) (name : String) (a z : List ℚ) (dens : ℚ)
    (nlmat : Int) (wmat : List ℚ) (f : Int → StateM VMC α) (mc : VMC) :
    (Mixture imat name a z dens nlmat wmat >>= f) mc =
      f (mc.nmat + 1)
        ⟨mc.entries ++ [.mixture ⟨imat, name, a, z, dens, nlmat, wmat⟩ (mc.nmat + 1)],
          mc.nmat + 1, mc.nmed⟩ := rfl

/-- One step of the run: a `Medium` call, its result dropped, followed by the rest. -/
theorem Medium_discard_bind {α : Type} (numed : Int) (name : String) (nmat isvol ifield : Int)
    (fieldm tmaxfd stemax deemax epsil stmin : ℚ) (f : Unit → StateM VMC α) (mc : VMC) :
    (discard (Medium numed name nmat isvol ifield fieldm tmaxfd stemax deemax epsil stmin)
        >>= f) mc =
      f () ⟨mc.entries ++ [.medium
        ⟨numed, name, nmat, isvol, ifield, fieldm, tmaxfd, stemax, deemax, epsil, stmin⟩
        (mc.nmed + 1)], mc.nmat, mc.nmed + 1⟩ := rfl

/-- The last step of the run: a `Medium` call, its result dropped. -/
theorem Medium_discard (numed : Int) (name : String) (nmat isvol ifield : Int)
    (fieldm tmaxfd stemax deemax epsil stmin : ℚ) (mc : VMC) :
    (discard (Medium numed name nmat isvol ifield fieldm tmaxfd stemax deemax epsil stmin)) mc =
      ((), ⟨mc.entries ++ [.medium
        ⟨numed, name, nmat, isvol, ifield, fieldm, tmaxfd, stemax, deemax, epsil, stmin⟩
        (mc.nmed + 1)], mc.nmat, mc.nmed + 1⟩) := rfl

set_option maxRecDepth 100000 in
set_option maxHeartbeats 4000000 in
/-- The registrations of one run of `createMaterials` on an empty registry, in call order, each
with the key the registry returned. -/
theorem registered_entries (init : Int → ℚ → Int × ℚ) :
    (registered init).entries =
    [ Registration.material (MaterialArgs.mk 6 "CARBON0$" 12.01 6 1.75 24.4 49.9) 1,
      Registration.material (MaterialArgs.mk 26 "CARBON1$" 12.01 6 1.75 24.4 49.9) 2,
      Registration.material (MaterialArgs.mk 46 "CARBON2$" 12.01 6 1.75 24.4 49.9) 3,
      Registration.medium (MediumArgs.mk 6 "ABSO_C_C0" 1 0 (init 2 10).1 (init 2 10).2 (-20) (-0.01) (-0.3) 0.001 (-0.8)) 1,
      Registration.medium (MediumArgs.mk 26 "ABSO_C_C1" 2 0 (init 2 10).1 (init 2 10).2 (-20) (-0.01) (-0.3) 0.001 (-0.8)) 2,
      Registration.medium (MediumArgs.mk 46 "ABSO_C_C2" 3 0 (init 2 10).1 (init 2 10).2 (-20) (-0.01) (-0.3) 0.001 (-0.8)) 3,
      Registration.material (MaterialArgs.mk 9 "ALUMINIUM0$" 26.98 13 2.7 8.9 37.2) 4,
      Registration.material (MaterialArgs.mk 29 "ALUMINIUM1$" 26.98 13 2.7 8.9 37.2) 5,
      Registration.material (MaterialArgs.mk 49 "ALUMINIUM2$" 26.98 13 2.7 8.9 37.2) 6,
      Registration.medium (MediumArgs.mk 9 "ABSO_ALU_C0" 4 0 (init 2 10).1 (init 2 10).2 (-20) (-0.01) (-0.3) 0.001 (-0.8)) 4,
      Registration.medium (MediumArgs.mk 29 "ABSO_ALU_C1" 5 0 (init 2 10).1 (init 2 10).2 (-20) (-0.01) (-0.3) 0.001 (-0.8)) 5,
      Registration.medium (MediumArgs.mk 49 "ABSO_ALU_C2" 6 0 (init 2 10).1 (init 2 10).2 (-20) (-0.01) (-0.3) 0.001 (-0.8)) 6,
      Registration.material (MaterialArgs.mk 7 "MAGNESIUM$" 24.31 12 1.74 25.3 46.0) 7,
      Registration.medium (MediumArgs.mk 7 "ABSO_MG_C0" 7 0 (init 2 10).1 (init 2 10).2 (-20) (-0.01) (-0.3) 0.001 (-0.8)) 7,
      Registration.material (MaterialArgs.mk 10 "IRON0$" 55.85 26 7.87 1.76 17.1) 8,
      Registration.material (MaterialArgs.mk 30 "IRON1$" 55.85 26 7.87 1.76 17.1) 9,
      Registration.material (MaterialArgs.mk 50 "IRON2$" 55.85 26 7.87 1.76 17.1) 10,
      Registration.medium (MediumArgs.mk 10 "ABSO_FE_C0" 8 0 (init 2 10).1 (init 2 10).2 (-20) (-0.01) (-0.3) 0.001 (-0.8)) 8,
      Registration.medium (MediumArgs.mk 30 "ABSO_FE_C1" 9 0 (init 2 10).1 (init 2 10).2 (-20) (-0.01) (-0.3) 0.001 (-0.8)) 9,
      Registration.medium (MediumArgs.mk 50 "ABSO_FE_C2" 10 0 (init 2 10).1 (init 2 10).2 (-20) (-0.01) (-0.3) 0.001 (-0.8)) 10,
      Registration.material (MaterialArgs.mk 11 "COPPER0$" 63.55 29 8.96 1.43 15.1) 11,
      Registration.material (MaterialArgs.mk 31 "COPPER1$" 63.55 29 8.96 1.43 15.1) 12,
      Registration.material (MaterialArgs.mk 51 "COPPER2$" 63.55 29 8.96 1.43 15.1) 13,
      Registration.medium (MediumArgs.mk 11 "ABSO_Cu_C0" 11 0 (init 2 10).1 (init 2 10).2 (-20) (-0.01) (-0.3) 0.001 (-0.8)) 11,
      Registration.medium (MediumArgs.mk 31 "ABSO_Cu_C1" 12 0 (init 2 10).1 (init 2 10).2 (-20) (-(-0.01)) (-0.3) 0.001 (-0.8)) 12,
      Registration.medium (MediumArgs.mk 51 "ABSO_Cu_C2" 13 0 (init 2 10).1 (init 2 10).2 (-20) (-0.01) (-0.3) 0.001 (-0.8)) 13,
      Registration.material (MaterialArgs.mk 12 "TUNGSTEN0$ " 183.85 74 19.3 0.35 10.3) 14,
      Registration.material (MaterialArgs.mk 32 "TUNGSTEN1$ " 183.85 74 19.3 0.35 10.3) 15,
      Registration.material (MaterialArgs.mk 52 "TUNGSTEN2$ " 183.85 74 19.3 0.35 10.3) 16,
      Registration.medium (MediumArgs.mk 12 "ABSO_W_C0" 14 0 (init 2 10).1 (init 2 10).2 (-20) (-0.01) (-0.3) 0.001 (-0.8)) 14,
      Registration.medium (MediumArgs.mk 32 "ABSO_W_C1" 15 0 (init 2 10).1 (init 2 10).2 (-20) (-(-0.01)) (-0.3) 0.001 (-0.8)) 15,
      Registration.medium (MediumArgs.mk 52 "ABSO_W_C2" 16 0 (init 2 10).1 (init 2 10).2 (-20) (-0.01) (-0.3) 0.001 (-0.8)) 16,
      Registration.mixture (MixtureArgs.mk 21 "Ni-W-Cu0$" [58.6934, 183.84, 63.546] [28, 74, 29] 18.78 3 [0.015, 0.95, 0.035]) 17,
      Registration.mixture (MixtureArgs.mk 41 "Ni-W-Cu1$" [58.6934, 183.84, 63.546] [28, 74, 29] 18.78 3 [0.015, 0.95, 0.035]) 18,
      Registration.mixture (MixtureArgs.mk 61 "Ni-W-Cu2$" [58.6934, 183.84, 63.546] [28, 74, 29] 18.78 3 [0.015, 0.95, 0.035]) 19,
      Registration.medium (MediumArgs.mk 21 "ABSO_Ni/W0" 17 0 (init 2 10).1 (init 2 10).2 (-20) (-0.01) (-0.3) 0.001 (-0.8)) 17,
      Registration.medium (MediumArgs.mk 41 "ABSO_Ni/W1" 18 0 (init 2 10).1 (init 2 10).2 (-20) (-0.01) (-0.3) 0.001 (-0.8)) 18,
      Registration.medium (MediumArgs.mk 61 "ABSO_Ni/W3" 19 0 (init 2 10).1 (init 2 10).2 (-20) (-0.01) (-0.3) 0.001 (-0.8)) 19,
      Registration.material (MaterialArgs.mk 13 "LEAD0$" 207.19 82 11.35 0.56 18.5) 20,
      Registration.material (MaterialArgs.mk 33 "LEAD1$" 207.19 82 11.35 0.56 18.5) 21,
      Registration.material (MaterialArgs.mk 53 "LEAD2$" 207.19 82 11.35 0.56 18.5) 22,
      Registration.medium (MediumArgs.mk 13 "ABSO_PB_C0" 20 0 (init 2 10).1 (init 2 10).2 (-20) (-0.01) (-0.3) 0.001 (-0.8)) 20,
      Registration.medium (MediumArgs.mk 33 "ABSO_PB_C1" 21 0 (init 2 10).1 (init 2 10).2 (-20) (-(-0.01)) (-0.3) 0.001 (-0.8)) 21,
      Registration.medium (MediumArgs.mk 53 "ABSO_PB_C2" 22 0 (init 2 10).1 (init 2 10).2 (-20) (-0.01) (-0.3) 0.001 (-0.8)) 22,
      Registration.mixture (MixtureArgs.mk 14 "INSULATION0$" [28.0855, 15.9994, 47.867, 26.982] [14, 8, 22, 13] 0.41 4 [0.3019, 0.4887, 0.1914, 0.018]) 23,
      Registration.mixture (MixtureArgs.mk 34 "INSULATION1$" [28.0855, 15.9994, 47.867, 26.982] [14, 8, 22, 13] 0.41 4 [0.3019, 0.4887, 0.1914, 0.018]) 24,
      Registration.mixture (MixtureArgs.mk 54 "INSULATION2$" [28.0855, 15.9994, 47.867, 26.982] [14, 8, 22, 13] 0.41 4 [0.3019, 0.4887, 0.1914, 0.018]) 25,
      Registration.medium (MediumArgs.mk 14 "ABSO_INS_C0" 23 0 (init 2 10).1 (init 2 10).2 (-20) (-0.01) (-0.3) 0.001 (-0.8)) 23,
      Registration.medium (MediumArgs.mk 34 "ABSO_INS_C1" 24 0 (init 2 10).1 (init 2 10).2 (-20) (-0.01) (-0.3) 0.001 (-0.8)) 24,
      Registration.medium (MediumArgs.mk 54 "ABSO_INS_C2" 25 0 (init 2 10).1 (init 2 10).2 (-20) (-0.01) (-0.3) 0.001 (-0.8)) 25,
      Registration.mixture (MixtureArgs.mk 15 "AIR0$" [12.0107, 14.0067, 15.9994, 39.948] [6, 7, 8, 18] 1.20479e-3 4 [0.000124, 0.755267, 0.231781, 0.012827]) 26,
      Registration.mixture (MixtureArgs.mk 35 "AIR1$" [12.0107, 14.0067, 15.9994, 39.948] [6, 7, 8, 18] 1.20479e-3 4 [0.000124, 0.755267, 0.231781, 0.012827]) 27,
      Registration.mixture (MixtureArgs.mk 55 "AIR2$" [12.0107, 14.0067, 15.9994, 39.948] [6, 7, 8, 18] 1.20479e-3 4 [0.000124, 0.755267, 0.231781, 0.012827]) 28,
      Registration.medium (MediumArgs.mk 15 "ABSO_AIR_C0" 26 0 (init 2 10).1 (init 2 10).2 (-20) (-0.01) (-0.3) 0.001 (-0.8)) 26,
      Registration.medium (MediumArgs.mk 35 "ABSO_AIR_C1" 27 0 (init 2 10).1 (init 2 10).2 (-20) (-0.01) (-0.3) 0.001 (-0.8)) 27,
      Registration.medium (MediumArgs.mk 55 "ABSO_AIR_C2" 28 0 (init 2 10).1 (init 2 10).2 (-20) (-0.01) (-0.3) 0.001 (-0.8)) 28,
      Registration.mixture (MixtureArgs.mk 16 "VACUUM0$" [12.0107, 14.0067, 15.9994, 39.948] [6, 7, 8, 18] 1.20479e-10 4 [0.000124, 0.755267, 0.231781, 0.012827]) 29,
      Registration.mixture (MixtureArgs.mk 36 "VACUUM1$" [12.0107, 14.0067, 15.9994, 39.948] [6, 7, 8, 18] 1.20479e-10 4 [0.000124, 0.755267, 0.231781, 0.012827]) 30,
      Registration.mixture (MixtureArgs.mk 56 "VACUUM2$" [12.0107, 14.0067, 15.9994, 39.948] [6, 7, 8, 18] 1.20479e-10 4 [0.000124, 0.755267, 0.231781, 0.012827]) 31,
      Registration.medium (MediumArgs.mk 16 "ABSO_VA_C0" 29 0 (init 2 10).1 (init 2 10).2 (-20) (-0.01) (-0.3) 0.001 (-0.8)) 29,
      Registration.medium (MediumArgs.mk 36 "ABSO_VA_C1" 30 0 (init 2 10).1 (init 2 10).2 (-20) (-0.01) (-0.3) 0.001 (-0.8)) 30,
      Registration.medium (MediumArgs.mk 56 "ABSO_VA_C2" 31 0 (init 2 10).1 (init 2 10).2 (-20) (-0.01) (-0.3) 0.001 (-0.8)) 31,
      Registration.mixture (MixtureArgs.mk 17 "CONCRETE0$" [1, 12.01, 15.994, 22.99, 24.305, 26.98, 28.086, 39.1, 40.08, 55.85] [1, 6, 8, 11, 12, 13, 14, 19, 20, 26] 2.35 10 [0.01, 0.001, 0.529107, 0.016, 0.002, 0.033872, 0.337021, 0.013, 0.044, 0.014]) 32,
      Registration.mixture (MixtureArgs.mk 37 "CONCRETE1$" [1, 12.01, 15.994, 22.99, 24.305, 26.98, 28.086, 39.1, 40.08, 55.85] [1, 6, 8, 11, 12, 13, 14, 19, 20, 26] 2.35 10 [0.01, 0.001, 0.529107, 0.016, 0.002, 0.033872, 0.337021, 0.013, 0.044, 0.014]) 33,
      Registration.mixture (MixtureArgs.mk 57 "CONCRETE2$" [1, 12.01, 15.994, 22.99, 24.305, 26.98, 28.086, 39.1, 40.08, 55.85] [1, 6, 8, 11, 12, 13, 14, 19, 20, 26] 2.35 10 [0.01, 0.001, 0.529107, 0.016, 0.002, 0.033872, 0.337021, 0.013, 0.044, 0.014]) 34,
      Registration.medium (MediumArgs.mk 17 "ABSO_CC_C0" 32 0 (init 2 10).1 (init 2 10).2 (-20) (-0.01) (-0.3) 0.001 (-0.8)) 32,
      Registration.medium (MediumArgs.mk 37 "ABSO_CC_C1" 33 0 (init 2 10).1 (init 2 10).2 (-20) (-0.01) (-0.3) 0.001 (-0.8)) 33,
      Registration.medium (MediumArgs.mk 57 "ABSO_CC_C2" 34 0 (init 2 10).1 (init 2 10).2 (-20) (-0.01) (-0.3) 0.001 (-0.8)) 34,
      Registration.mixture (MixtureArgs.mk 18 "POLYETHYLEN0$" [12.01, 1] [6, 1] 0.95 (-2) [0.33, 0.67]) 35,
      Registration.mixture (MixtureArgs.mk 38 "POLYETHYLEN1$" [12.01, 1] [6, 1] 0.95 2 [0.33, 0.67]) 36,
      Registration.mixture (MixtureArgs.mk 58 "POLYETHYLEN2$" [12.01, 1] [6, 1] 0.95 2 [0.33, 0.67]) 37,
      Registration.medium (MediumArgs.mk 18 "ABSO_CH2_C0" 35 0 (init 2 10).1 (init 2 10).2 (-20) (-0.01) (-0.3) 0.001 (-0.8)) 35,
      Registration.medium (MediumArgs.mk 38 "ABSO_CH2_C1" 36 0 (init 2 10).1 (init 2 10).2 (-20) (-0.01) (-0.3) 0.001 (-0.8)) 36,
      Registration.medium (MediumArgs.mk 58 "ABSO_CH2_C2" 37 0 (init 2 10).1 (init 2 10).2 (-20) (-0.01) (-0.3) 0.001 (-0.8)) 37,
      Registration.mixture (MixtureArgs.mk 19 "STAINLESS STEEL0$" [55.847, 51.9961, 58.6934, 28.0855] [26, 24, 28, 14] 7.88 4 [0.715, 0.18, 0.1, 0.005]) 38,
      Registration.mixture (MixtureArgs.mk 39 "STAINLESS STEEL1$" [55.847, 51.9961, 58.6934, 28.0855] [26, 24, 28, 14] 7.88 4 [0.715, 0.18, 0.1, 0.005]) 39,
      Registration.mixture (MixtureArgs.mk 59 "STAINLESS STEEL2$" [55.847, 51.9961, 58.6934, 28.0855] [26, 24, 28, 14] 7.88 4 [0.715, 0.18, 0.1, 0.005]) 40,
      Registration.medium (MediumArgs.mk 19 "ABSO_ST_C0" 38 0 (init 2 10).1 (init 2 10).2 (-20) (-0.01) (-0.3) 0.001 (-0.8)) 38,
      Registration.medium (MediumArgs.mk 39 "ABSO_ST_C1" 39 0 (init 2 10).1 (init 2 10).2 (-20) (-0.01) (-0.3) 0.001 (-0.8)) 39,
      Registration.medium (MediumArgs.mk 59 "ABSO_ST_C3" 40 0 (init 2 10).1 (init 2 10).2 (-20) (-0.01) (-0.3) 0.001 (-0.8)) 40,
      Registration.mixture (MixtureArgs.mk 20 "Poly Concrete0$" [1, 6.941, 18.998, 12.01, 26.98, 28.086, 40.078, 207.2, 15.999] [1, 3, 9, 6, 13, 14, 20, 82, 8] 3.53 (-9) (normalizeLoop wPolyCcLiteral (wtotLoop wPolyCcLiteral))) 41,
      Registration.mixture (MixtureArgs.mk 40 "Poly Concrete1$" [1, 6.941, 18.998, 12.01, 26.98, 28.086, 40.078, 207.2, 15.999] [1, 3, 9, 6, 13, 14, 20, 82, 8] 3.53 9 (normalizeLoop wPolyCcLiteral (wtotLoop wPolyCcLiteral))) 42,
      Registration.mixture (MixtureArgs.mk 60 "Poly Concrete2$" [1, 6.941, 18.998, 12.01, 26.98, 28.086, 40.078, 207.2, 15.999] [1, 3, 9, 6, 13, 14, 20, 82, 8] 3.53 9 (normalizeLoop wPolyCcLiteral (wtotLoop wPolyCcLiteral))) 43,
      Registration.medium (MediumArgs.mk 20 "ABSO_PCc_C0" 41 0 (init 2 10).1 (init 2 10).2 (-20) (-0.01) (-0.3) 0.001 (-0.8)) 41,
      Registration.medium (MediumArgs.mk 40 "ABSO_PCc_C1" 42 0 (init 2 10).1 (init 2 10).2 (-20) (-0.01) (-0.3) 0.001 (-0.8)) 42,
      Registration.medium (MediumArgs.mk 60 "ABSO_PCc_C3" 43 0 (init 2 10).1 (init 2 10).2 (-20) (-0.01) (-0.3) 0.001 (-0.8)) 43 ] := by
  simp only [registered, createMaterials, StateT.run, VMC.empty, Material_bind, Mixture_bind,
    Medium_discard_bind, Medium_discard, Int.reduceAdd, zero_add,
    List.nil_append, List.cons_append, List.append_assoc, List.singleton_append]

/-- The `Material` calls of one run of `createMaterials`, in call order. -/
theorem registered_materials (init : Int → ℚ → Int × ℚ) :
    (registered init).materials =
    [ MaterialArgs.mk 6 "CARBON0$" 12.01 6 1.75 24.4 49.9,
      MaterialArgs.mk 26 "CARBON1$" 12.01 6 1.75 24.4 49.9,
      MaterialArgs.mk 46 "CARBON2$" 12.01 6 1.75 24.4 49.9,
      MaterialArgs.mk 9 "ALUMINIUM0$" 26.98 13 2.7 8.9 37.2,
      MaterialArgs.mk 29 "ALUMINIUM1$" 26.98 13 2.7 8.9 37.2,
      MaterialArgs.mk 49 "ALUMINIUM2$" 26.98 13 2.7 8.9 37.2,
      MaterialArgs.mk 7 "MAGNESIUM$" 24.31 12 1.74 25.3 46.0,
      MaterialArgs.mk 10 "IRON0$" 55.85 26 7.87 1.76 17.1,
      MaterialArgs.mk 30 "IRON1$" 55.85 26 7.87 1.76 17.1,
      MaterialArgs.mk 50 "IRON2$" 55.85 26 7.87 1.76 17.1,
      MaterialArgs.mk 11 "COPPER0$" 63.55 29 8.96 1.43 15.1,
      MaterialArgs.mk 31 "COPPER1$" 63.55 29 8.96 1.43 15.1,
      MaterialArgs.mk 51 "COPPER2$" 63.55 29 8.96 1.43 15.1,
      MaterialArgs.mk 12 "TUNGSTEN0$ " 183.85 74 19.3 0.35 10.3,
      MaterialArgs.mk 32 "TUNGSTEN1$ " 183.85 74 19.3 0.35 10.3,
      MaterialArgs.mk 52 "TUNGSTEN2$ " 183.85 74 19.3 0.35 10.3,
      MaterialArgs.mk 13 "LEAD0$" 207.19 82 11.35 0.56 18.5,
      MaterialArgs.mk 33 "LEAD1$" 207.19 82 11.35 0.56 18.5,
      MaterialArgs.mk 53 "LEAD2$" 207.19 82 11.35 0.56 18.5 ] := by
  rw [VMC.materials, registered_entries]
  rfl

/-- The `Mixture` calls of one run of `createMaterials`, in call order. -/
theorem registered_mixtures (init : Int → ℚ → Int × ℚ) :
    (registered init).mixtures =
    [ MixtureArgs.mk 21 "Ni-W-Cu0$" [58.6934, 183.84, 63.546] [28, 74, 29] 18.78 3 [0.015, 0.95, 0.035],
      MixtureArgs.mk 41 "Ni-W-Cu1$" [58.6934, 183.84, 63.546] [28, 74, 29] 18.78 3 [0.015, 0.95, 0.035],
      MixtureArgs.mk 61 "Ni-W-Cu2$" [58.6934, 183.84, 63.546] [28, 74, 29] 18.78 3 [0.015, 0.95, 0.035],
      MixtureArgs.mk 14 "INSULATION0$" [28.0855, 15.9994, 47.867, 26.982] [14, 8, 22, 13] 0.41 4 [0.3019, 0.4887, 0.1914, 0.018],
      MixtureArgs.mk 34 "INSULATION1$" [28.0855, 15.9994, 47.867, 26.982] [14, 8, 22, 13] 0.41 4 [0.3019, 0.4887, 0.1914, 0.018],
      MixtureArgs.mk 54 "INSULATION2$" [28.0855, 15.9994, 47.867, 26.982] [14, 8, 22, 13] 0.41 4 [0.3019, 0.4887, 0.1914, 0.018],
      MixtureArgs.mk 15 "AIR0$" [12.0107, 14.0067, 15.9994, 39.948] [6, 7, 8, 18] 1.20479e-3 4 [0.000124, 0.755267, 0.231781, 0.012827],
      MixtureArgs.mk 35 "AIR1$" [12.0107, 14.0067, 15.9994, 39.948] [6, 7, 8, 18] 1.20479e-3 4 [0.000124, 0.755267, 0.231781, 0.012827],
      MixtureArgs.mk 55 "AIR2$" [12.0107, 14.0067, 15.9994, 39.948] [6, 7, 8, 18] 1.20479e-3 4 [0.000124, 0.755267, 0.231781, 0.012827],
      MixtureArgs.mk 16 "VACUUM0$" [12.0107, 14.0067, 15.9994, 39.948] [6, 7, 8, 18] 1.20479e-10 4 [0.000124, 0.755267, 0.231781, 0.012827],
      MixtureArgs.mk 36 "VACUUM1$" [12.0107, 14.0067, 15.9994, 39.948] [6, 7, 8, 18] 1.20479e-10 4 [0.000124, 0.755267, 0.231781, 0.012827],
      MixtureArgs.mk 56 "VACUUM2$" [12.0107, 14.0067, 15.9994, 39.948] [6, 7, 8, 18] 1.20479e-10 4 [0.000124, 0.755267, 0.231781, 0.012827],
      MixtureArgs.mk 17 "CONCRETE0$" [1, 12.01, 15.994, 22.99, 24.305, 26.98, 28.086, 39.1, 40.08, 55.85] [1, 6, 8, 11, 12, 13, 14, 19, 20, 26] 2.35 10 [0.01, 0.001, 0.529107, 0.016, 0.002, 0.033872, 0.337021, 0.013, 0.044, 0.014],
      MixtureArgs.mk 37 "CONCRETE1$" [1, 12.01, 15.994, 22.99, 24.305, 26.98, 28.086, 39.1, 40.08, 55.85] [1, 6, 8, 11, 12, 13, 14, 19, 20, 26] 2.35 10 [0.01, 0.001, 0.529107, 0.016, 0.002, 0.033872, 0.337021, 0.013, 0.044, 0.014],
      MixtureArgs.mk 57 "CONCRETE2$" [1, 12.01, 15.994, 22.99, 24.305, 26.98, 28.086, 39.1, 40.08, 55.85] [1, 6, 8, 11, 12, 13, 14, 19, 20, 26] 2.35 10 [0.01, 0.001, 0.529107, 0.016, 0.002, 0.033872, 0.337021, 0.013, 0.044, 0.014],
      MixtureArgs.mk 18 "POLYETHYLEN0$" [12.01, 1] [6, 1] 0.95 (-2) [0.33, 0.67],
      MixtureArgs.mk 38 "POLYETHYLEN1$" [12.01, 1] [6, 1] 0.95 2 [0.33, 0.67],
      MixtureArgs.mk 58 "POLYETHYLEN2$" [12.01, 1] [6, 1] 0.95 2 [0.33, 0.67],
      MixtureArgs.mk 19 "STAINLESS STEEL0$" [55.847, 51.9961, 58.6934, 28.0855] [26, 24, 28, 14] 7.88 4 [0.715, 0.18, 0.1, 0.005],
      MixtureArgs.mk 39 "STAINLESS STEEL1$" [55.847, 51.9961, 58.6934, 28.0855] [26, 24, 28, 14] 7.88 4 [0.715, 0.18, 0.1, 0.005],
      MixtureArgs.mk 59 "STAINLESS STEEL2$" [55.847, 51.9961, 58.6934, 28.0855] [26, 24, 28, 14] 7.88 4 [0.715, 0.18, 0.1, 0.005],
      MixtureArgs.mk 20 "Poly Concrete0$" [1, 6.941, 18.998, 12.01, 26.98, 28.086, 40.078, 207.2, 15.999] [1, 3, 9, 6, 13, 14, 20, 82, 8] 3.53 (-9) (normalizeLoop wPolyCcLiteral (wtotLoop wPolyCcLiteral)),
      MixtureArgs.mk 40 "Poly Concrete1$" [1, 6.941, 18.998, 12.01, 26.98, 28.086, 40.078, 207.2, 15.999] [1, 3, 9, 6, 13, 14, 20, 82, 8] 3.53 9 (normalizeLoop wPolyCcLiteral (wtotLoop wPolyCcLiteral)),
      MixtureArgs.mk 60 "Poly Concrete2$" [1, 6.941, 18.998, 12.01, 26.98, 28.086, 40.078, 207.2, 15.999] [1, 3, 9, 6, 13, 14, 20, 82, 8] 3.53 9 (normalizeLoop wPolyCcLiteral (wtotLoop wPolyCcLiteral)) ] := by
  rw [VMC.mixtures, registered_entries]
  rfl

/-- The `Medium` calls of one run of `createMaterials`, in call order. -/
theorem registered_media (init : Int → ℚ → Int × ℚ) :
    (registered init).media =
    [ MediumArgs.mk 6 "ABSO_C_C0" 1 0 (init 2 10).1 (init 2 10).2 (-20) (-0.01) (-0.3) 0.001 (-0.8),
      MediumArgs.mk 26 "ABSO_C_C1" 2 0 (init 2 10).1 (init 2 10).2 (-20) (-0.01) (-0.3) 0.001 (-0.8),
      MediumArgs.mk 46 "ABSO_C_C2" 3 0 (init 2 10).1 (init 2 10).2 (-20) (-0.01) (-0.3) 0.001 (-0.8),
      MediumArgs.mk 9 "ABSO_ALU_C0" 4 0 (init 2 10).1 (init 2 10).2 (-20) (-0.01) (-0.3) 0.001 (-0.8),
      MediumArgs.mk 29 "ABSO_ALU_C1" 5 0 (init 2 10).1 (init 2 10).2 (-20) (-0.01) (-0.3) 0.001 (-0.8),
      MediumArgs.mk 49 "ABSO_ALU_C2" 6 0 (init 2 10).1 (init 2 10).2 (-20) (-0.01) (-0.3) 0.001 (-0.8),
      MediumArgs.mk 7 "ABSO_MG_C0" 7 0 (init 2 10).1 (init 2 10).2 (-20) (-0.01) (-0.3) 0.001 (-0.8),
      MediumArgs.mk 10 "ABSO_FE_C0" 8 0 (init 2 10).1 (init 2 10).2 (-20) (-0.01) (-0.3) 0.001 (-0.8),
      MediumArgs.mk 30 "ABSO_FE_C1" 9 0 (init 2 10).1 (init 2 10).2 (-20) (-0.01) (-0.3) 0.001 (-0.8),
      MediumArgs.mk 50 "ABSO_FE_C2" 10 0 (init 2 10).1 (init 2 10).2 (-20) (-0.01) (-0.3) 0.001 (-0.8),
      MediumArgs.mk 11 "ABSO_Cu_C0" 11 0 (init 2 10).1 (init 2 10).2 (-20) (-0.01) (-0.3) 0.001 (-0.8),
      MediumArgs.mk 31 "ABSO_Cu_C1" 12 0 (init 2 10).1 (init 2 10).2 (-20) (-(-0.01)) (-0.3) 0.001 (-0.8),
      MediumArgs.mk 51 "ABSO_Cu_C2" 13 0 (init 2 10).1 (init 2 10).2 (-20) (-0.01) (-0.3) 0.001 (-0.8),
      MediumArgs.mk 12 "ABSO_W_C0" 14 0 (init 2 10).1 (init 2 10).2 (-20) (-0.01) (-0.3) 0.001 (-0.8),
      MediumArgs.mk 32 "ABSO_W_C1" 15 0 (init 2 10).1 (init 2 10).2 (-20) (-(-0.01)) (-0.3) 0.001 (-0.8),
      MediumArgs.mk 52 "ABSO_W_C2" 16 0 (init 2 10).1 (init 2 10).2 (-20) (-0.01) (-0.3) 0.001 (-0.8),
      MediumArgs.mk 21 "ABSO_Ni/W0" 17 0 (init 2 10).1 (init 2 10).2 (-20) (-0.01) (-0.3) 0.001 (-0.8),
      MediumArgs.mk 41 "ABSO_Ni/W1" 18 0 (init 2 10).1 (init 2 10).2 (-20) (-0.01) (-0.3) 0.001 (-0.8),
      MediumArgs.mk 61 "ABSO_Ni/W3" 19 0 (init 2 10).1 (init 2 10).2 (-20) (-0.01) (-0.3) 0.001 (-0.8),
      MediumArgs.mk 13 "ABSO_PB_C0" 20 0 (init 2 10).1 (init 2 10).2 (-20) (-0.01) (-0.3) 0.001 (-0.8),
      MediumArgs.mk 33 "ABSO_PB_C1" 21 0 (init 2 10).1 (init 2 10).2 (-20) (-(-0.01)) (-0.3) 0.001 (-0.8),
      MediumArgs.mk 53 "ABSO_PB_C2" 22 0 (init 2 10).1 (init 2 10).2 (-20) (-0.01) (-0.3) 0.001 (-0.8),
      MediumArgs.mk 14 "ABSO_INS_C0" 23 0 (init 2 10).1 (init 2 10).2 (-20) (-0.01) (-0.3) 0.001 (-0.8),
      MediumArgs.mk 34 "ABSO_INS_C1" 24 0 (init 2 10).1 (init 2 10).2 (-20) (-0.01) (-0.3) 0.001 (-0.8),
      MediumArgs.mk 54 "ABSO_INS_C2" 25 0 (init 2 10).1 (init 2 10).2 (-20) (-0.01) (-0.3) 0.001 (-0.8),
      MediumArgs.mk 15 "ABSO_AIR_C0" 26 0 (init 2 10).1 (init 2 10).2 (-20) (-0.01) (-0.3) 0.001 (-0.8),
      MediumArgs.mk 35 "ABSO_AIR_C1" 27 0 (init 2 10).1 (init 2 10).2 (-20) (-0.01) (-0.3) 0.001 (-0.8),
      MediumArgs.mk 55 "ABSO_AIR_C2" 28 0 (init 2 10).1 (init 2 10).2 (-20) (-0.01) (-0.3) 0.001 (-0.8),
      MediumArgs.mk 16 "ABSO_VA_C0" 29 0 (init 2 10).1 (init 2 10).2 (-20) (-0.01) (-0.3) 0.001 (-0.8),
      MediumArgs.mk 36 "ABSO_VA_C1" 30 0 (init 2 10).1 (init 2 10).2 (-20) (-0.01) (-0.3) 0.001 (-0.8),
      MediumArgs.mk 56 "ABSO_VA_C2" 31 0 (init 2 10).1 (init 2 10).2 (-20) (-0.01) (-0.3) 0.001 (-0.8),
      MediumArgs.mk 17 "ABSO_CC_C0" 32 0 (init 2 10).1 (init 2 10).2 (-20) (-0.01) (-0.3) 0.001 (-0.8),
      MediumArgs.mk 37 "ABSO_CC_C1" 33 0 (init 2 10).1 (init 2 10).2 (-20) (-0.01) (-0.3) 0.001 (-0.8),
      MediumArgs.mk 57 "ABSO_CC_C2" 34 0 (init 2 10).1 (init 2 10).2 (-20) (-0.01) (-0.3) 0.001 (-0.8),
      MediumArgs.mk 18 "ABSO_CH2_C0" 35 0 (init 2 10).1 (init 2 10).2 (-20) (-0.01) (-0.3) 0.001 (-0.8),
      MediumArgs.mk 38 "ABSO_CH2_C1" 36 0 (init 2 10).1 (init 2 10).2 (-20) (-0.01) (-0.3) 0.001 (-0.8),
      MediumArgs.mk 58 "ABSO_CH2_C2" 37 0 (init 2 10).1 (init 2 10).2 (-20) (-0.01) (-0.3) 0.001 (-0.8),
      MediumArgs.mk 19 "ABSO_ST_C0" 38 0 (init 2 10).1 (init 2 10).2 (-20) (-0.01) (-0.3) 0.001 (-0.8),
      MediumArgs.mk 39 "ABSO_ST_C1" 39 0 (init 2 10).1 (init 2 10).2 (-20) (-0.01) (-0.3) 0.001 (-0.8),
      MediumArgs.mk 59 "ABSO_ST_C3" 40 0 (init 2 10).1 (init 2 10).2 (-20) (-0.01) (-0.3) 0.001 (-0.8),
      MediumArgs.mk 20 "ABSO_PCc_C0" 41 0 (init 2 10).1 (init 2 10).2 (-20) (-0.01) (-0.3) 0.001 (-0.8),
      MediumArgs.mk 40 "ABSO_PCc_C1" 42 0 (init 2 10).1 (init 2 10).2 (-20) (-0.01) (-0.3) 0.001 (-0.8),
      MediumArgs.mk 60 "ABSO_PCc_C3" 43 0 (init 2 10).1 (init 2 10).2 (-20) (-0.01) (-0.3) 0.001 (-0.8) ] := by
  rw [VMC.media, registered_entries]
  rfl

/-- The numbers of the `Material` and `Mixture` calls of one run, in call order. -/
theorem registered_materialNumbers (init : Int → ℚ → Int × ℚ) :
    (registered init).materialNumbers =
      [6, 26, 46, 9, 29, 49, 7, 10, 30, 50, 11, 31, 51, 12, 32, 52, 21, 41, 61, 13, 33, 53,
        14, 34, 54, 15, 35, 55, 16, 36, 56, 17, 37, 57, 18, 38, 58, 19, 39, 59, 20, 40, 60] := by
  rw [VMC.materialNumbers, registered_entries]
  rfl

/-- The numbers of the `Medium` calls of one run, in call order. -/
theorem registered_mediumNumbers (init : Int → ℚ → Int × ℚ) :
    (registered init).mediumNumbers =
      [6, 26, 46, 9, 29, 49, 7, 10, 30, 50, 11, 31, 51, 12, 32, 52, 21, 41, 61, 13, 33, 53,
        14, 34, 54, 15, 35, 55, 16, 36, 56, 17, 37, 57, 18, 38, 58, 19, 39, 59, 20, 40, 60] := by
  rw [VMC.mediumNumbers, registered_media]
  rfl

/-- The names of the media registered by one run, in call order. -/
theorem registered_mediumNames (init : Int → ℚ → Int × ℚ) :
    (registered init).media.map (fun x => x.name) =
      ["ABSO_C_C0", "ABSO_C_C1", "ABSO_C_C2", "ABSO_ALU_C0", "ABSO_ALU_C1", "ABSO_ALU_C2",
        "ABSO_MG_C0", "ABSO_FE_C0", "ABSO_FE_C1", "ABSO_FE_C2", "ABSO_Cu_C0", "ABSO_Cu_C1",
        "ABSO_Cu_C2", "ABSO_W_C0", "ABSO_W_C1", "ABSO_W_C2", "ABSO_Ni/W0", "ABSO_Ni/W1",
        "ABSO_Ni/W3", "ABSO_PB_C0", "ABSO_PB_C1", "ABSO_PB_C2", "ABSO_INS_C0", "ABSO_INS_C1",
        "ABSO_INS_C2", "ABSO_AIR_C0", "ABSO_AIR_C1", "ABSO_AIR_C2", "ABSO_VA_C0", "ABSO_VA_C1",
        "ABSO_VA_C2", "ABSO_CC_C0", "ABSO_CC_C1", "ABSO_CC_C2", "ABSO_CH2_C0", "ABSO_CH2_C1",
        "ABSO_CH2_C2", "ABSO_ST_C0", "ABSO_ST_C1", "ABSO_ST_C3", "ABSO_PCc_C0", "ABSO_PCc_C1",
        "ABSO_PCc_C3"] := by
  rw [registered_media]
  rfl

/-- The first loop over nine weights computes their sum. -/
theorem wtotLoop_eq_sum (w : List ℚ) (hlen : w.length = 9) : wtotLoop w = w.sum := by
  match w, hlen with
  | [a, b, c, d, e, f, g, h, i], _ =>
    simp [wtotLoop, show List.range 9 = [0, 1, 2, 3, 4, 5, 6, 7, 8] from rfl]
    ring

/-- The second loop over nine weights divides each of them by `wtot`. -/
theorem normalizeLoop_eq_map (w : List ℚ) (hlen : w.length = 9) (wtot : ℚ) :
    normalizeLoop w wtot = w.map fun x => x / wtot := by
  match w, hlen with
  | [a, b, c, d, e, f, g, h, i], _ =>
    simp [normalizeLoop, show List.range 9 = [0, 1, 2, 3, 4, 5, 6, 7, 8] from rfl]

/-- C3: the normalisation of the polymer-concrete weights (each of the 9 weights divided by
their sum `wtot`) gives fractions that sum to exactly 1, for every array of 9 weights whose sum is
not zero; for the array of the source `wtot` is 10.53, the fractions sum to 1, and they are the
weight array of each of the three "Poly Concrete" mixture registrations. -/
theorem polyConcrete_weights_normalized (w : List ℚ) (hlen : w.length = 9) (hsum : w.sum ≠ 0)
    (init : Int → ℚ → Int × ℚ) :
    wtotLoop w = w.sum ∧
      (normalizeLoop w (wtotLoop w)).sum = 1 ∧
      wtotLoop wPolyCcLiteral = 10.53 ∧
      (normalizeLoop wPolyCcLiteral (wtotLoop wPolyCcLiteral)).sum = 1 ∧
      ((registered init).mixtures.filter fun x =>
          x.name ∈ ["Poly Concrete0$", "Poly Concrete1$", "Poly Concrete2$"]).map
        (fun x => x.wmat) =
        List.replicate 3 (normalizeLoop wPolyCcLiteral (wtotLoop wPolyCcLiteral)) := by
  have hgen : ∀ v : List ℚ, v.length = 9 → v.sum ≠ 0 →
      (normalizeLoop v (wtotLoop v)).sum = 1 := by
    intro v hv hs
    rw [normalizeLoop_eq_map v hv, wtotLoop_eq_sum v hv]
    match v, hv with
    | [a, b, c, d, e, f, g, h, i], _ =>
      simp only [List.map_cons, List.map_nil, List.sum_cons, List.sum_nil, add_zero] at hs ⊢
      have key : a / (a + (b + (c + (d + (e + (f + (g + (h + i)))))))) +
          (b / (a + (b + (c + (d + (e + (f + (g + (h + i)))))))) +
          (c / (a + (b + (c + (d + (e + (f + (g + (h + i)))))))) +
          (d / (a + (b + (c + (d + (e + (f + (g + (h + i)))))))) +
          (e / (a + (b + (c + (d + (e + (f + (g + (h + i)))))))) +
          (f / (a + (b + (c + (d + (e + (f + (g + (h + i)))))))) +
          (g / (a + (b + (c + (d + (e + (f + (g + (h + i)))))))) +
          (h / (a + (b + (c + (d + (e + (f + (g + (h + i)))))))) +
          i / (a + (b + (c + (d + (e + (f + (g + (h + i)))))))))))))))
          = (a + (b + (c + (d + (e + (f + (g + (h + i)))))))) /
            (a + (b + (c + (d + (e + (f + (g + (h + i)))))))) := by ring
      rw [key]
      exact div_self hs
  have hlit : wPolyCcLiteral.sum = 10.53 := by
    norm_num [wPolyCcLiteral]
  refine ⟨wtotLoop_eq_sum w hlen, hgen w hlen hsum, ?_, ?_, ?_⟩
  · rw [wtotLoop_eq_sum wPolyCcLiteral rfl, hlit]
  · exact hgen wPolyCcLiteral rfl (by rw [hlit]; norm_num)
  · rw [registered_mixtures]
    rfl

/-- Witness of C3 at the weight array of the source. -/
theorem polyConcrete_weights_normalized_witness :
    wPolyCcLiteral.length = 9 ∧ wPolyCcLiteral.sum ≠ 0 ∧
      (wtotLoop wPolyCcLiteral = wPolyCcLiteral.sum ∧
      (normalizeLoop wPolyCcLiteral (wtotLoop wPolyCcLiteral)).sum = 1 ∧
      wtotLoop wPolyCcLiteral = 10.53 ∧
      (normalizeLoop wPolyCcLiteral (wtotLoop wPolyCcLiteral)).sum = 1 ∧
      ((registered keepFieldParams).mixtures.filter fun x =>
          x.name ∈ ["Poly Concrete0$", "Poly Concrete1$", "Poly Concrete2$"]).map
        (fun x => x.wmat) =
        List.replicate 3 (normalizeLoop wPolyCcLiteral (wtotLoop wPolyCcLiteral))) :=
  ⟨rfl, by norm_num [wPolyCcLiteral],
    polyConcrete_weights_normalized wPolyCcLiteral rfl (by norm_num [wPolyCcLiteral])
      keepFieldParams⟩

/-- C4, as stated, fails: the weight array of the mixture "AIR0$" does not sum to 1. -/
theorem mixture_weights_sum_one_counterexample :
    ¬ ∀ x ∈ (registered keepFieldParams).mixtures, x.wmat.sum = 1 := by
  rw [registered_mixtures]
  decide!

/-- C4, amended: the weight array passed to a `Mixture` call sums to exactly 1 for every mixture
other than air and vacuum, and to 0.999999 for air and vacuum (which share the array `wAir`). -/
theorem mixture_weights_sum (init : Int → ℚ → Int × ℚ) (x : MixtureArgs)
    (hx : x ∈ (registered init).mixtures) :
    (x.name ∈ ["AIR0$", "AIR1$", "AIR2$", "VACUUM0$", "VACUUM1$", "VACUUM2$"] →
        x.wmat.sum = 0.999999) ∧
      (x.name ∉ ["AIR0$", "AIR1$", "AIR2$", "VACUUM0$", "VACUUM1$", "VACUUM2$"] →
        x.wmat.sum = 1) := by
  have h : ∀ y ∈ (registered init).mixtures,
      (y.name ∈ ["AIR0$", "AIR1$", "AIR2$", "VACUUM0$", "VACUUM1$", "VACUUM2$"] →
        y.wmat.sum = 0.999999) ∧
      (y.name ∉ ["AIR0$", "AIR1$", "AIR2$", "VACUUM0$", "VACUUM1$", "VACUUM2$"] →
        y.wmat.sum = 1) := by
    rw [registered_mixtures]
    decide!
  exact h x hx

/-- Witness of C4 (amended) at the first air mixture. -/
theorem mixture_weights_sum_witness :
    (⟨15, "AIR0$", [12.0107, 14.0067, 15.9994, 39.948], [6, 7, 8, 18], 1.20479e-3, 4,
        [0.000124, 0.755267, 0.231781, 0.012827]⟩ : MixtureArgs) ∈
        (registered keepFieldParams).mixtures ∧
      (([0.000124, 0.755267, 0.231781, 0.012827] : List ℚ).sum = 0.999999) := by
  have hx : (⟨15, "AIR0$", [12.0107, 14.0067, 15.9994, 39.948], [6, 7, 8, 18], 1.20479e-3, 4,
        [0.000124, 0.755267, 0.231781, 0.012827]⟩ : MixtureArgs) ∈
        (registered keepFieldParams).mixtures := by
    rw [registered_mixtures]
    decide!
  exact ⟨hx, (mixture_weights_sum keepFieldParams _ hx).1 (by decide!)⟩

/-- C7, as stated, fails: the tier 0 polyethylene mixture (number 18) is registered with
`nlmat = -2`, its tight-cut variants with `nlmat = 2`. -/
theorem tight_variants_same_composition_counterexample :
    ¬ ((∀ s ∈ substances, ∀ x0 ∈ (registered keepFieldParams).materials,
          ∀ x ∈ (registered keepFieldParams).materials,
          x0.imat = s.2 → IsTightVariant s.2 x.imat → SameMaterial x0 x) ∧
        (∀ s ∈ substances, ∀ x0 ∈ (registered keepFieldParams).mixtures,
          ∀ x ∈ (registered keepFieldParams).mixtures,
          x0.imat = s.2 → IsTightVariant s.2 x.imat →
            SameMixture x0 x ∧ x.nlmat = x0.nlmat)) := by
  rw [registered_mixtures, registered_materials]
  decide!

/-- C7, amended: for every substance registered in several tiers, each tight-cut material or
mixture has the same composition arguments as the normal-cut (tier 0) one (atomic weights,
atomic numbers, density, radiation and absorption length, weight array) and another name; the
component count `nlmat` is the same too, except for polyethylene and polymer concrete, where
tier 0 passes it negated (`-2`, `-9`) and the tight-cut variants pass `2`, `9`. -/
theorem tight_variants_same_composition (init : Int → ℚ → Int × ℚ) :
    (∀ s ∈ substances, ∀ x0 ∈ (registered init).materials, ∀ x ∈ (registered init).materials,
        x0.imat = s.2 → IsTightVariant s.2 x.imat → SameMaterial x0 x ∧ x.name ≠ x0.name) ∧
      (∀ s ∈ substances, ∀ x0 ∈ (registered init).mixtures, ∀ x ∈ (registered init).mixtures,
        x0.imat = s.2 → IsTightVariant s.2 x.imat →
          SameMixture x0 x ∧ x.name ≠ x0.name ∧
            (s.2 ∉ [18, 20] → x.nlmat = x0.nlmat) ∧
            (s.2 ∈ [18, 20] → x0.nlmat < 0 ∧ x.nlmat = -x0.nlmat)) := by
  rw [registered_mixtures, registered_materials]
  decide!

/-- The transport arguments of every medium registered by one run. -/
theorem registered_media_transport (init : Int → ℚ → Int × ℚ) :
    ∀ m ∈ (registered init).media,
      m.isvol = 0 ∧ m.ifield = (init 2 10).1 ∧ m.fieldm = (init 2 10).2 ∧ m.tmaxfd = -20 ∧
        m.deemax = -0.3 ∧ m.epsil = 0.001 ∧ m.stmin = -0.8 ∧
        (m.numed ∈ [31, 32, 33] → m.stemax = 0.01) ∧
        (m.numed ∉ [31, 32, 33] → m.stemax = -0.01) := by
  rw [registered_media]
  simp only [List.forall_mem_cons, List.not_mem_nil, false_implies, implies_true, and_true]
  norm_num

/-- C8, as stated, fails: the tight-cut carbon medium number 26 has the same `stemax` as the
normal-cut carbon medium number 6, not its negation. -/
theorem tight_media_negated_stemax_counterexample :
    ¬ ∀ s ∈ substances, ∀ m0 ∈ (registered keepFieldParams).media,
        ∀ m ∈ (registered keepFieldParams).media,
        m0.numed = s.2 → IsTightVariant s.2 m.numed →
          SameTransport m0 m ∧ m.stemax = -m0.stemax := by
  rw [registered_media]
  decide!

/-- C8, amended: every tight-cut medium is registered with the transport arguments of the
normal-cut (tier 0) medium of its substance, `stemax` included, except the tier 1 media of
copper, tungsten and lead (numbers 31, 32, 33), whose `stemax` is the negation of the tier 0
value. -/
theorem tight_media_transport (init : Int → ℚ → Int × ℚ) (s : String × Int)
    (hs : s ∈ substances) (m0 m : MediumArgs) (hm0 : m0 ∈ (registered init).media)
    (hm : m ∈ (registered init).media) (h0 : m0.numed = s.2)
    (ht : IsTightVariant s.2 m.numed) :
    SameTransport m0 m ∧
      (m.numed ∈ [31, 32, 33] → m.stemax = -m0.stemax) ∧
      (m.numed ∉ [31, 32, 33] → m.stemax = m0.stemax) := by
  obtain ⟨a0, b0, c0, d0, e0, f0, g0, -, i0⟩ := registered_media_transport init m0 hm0
  obtain ⟨a1, b1, c1, d1, e1, f1, g1, h1, i1⟩ := registered_media_transport init m hm
  have hall : ∀ t ∈ substances, t.2 ∉ ([31, 32, 33] : List Int) := by decide
  have hn : m0.numed ∉ [31, 32, 33] := by
    rw [h0]
    exact hall s hs
  have hst := i0 hn
  refine ⟨⟨?_, ?_, ?_, ?_, ?_, ?_, ?_⟩, ?_, ?_⟩
  · rw [a0, a1]
  · rw [b0, b1]
  · rw [c0, c1]
  · rw [d0, d1]
  · rw [e0, e1]
  · rw [f0, f1]
  · rw [g0, g1]
  · intro hmem
    rw [h1 hmem, hst]
    norm_num
  · intro hmem
    rw [i1 hmem, hst]

/-- Witness of C8 (amended) at copper: the normal-cut medium number 11 and the tight-cut
medium number 31. -/
theorem tight_media_transport_witness :
    ∃ m0 ∈ (registered keepFieldParams).media, ∃ m ∈ (registered keepFieldParams).media,
      ("copper", (11 : Int)) ∈ substances ∧ m0.numed = 11 ∧ IsTightVariant 11 m.numed ∧
        m.numed = 31 ∧ SameTransport m0 m ∧ m.stemax = -m0.stemax := by
  have hm0 : (⟨11, "ABSO_Cu_C0", 11, 0, (keepFieldParams 2 10).1, (keepFieldParams 2 10).2,
      -20, -0.01, -0.3, 0.001, -0.8⟩ : MediumArgs) ∈ (registered keepFieldParams).media := by
    rw [registered_media]
    decide!
  have hm : (⟨31, "ABSO_Cu_C1", 12, 0, (keepFieldParams 2 10).1, (keepFieldParams 2 10).2,
      -20, -(-0.01), -0.3, 0.001, -0.8⟩ : MediumArgs) ∈ (registered keepFieldParams).media := by
    rw [registered_media]
    decide!
  have h := tight_media_transport keepFieldParams ("copper", 11) (by decide) _ _ hm0 hm rfl
    (Or.inl rfl)
  exact ⟨_, hm0, _, hm, by decide, rfl, Or.inl rfl, rfl, h.1, h.2.1 (by decide)⟩

/-- C9, as stated, fails: magnesium (tier 0 number 7) is not registered in three tiers. -/
theorem every_substance_three_tiers_counterexample :
    ¬ ∀ s ∈ substances, RegisteredInThreeTiers (registered keepFieldParams) s.2 := by
  unfold RegisteredInThreeTiers
  rw [registered_materialNumbers, registered_mediumNumbers]
  decide!

/-- C9, amended: `createMaterials` registers each of the 15 substances other than magnesium
exactly three times, by three `Material`/`Mixture` calls and three `Medium` calls numbered
`n`, `n + 20` and `n + 40`; magnesium is registered once, by one `Material` call and one `Medium`
call numbered 7. These are all the calls: 43 materials or mixtures and 43 media. -/
theorem substances_three_tiers_but_magnesium (init : Int → ℚ → Int × ℚ) :
    substances.length = 15 ∧
      (∀ s ∈ substances, s.2 ≠ 7 → RegisteredInThreeTiers (registered init) s.2) ∧
      (registered init).materialNumbers.filter
          (fun k => k = 7 ∨ k = 7 + 20 ∨ k = 7 + 40) = [7] ∧
      (registered init).mediumNumbers.filter
          (fun k => k = 7 ∨ k = 7 + 20 ∨ k = 7 + 40) = [7] ∧
      (registered init).materialNumbers.length = 43 ∧
      (registered init).mediumNumbers.length = 43 ∧
      (∀ k ∈ (registered init).materialNumbers,
        ∃ s ∈ substances, k = s.2 ∨ k = s.2 + 20 ∨ k = s.2 + 40) ∧
      (∀ k ∈ (registered init).mediumNumbers,
        ∃ s ∈ substances, k = s.2 ∨ k = s.2 + 20 ∨ k = s.2 + 40) := by
  unfold RegisteredInThreeTiers
  rw [registered_materialNumbers, registered_mediumNumbers]
  decide!

/-- The lookup of a medium by name in the registry filled by `createMaterials` finds the first
medium whose name is the one asked for. -/
theorem GetMedium_registered (init : Int → ℚ → Int × ℚ) (x : String) :
    GetMedium (registered init) x = (registered init).media.find? fun med => med.name == x := rfl

/-- C10: `ConstructGeometry`, started on a registry that holds no media, runs `createMaterials`
and then finds a medium under each of the 13 names it looks up, so that no lookup hits the
"medium not found" assertion: the registry holds exactly one medium under each of these names,
and each lookup returns the medium of that name. -/
theorem ConstructGeometry_media_found (init : Int → ℚ → Int × ℚ) :
    mediumLookups.length = 13 ∧
      (∀ x ∈ mediumLookups, ((registered init).media.map fun med => med.name).count x = 1) ∧
      (VMC.empty.media = [] ∧
        (ConstructGeometry_media init VMC.empty).map (fun r => r.2) = some (registered init)) ∧
      (ConstructGeometry_media init VMC.empty).map
          (fun r => [r.1.kMedNiW.name, r.1.kMedNiWsh.name, r.1.kMedSteel.name,
            r.1.kMedSteelSh.name, r.1.kMedAir.name, r.1.kMedPb.name, r.1.kMedPbSh.name,
            r.1.kMedConcSh.name, r.1.kMedCH2Sh.name, r.1.kMedC.name, r.1.kMedCsh.name,
            r.1.kMedAlu.name, r.1.kMedMg.name]) = some mediumLookups := by
  have hrun : ((createMaterials init).run VMC.empty).2 = registered init := rfl
  refine ⟨rfl, ?_, ⟨rfl, ?_⟩, ?_⟩
  · rw [registered_mediumNames]
    decide!
  · simp only [ConstructGeometry_media, hrun, GetMedium_registered, registered_media]
    rfl
  · simp only [ConstructGeometry_media, hrun, GetMedium_registered, registered_media]
    rfl

/-! ## The polycones of `ConstructGeometry` -/

/-- The sections of `shFaWPlateA` are the values of the calls made on it. -/
theorem shFaWPlateA_sections (m : TMath K) :
    (shFaWPlateA m).sections = (shFaWPlateA_calls m).map fun c => ⟨c.z, c.rmin, c.rmax⟩ := rfl

/-- The sections of `shFaGraphiteCone` are the values of the calls made on it. -/
theorem shFaGraphiteCone_sections (m : TMath K) :
    (shFaGraphiteCone m).sections =
      (shFaGraphiteCone_calls m).map fun c => ⟨c.z, c.rmin, c.rmax⟩ := rfl

/-- The sections of `shFaPbCone` are the values of the calls made on it. -/
theorem shFaPbCone_sections (m : TMath K) :
    (shFaPbCone m).sections = (shFaPbCone_calls m).map fun c => ⟨c.z, c.rmin, c.rmax⟩ := rfl

/-- The loop of `MakeShapeFromTemplate` runs the calls listed by
`MakeShapeFromTemplate_calls` on the new polycone. -/
theorem MakeShapeFromTemplate_eq_DefineSections (p : TGeoPcon K) (drMin drMax : K) :
    MakeShapeFromTemplate p drMin drMax =
      (TGeoPcon.new 0 360 p.GetNz).DefineSections (MakeShapeFromTemplate_calls p drMin drMax) := by
  simp only [MakeShapeFromTemplate, TGeoPcon.DefineSections, MakeShapeFromTemplate_calls,
    List.foldl_map]

/-- The calls made on `shFaWPlateAI`, one by one. -/
theorem shFaWPlateAI_calls_eq (m : TMath K) :
    shFaWPlateAI_calls m =
      [⟨0, 3, rInFaQPlateF + 3 * angle10 m, rOuFaQPlateC1 m + (3 - dzFaWPlateF) * angle24 m⟩,
        ⟨1, 0 + dzFaWPlateF + dzFaWPlateC1, rInFaQPlateC2 m, rOuFaQPlateC2 m - 3⟩,
        ⟨2, 0 + dzFaWPlateF + dzFaWPlateC1 + dzFaWPlateC2, rInFaQPlateC3, rOuFaQPlateC3 - 3⟩,
        ⟨3, 0 + dzFaWPlateF + dzFaWPlateC1 + dzFaWPlateC2, rInFaQPlateR, rOuFaQPlateR - 3⟩,
        ⟨4, 0 + dzFaWPlateF + dzFaWPlateC1 + dzFaWPlateC2 + dzFaWPlateR, rInFaQPlateR,
          rOuFaQPlateR - 3⟩] := rfl

/-- The calls made on `shFaPbConeI`, one by one. -/
theorem shFaPbConeI_calls_eq (m : TMath K) :
    shFaPbConeI_calls m =
      [⟨0, 0, rInFaPbCone5 + 0, rOuFaPbCone5 + -3⟩,
        ⟨1, 0 + dzFaPbCone5, rInFaPbCone10 m + 0, rOuFaPbCone10 + -3⟩,
        ⟨2, 0 + dzFaPbCone5 + dzFaPbCone10, rInFaPbConeE + 0, rOuFaPbConeE + -3⟩] := rfl

/-- The calls made on `shFaAccM`, one by one. -/
theorem shFaAccM_calls_eq (m : TMath K) :
    shFaAccM_calls m =
      [⟨0, 0, rInFaGraphiteCone1, rOuFaGraphiteCone1 m⟩,
        ⟨1, 0 + dzFaGraphiteConeS, rInFaGraphiteCone1, rOuFaGraphiteCone2 m⟩,
        ⟨2, 0 + dzFaGraphiteConeS, rInFaGraphiteCone2, rOuFaGraphiteCone2 m⟩,
        ⟨3, dzFaGraphiteCone, rInFaGraphiteCone3, rOuFaGraphiteCone3 m⟩,
        ⟨4, dzFaGraphiteCone + dzFaConcreteCone + dzFaSteelCone25, rOuFaWTube3C2,
          (dzFaGraphiteCone + dzFaConcreteCone + dzFaSteelCone25 + zFa + dzFaFlange) *
            angle10 m⟩,
        ⟨5, dzFaGraphiteCone + dzFaConcreteCone + dzFaSteelCone25, rOuFaWTube4C1,
          (dzFaGraphiteCone + dzFaConcreteCone + dzFaSteelCone25 + zFa + dzFaFlange) *
            angle10 m⟩,
        ⟨6, dzFaGraphiteCone + dzFaConcreteCone + dzFaSteelCone25 + dzFaSteelCone31,
          rOuFaWTube4C2,
          (dzFaGraphiteCone + dzFaConcreteCone + dzFaSteelCone25 + zFa + dzFaFlange +
            dzFaSteelCone31) * angle10 m⟩] := rfl

/-- C5: for each of the 13 polycones built by `ConstructGeometry`, every section index
`0..nz-1` is defined exactly once, in increasing order, and the `z` values passed to
`DefineSection` are non-decreasing in the section index. -/
theorem ConstructGeometry_polycones_z_ordered (m : TMath K) :
    (polycones m).map (fun b => b.name) = polyconeNames ∧
      ∀ b ∈ polycones m,
        b.calls.map (fun c => c.snum) = List.range b.nz ∧
          (b.calls.map fun c => c.z).Chain' (· ≤ ·) := by
  refine ⟨rfl, ?_⟩
  simp only [polycones, List.forall_mem_cons, List.not_mem_nil, false_implies, implies_true,
    and_true]
  refine ⟨⟨rfl, ?_⟩, ⟨rfl, ?_⟩, ⟨rfl, ?_⟩, ⟨rfl, ?_⟩, ⟨rfl, ?_⟩, ⟨rfl, ?_⟩, ⟨rfl, ?_⟩, ⟨rfl, ?_⟩,
    ⟨rfl, ?_⟩, ⟨rfl, ?_⟩, ⟨rfl, ?_⟩, ⟨rfl, ?_⟩, ⟨rfl, ?_⟩⟩
  · simp only [shFaSteelEnvelopeC_calls, List.map_cons, List.map_nil, List.chain'_cons,
      List.chain'_singleton, and_true, dzSteelEnvelopeFC, dzSteelEnvelopeC5, dzSteelEnvelopeC10,
      dzSteelEnvelopeR]
    norm_num
  · simp only [shFaFlange_calls, List.map_cons, List.map_nil, List.chain'_cons,
      List.chain'_singleton, and_true, dzFaFlange1, dzFaFlange2]
    norm_num
  · simp only [shFaWPlateA_calls, List.map_cons, List.map_nil, List.chain'_cons,
      List.chain'_singleton, and_true, dzFaWPlateF, dzFaWPlateC1, dzFaWPlateC2, dzFaWPlateR]
    norm_num
  · simp only [shFaWPlateAI_calls_eq, List.map_cons, List.map_nil, List.chain'_cons,
      List.chain'_singleton, and_true, dzFaWPlateF, dzFaWPlateC1, dzFaWPlateC2, dzFaWPlateR]
    norm_num
  · simp only [shFaWTube1_calls, List.map_cons, List.map_nil, List.chain'_cons,
      List.chain'_singleton, and_true, dzFaWTube1C, dzFaWTube1R]
    norm_num
  · simp only [shFaWTube2_calls, List.map_cons, List.map_nil, List.chain'_cons,
      List.chain'_singleton, and_true, dzFaWTube2F, dzFaWTube2C]
    norm_num
  · simp only [shFaGraphiteCone_calls, List.map_cons, List.map_nil, List.chain'_cons,
      List.chain'_singleton, and_true, dzFaGraphiteConeS, dzFaGraphiteCone]
    norm_num
  · simp only [shFaPbCone_calls, List.map_cons, List.map_nil, List.chain'_cons,
      List.chain'_singleton, and_true, dzFaPbCone5, dzFaPbCone10]
    norm_num
  · simp only [shFaPbConeI_calls_eq, List.map_cons, List.map_nil, List.chain'_cons,
      List.chain'_singleton, and_true, dzFaPbCone5, dzFaPbCone10]
    norm_num
  · simp only [shFaCompRing_calls, List.map_cons, List.map_nil, List.chain'_cons,
      List.chain'_singleton, and_true, dzFaCompRing1, dzFaCompRing2]
    norm_num
  · simp only [shFaMgRing_calls, List.map_cons, List.map_nil, List.chain'_cons,
      List.chain'_singleton, and_true, dzFaMgRingO, dzFaMgRingI]
    norm_num
  · simp only [shFaM_calls, List.map_cons, List.map_nil, List.chain'_cons,
      List.chain'_singleton, and_true, dzFaMgRingO, dzFaMgRingI, dzFaWPlateC1, dzFaWPlateC2,
      dzSteelEnvelopeFC, dzSteelEnvelopeC5, dzFaFlange, dzFaGraphiteConeS, dzFaWTube1C, dzFa,
      dzSteelEnvelopeR, dzFaGraphiteCone, dzFaConcreteCone, dzFaSteelCone25, dzFaSteelCone31]
    norm_num
  · simp only [shFaAccM_calls_eq, List.map_cons, List.map_nil, List.chain'_cons,
      List.chain'_singleton, and_true, dzFaGraphiteConeS, dzFaGraphiteCone, dzFaConcreteCone,
      dzFaSteelCone25, dzFaSteelCone31]
    norm_num

/-! ### Inner and outer radii -/

/-- Under `AngleBounds`, the calls made on `shFaSteelEnvelopeC` pass an inner radius that is at most the
outer radius. -/
theorem shFaSteelEnvelopeC_rmin_le_rmax (m : TMath K) (hb : AngleBounds m) :
    ∀ c ∈ shFaSteelEnvelopeC_calls m, c.rmin ≤ c.rmax := by
  obtain ⟨hc5, hc10, h05, h24, h10l, h10u, h71l, h71u⟩ := hb
  have hi5 : 0 < (m.Cos (5 * kDegRad m))⁻¹ := inv_pos.mpr hc5
  have hi10 : 0 < (m.Cos (10 * kDegRad m))⁻¹ := inv_pos.mpr hc10
  simp only [shFaSteelEnvelopeC_calls, List.forall_mem_cons, List.not_mem_nil, false_implies,
    implies_true, and_true, rInSteelEnvelopeFC1, rOuSteelEnvelopeFC1, rInSteelEnvelopeFC2,
    rOuSteelEnvelopeFC2, rInSteelEnvelopeC5, rOuSteelEnvelopeC5, rInSteelEnvelopeC10,
    rOuSteelEnvelopeC10, rInSteelEnvelopeR1, rOuSteelEnvelopeR1, rInSteelEnvelopeR2,
    rOuSteelEnvelopeR2, dzSteelEnvelopeFC, dSteelEnvelope, dzSteelEnvelopeR, div_eq_mul_inv]
  refine ⟨?_, ?_, ?_, ?_, ?_, ?_, ?_⟩ <;> norm_num <;> linarith

/-- The calls made on `shFaFlange` pass an inner radius that is at most the outer radius. -/
theorem shFaFlange_rmin_le_rmax :
    ∀ c ∈ (shFaFlange_calls : List (DefineSectionCall K)), c.rmin ≤ c.rmax := by
  simp only [shFaFlange_calls, List.forall_mem_cons, List.not_mem_nil, false_implies,
    implies_true, and_true, rInFaFlange1, rInFaFlange2, rOuFaFlange]
  norm_num

/-- Under `AngleBounds`, the calls made on `shFaWPlateA` pass an inner radius that is at most the
outer radius. -/
theorem shFaWPlateA_rmin_le_rmax (m : TMath K) (hb : AngleBounds m) :
    ∀ c ∈ shFaWPlateA_calls m, c.rmin ≤ c.rmax := by
  obtain ⟨hc5, hc10, h05, h24, h10l, h10u, h71l, h71u⟩ := hb
  have hi5 : 0 < (m.Cos (5 * kDegRad m))⁻¹ := inv_pos.mpr hc5
  have hi10 : 0 < (m.Cos (10 * kDegRad m))⁻¹ := inv_pos.mpr hc10
  simp only [shFaWPlateA_calls, List.forall_mem_cons, List.not_mem_nil, false_implies,
    implies_true, and_true, rInFaQPlateF, rOuFaQPlateF, rInFaQPlateC1, rOuFaQPlateC1,
    rInFaQPlateC2, rOuFaQPlateC2, rInFaQPlateC3, rOuFaQPlateC3, rInFaQPlateR, rOuFaQPlateR,
    dzFaWPlateF, dzFaWPlateC1]
  refine ⟨?_, ?_, ?_, ?_, ?_, ?_, ?_⟩ <;> norm_num <;> linarith

/-- Under `AngleBounds`, the calls made on `shFaWPlateAI` pass an inner radius that is at most the
outer radius. -/
theorem shFaWPlateAI_rmin_le_rmax (m : TMath K) (hb : AngleBounds m) :
    ∀ c ∈ shFaWPlateAI_calls m, c.rmin ≤ c.rmax := by
  obtain ⟨hc5, hc10, h05, h24, h10l, h10u, h71l, h71u⟩ := hb
  have hi5 : 0 < (m.Cos (5 * kDegRad m))⁻¹ := inv_pos.mpr hc5
  have hi10 : 0 < (m.Cos (10 * kDegRad m))⁻¹ := inv_pos.mpr hc10
  simp only [shFaWPlateAI_calls_eq, List.forall_mem_cons, List.not_mem_nil, false_implies,
    implies_true, and_true, rInFaQPlateF, rOuFaQPlateF, rInFaQPlateC1, rOuFaQPlateC1,
    rInFaQPlateC2, rOuFaQPlateC2, rInFaQPlateC3, rOuFaQPlateC3, rInFaQPlateR, rOuFaQPlateR,
    dzFaWPlateF, dzFaWPlateC1]
  refine ⟨?_, ?_, ?_, ?_, ?_⟩ <;> norm_num <;> linarith

/-- The calls made on `shFaWTube1` pass an inner radius that is at most the outer radius. -/
theorem shFaWTube1_rmin_le_rmax :
    ∀ c ∈ (shFaWTube1_calls : List (DefineSectionCall K)), c.rmin ≤ c.rmax := by
  simp only [shFaWTube1_calls, List.forall_mem_cons, List.not_mem_nil, false_implies,
    implies_true, and_true, rInFaWTube1C1, rOuFaWTube1C1, rOuFaWTube1C2, rOuFaWTube1R]
  norm_num

/-- The calls made on `shFaWTube2` pass an inner radius that is at most the outer radius. -/
theorem shFaWTube2_rmin_le_rmax :
    ∀ c ∈ (shFaWTube2_calls : List (DefineSectionCall K)), c.rmin ≤ c.rmax := by
  simp only [shFaWTube2_calls, List.forall_mem_cons, List.not_mem_nil, false_implies,
    implies_true, and_true, rInFaWTube2F, rInFaWTube2C1, rInFaWTube2C2, rOuFaWTube2C1,
    rOuFaWTube2C2]
  norm_num

/-- Under `AngleBounds`, the calls made on `shFaGraphiteCone` pass an inner radius that is at most the
outer radius. -/
theorem shFaGraphiteCone_rmin_le_rmax (m : TMath K) (hb : AngleBounds m) :
    ∀ c ∈ shFaGraphiteCone_calls m, c.rmin ≤ c.rmax := by
  obtain ⟨hc5, hc10, h05, h24, h10l, h10u, h71l, h71u⟩ := hb
  have hi5 : 0 < (m.Cos (5 * kDegRad m))⁻¹ := inv_pos.mpr hc5
  have hi10 : 0 < (m.Cos (10 * kDegRad m))⁻¹ := inv_pos.mpr hc10
  simp only [shFaGraphiteCone_calls, List.forall_mem_cons, List.not_mem_nil, false_implies,
    implies_true, and_true, rInFaGraphiteCone1, rInFaGraphiteCone2, rInFaGraphiteCone3,
    rOuFaGraphiteCone1, rOuFaGraphiteCone2, rOuFaGraphiteCone3, zFa, dzFaFlange,
    dzFaGraphiteConeS, dzFaGraphiteCone]
  refine ⟨?_, ?_, ?_, ?_⟩ <;> norm_num <;> linarith

/-- Under `AngleBounds`, the calls made on `shFaPbCone` pass an inner radius that is at most the
outer radius. -/
theorem shFaPbCone_rmin_le_rmax (m : TMath K) (hb : AngleBounds m) :
    ∀ c ∈ shFaPbCone_calls m, c.rmin ≤ c.rmax := by
  obtain ⟨hc5, hc10, h05, h24, h10l, h10u, h71l, h71u⟩ := hb
  have hi5 : 0 < (m.Cos (5 * kDegRad m))⁻¹ := inv_pos.mpr hc5
  have hi10 : 0 < (m.Cos (10 * kDegRad m))⁻¹ := inv_pos.mpr hc10
  simp only [shFaPbCone_calls, List.forall_mem_cons, List.not_mem_nil, false_implies,
    implies_true, and_true, rInFaPbCone5, rOuFaPbCone5, rInFaPbCone10, rOuFaPbCone10,
    rInFaPbConeE, rOuFaPbConeE, dzFaPbCone5]
  refine ⟨?_, ?_, ?_⟩ <;> norm_num <;> linarith

/-- Under `AngleBounds`, the calls made on `shFaPbConeI` pass an inner radius that is at most the
outer radius. -/
theorem shFaPbConeI_rmin_le_rmax (m : TMath K) (hb : AngleBounds m) :
    ∀ c ∈ shFaPbConeI_calls m, c.rmin ≤ c.rmax := by
  obtain ⟨hc5, hc10, h05, h24, h10l, h10u, h71l, h71u⟩ := hb
  have hi5 : 0 < (m.Cos (5 * kDegRad m))⁻¹ := inv_pos.mpr hc5
  have hi10 : 0 < (m.Cos (10 * kDegRad m))⁻¹ := inv_pos.mpr hc10
  simp only [shFaPbConeI_calls_eq, List.forall_mem_cons, List.not_mem_nil, false_implies,
    implies_true, and_true, rInFaPbCone5, rOuFaPbCone5, rInFaPbCone10, rOuFaPbCone10,
    rInFaPbConeE, rOuFaPbConeE, dzFaPbCone5]
  refine ⟨?_, ?_, ?_⟩ <;> norm_num <;> linarith

/-- The calls made on `shFaCompRing` pass an inner radius that is at most the outer radius. -/
theorem shFaCompRing_rmin_le_rmax :
    ∀ c ∈ (shFaCompRing_calls : List (DefineSectionCall K)), c.rmin ≤ c.rmax := by
  simp only [shFaCompRing_calls, List.forall_mem_cons, List.not_mem_nil, false_implies,
    implies_true, and_true, rInFaCompRing1, rOuFaCompRing1, rInFaCompRing2, rOuFaCompRing2]
  norm_num

/-- The calls made on `shFaMgRing` pass an inner radius that is at most the outer radius. -/
theorem shFaMgRing_rmin_le_rmax :
    ∀ c ∈ (shFaMgRing_calls : List (DefineSectionCall K)), c.rmin ≤ c.rmax := by
  simp only [shFaMgRing_calls, List.forall_mem_cons, List.not_mem_nil, false_implies,
    implies_true, and_true, rInFaMgRingO, rInFaMgRingI, rInFaCompRing1, rInFaCompRing2]
  norm_num

/-- Under `AngleBounds`, the calls made on `shFaM` pass an inner radius that is at most the
outer radius. -/
theorem shFaM_rmin_le_rmax (m : TMath K) (hb : AngleBounds m) :
    ∀ c ∈ shFaM_calls m, c.rmin ≤ c.rmax := by
  obtain ⟨hc5, hc10, h05, h24, h10l, h10u, h71l, h71u⟩ := hb
  have hi5 : 0 < (m.Cos (5 * kDegRad m))⁻¹ := inv_pos.mpr hc5
  have hi10 : 0 < (m.Cos (10 * kDegRad m))⁻¹ := inv_pos.mpr hc10
  simp only [shFaM_calls, List.forall_mem_cons, List.not_mem_nil, false_implies,
    implies_true, and_true, rInFaMgRingO, rInFaMgRingI, rOuFaQPlateF, rInFaGraphiteCone1,
    rOuFaQPlateC1, rOuFaQPlateC2, rOuFaQPlateC3, rOuSteelEnvelopeC10, rInSteelEnvelopeC10,
    rOuSteelEnvelopeR1, rInSteelEnvelopeR1, rInSteelEnvelopeR2, rOuSteelEnvelopeR2,
    rInFaWTube4C2, rInFaCH2Cone2, dSteelEnvelope, dzFaMgRingO, dzFaMgRingI, dzFaWPlateF,
    dzFaWPlateC1, dzFaWPlateC2, dzSteelEnvelopeFC, dzSteelEnvelopeC5, dzFaFlange,
    dzFaGraphiteConeS, dzFaWTube1C, dzFa, dzSteelEnvelopeR, dzFaGraphiteCone,
    dzFaConcreteCone, dzFaSteelCone25, dzFaSteelCone31, div_eq_mul_inv]
  refine ⟨?_, ?_, ?_, ?_, ?_, ?_, ?_, ?_, ?_, ?_, ?_, ?_, ?_, ?_, ?_, ?_⟩ <;> norm_num <;>
    linarith

/-- Under `AngleBounds`, the calls made on `shFaAccM` pass an inner radius that is at most the
outer radius. -/
theorem shFaAccM_rmin_le_rmax (m : TMath K) (hb : AngleBounds m) :
    ∀ c ∈ shFaAccM_calls m, c.rmin ≤ c.rmax := by
  obtain ⟨hc5, hc10, h05, h24, h10l, h10u, h71l, h71u⟩ := hb
  have hi5 : 0 < (m.Cos (5 * kDegRad m))⁻¹ := inv_pos.mpr hc5
  have hi10 : 0 < (m.Cos (10 * kDegRad m))⁻¹ := inv_pos.mpr hc10
  simp only [shFaAccM_calls_eq, List.forall_mem_cons, List.not_mem_nil, false_implies,
    implies_true, and_true, rInFaGraphiteCone1, rInFaGraphiteCone2, rInFaGraphiteCone3,
    rOuFaGraphiteCone1, rOuFaGraphiteCone2, rOuFaGraphiteCone3, rOuFaWTube3C2, rOuFaWTube4C1,
    rOuFaWTube4C2, zFa, dzFaFlange, dzFaGraphiteConeS, dzFaGraphiteCone, dzFaConcreteCone,
    dzFaSteelCone25, dzFaSteelCone31]
  refine ⟨?_, ?_, ?_, ?_, ?_, ?_, ?_⟩ <;> norm_num <;> linarith

/-- Under the bounds `AngleBounds` on the trigonometric constants, every `DefineSection` call
made on a polycone of `ConstructGeometry` passes an inner radius that is at most the outer
radius. -/
theorem polycones_rmin_le_rmax_of_bounds (m : TMath K) (hb : AngleBounds m) :
    ∀ b ∈ polycones m, ∀ c ∈ b.calls, c.rmin ≤ c.rmax := by
  simp only [polycones, List.forall_mem_cons, List.not_mem_nil, false_implies, implies_true,
    and_true]
  exact ⟨shFaSteelEnvelopeC_rmin_le_rmax m hb, shFaFlange_rmin_le_rmax,
    shFaWPlateA_rmin_le_rmax m hb, shFaWPlateAI_rmin_le_rmax m hb, shFaWTube1_rmin_le_rmax,
    shFaWTube2_rmin_le_rmax, shFaGraphiteCone_rmin_le_rmax m hb, shFaPbCone_rmin_le_rmax m hb,
    shFaPbConeI_rmin_le_rmax m hb, shFaCompRing_rmin_le_rmax, shFaMgRing_rmin_le_rmax,
    shFaM_rmin_le_rmax m hb, shFaAccM_rmin_le_rmax m hb⟩

/-! ### The real trigonometric constants -/

/-- An upper bound on the real tangent of a small positive angle. -/
theorem Real_tan_le_of_le (x c : ℝ) (hx0 : 0 < x) (hx1 : x ≤ 1)
    (h : x ≤ c * (1 - x ^ 2 / 2)) : Real.tan x ≤ c := by
  have hcos : 1 - x ^ 2 / 2 ≤ Real.cos x := Real.one_sub_sq_div_two_le_cos
  have hhalf : (1 : ℝ) / 2 ≤ 1 - x ^ 2 / 2 := by nlinarith
  have hcpos : 0 < Real.cos x := by linarith
  have hc : 0 ≤ c := by
    by_contra hneg
    push_neg at hneg
    have : c * (1 - x ^ 2 / 2) < 0 := mul_neg_of_neg_of_pos hneg (by linarith)
    linarith
  have hsin : Real.sin x < x := Real.sin_lt hx0
  rw [Real.tan_eq_sin_div_cos, div_le_iff₀ hcpos]
  calc Real.sin x ≤ x := hsin.le
    _ ≤ c * (1 - x ^ 2 / 2) := h
    _ ≤ c * Real.cos x := mul_le_mul_of_nonneg_left hcos hc

/-- The real tangents and cosines of the angles of `ConstructGeometry` satisfy `AngleBounds`. -/
theorem real_AngleBounds :
    AngleBounds (⟨Real.pi, Real.tan, Real.cos, Real.arctan⟩ : TMath ℝ) := by
  have hpi0 : (0 : ℝ) < Real.pi := Real.pi_pos
  have hpil : (3.14 : ℝ) < Real.pi := Real.pi_gt_d2
  have hpiu : Real.pi < (3.15 : ℝ) := Real.pi_lt_d2
  have htan_nonneg : ∀ a : ℝ, 0 < a → a < 90 → 0 ≤ Real.tan (a * (Real.pi / 180)) := by
    intro a ha0 ha1
    have h1 : 0 < a * (Real.pi / 180) := by positivity
    have h2 : a * (Real.pi / 180) < Real.pi / 2 := by nlinarith
    exact (Real.tan_pos_of_pos_of_lt_pi_div_two h1 h2).le
  have hcos_pos : ∀ a : ℝ, 0 < a → a < 90 → 0 < Real.cos (a * (Real.pi / 180)) := by
    intro a ha0 ha1
    have h1 : 0 < a * (Real.pi / 180) := by positivity
    have h2 : a * (Real.pi / 180) < Real.pi / 2 := by nlinarith
    exact Real.cos_pos_of_mem_Ioo ⟨by linarith, h2⟩
  refine ⟨?_, ?_, ?_, ?_, ?_, ?_, ?_, ?_⟩
  · exact hcos_pos 5 (by norm_num) (by norm_num)
  · exact hcos_pos 10 (by norm_num) (by norm_num)
  · exact htan_nonneg 5 (by norm_num) (by norm_num)
  · exact htan_nonneg 24 (by norm_num) (by norm_num)
  · have h1 : (0 : ℝ) < 10 * (Real.pi / 180) := by positivity
    have h2 : 10 * (Real.pi / 180) < Real.pi / 2 := by linarith
    have h3 := Real.lt_tan h1 h2
    show (0.17 : ℝ) ≤ Real.tan (10 * (Real.pi / 180))
    have h4 : (0.17 : ℝ) ≤ 10 * (Real.pi / 180) := by norm_num; linarith
    linarith
  · show Real.tan (10 * (Real.pi / 180)) ≤ (0.18 : ℝ)
    have h1 : (0 : ℝ) < 10 * (Real.pi / 180) := by positivity
    have h2 : 10 * (Real.pi / 180) ≤ (0.175 : ℝ) := by norm_num; linarith
    apply Real_tan_le_of_le _ _ h1 (by linarith)
    nlinarith
  · exact htan_nonneg 0.697 (by norm_num) (by norm_num)
  · show Real.tan (0.697 * (Real.pi / 180)) ≤ (0.013 : ℝ)
    have h1 : (0 : ℝ) < 0.697 * (Real.pi / 180) := by positivity
    have h2 : 0.697 * (Real.pi / 180) ≤ (0.0122 : ℝ) := by norm_num; linarith
    apply Real_tan_le_of_le _ _ h1 (by linarith)
    nlinarith

/-- C6: with the angle constants taken as the real tangents and cosines of 2, 3, 5, 10, 24 and
0.697 degrees, every `DefineSection` call made on each of the 13 polycones of
`ConstructGeometry` passes an inner radius that is at most the outer radius. -/
theorem ConstructGeometry_polycones_rmin_le_rmax :
    (polycones (⟨Real.pi, Real.tan, Real.cos, Real.arctan⟩ : TMath ℝ)).map (fun b => b.name)
        = polyconeNames ∧
      ∀ b ∈ polycones (⟨Real.pi, Real.tan, Real.cos, Real.arctan⟩ : TMath ℝ),
        ∀ c ∈ b.calls, c.rmin ≤ c.rmax :=
  ⟨rfl, polycones_rmin_le_rmax_of_bounds _ real_AngleBounds⟩

/-! ## Runs of `createMaterials` on a registry that is not empty -/

/-- Two sequences of steps run alike when their first steps do and the steps that follow do for
related values of the first. -/
theorem RunsAlike.bind (mc : VMC) {α β : Type} {Q : α → α → Prop} {Q' : β → β → Prop}
    {x x' : StateM VMC α} {f f' : α → StateM VMC β} (hx : RunsAlike mc Q x x')
    (hf : ∀ a a', Q a a' → RunsAlike mc Q' (f a) (f' a')) :
    RunsAlike mc Q' (x >>= f) (x' >>= f') := by
  intro r
  obtain ⟨hq, hs⟩ := hx r
  have h := hf _ _ hq (x r).2
  rw [← hs] at h
  exact h

/-- The helper `Material` returns, on an extended registry, the key shifted by the number of
materials the registry held. -/
theorem Material_alike (mc : VMC) (imat : Int) (name : String) (a z dens radl absl : ℚ) :
    RunsAlike mc (fun k k' => k' = mc.nmat + k) (Material imat name a z dens radl absl)
      (Material imat name a z dens radl absl) := by
  intro r
  refine ⟨?_, ?_⟩
  · show mc.nmat + r.nmat + 1 = mc.nmat + (r.nmat + 1)
    rw [add_assoc]
  · show (⟨(mc.entries ++ r.entries.map (Registration.shift mc.nmat mc.nmed)) ++
        [.material ⟨imat, name, a, z, dens, radl, absl⟩ (mc.nmat + r.nmat + 1)],
        mc.nmat + r.nmat + 1, mc.nmed + r.nmed⟩ : VMC) =
      ⟨mc.entries ++ List.map (Registration.shift mc.nmat mc.nmed) (r.entries ++
        [.material ⟨imat, name, a, z, dens, radl, absl⟩ (r.nmat + 1)]), mc.nmat + (r.nmat + 1), mc.nmed + r.nmed⟩
    rw [List.map_append, List.append_assoc, add_assoc]
    rfl

/-- The helper `Mixture` returns, on an extended registry, the key shifted by the number of
materials the registry held. -/
theorem Mixture_alike (mc : VMC) (imat : Int) (name : String) (a z : List ℚ) (dens : ℚ)
    (nlmat : Int) (wmat : List ℚ) :
    RunsAlike mc (fun k k' => k' = mc.nmat + k) (Mixture imat name a z dens nlmat wmat)
      (Mixture imat name a z dens nlmat wmat) := by
  intro r
  refine ⟨?_, ?_⟩
  · show mc.nmat + r.nmat + 1 = mc.nmat + (r.nmat + 1)
    rw [add_assoc]
  · show (⟨(mc.entries ++ r.entries.map (Registration.shift mc.nmat mc.nmed)) ++
        [.mixture ⟨imat, name, a, z, dens, nlmat, wmat⟩ (mc.nmat + r.nmat + 1)],
        mc.nmat + r.nmat + 1, mc.nmed + r.nmed⟩ : VMC) =
      ⟨mc.entries ++ List.map (Registration.shift mc.nmat mc.nmed) (r.entries ++
        [.mixture ⟨imat, name, a, z, dens, nlmat, wmat⟩ (r.nmat + 1)]), mc.nmat + (r.nmat + 1), mc.nmed + r.nmed⟩
    rw [List.map_append, List.append_assoc, add_assoc]
    rfl

/-- The helper `Medium`, given the shifted key of the material, makes on an extended registry
the registration it makes on the registry of the extension. -/
theorem Medium_alike (mc : VMC) (numed : Int) (name : String) (nmat isvol ifield : Int)
    (fieldm tmaxfd stemax deemax epsil stmin : ℚ) :
    RunsAlike mc (fun _ _ => True)
      (discard (Medium numed name nmat isvol ifield fieldm tmaxfd stemax deemax epsil stmin))
      (discard (Medium numed name (mc.nmat + nmat) isvol ifield fieldm tmaxfd stemax deemax
        epsil stmin)) := by
  intro r
  refine ⟨trivial, ?_⟩
  show (⟨(mc.entries ++ r.entries.map (Registration.shift mc.nmat mc.nmed)) ++
      [.medium ⟨numed, name, mc.nmat + nmat, isvol, ifield, fieldm, tmaxfd, stemax, deemax,
        epsil, stmin⟩ (mc.nmed + r.nmed + 1)],
      mc.nmat + r.nmat, mc.nmed + r.nmed + 1⟩ : VMC) =
    ⟨mc.entries ++ List.map (Registration.shift mc.nmat mc.nmed) (r.entries ++
      [.medium ⟨numed, name, nmat, isvol, ifield, fieldm, tmaxfd, stemax, deemax, epsil,
        stmin⟩ (r.nmed + 1)]),
      mc.nmat + r.nmat, mc.nmed + (r.nmed + 1)⟩
  rw [List.map_append, List.append_assoc, add_assoc]
  rfl

/-- The registry extended by nothing. -/
theorem VMC.extend_empty (mc : VMC) : mc.extend VMC.empty = mc := by
  cases mc
  simp only [VMC.extend, VMC.empty, List.map_nil, List.append_nil, add_zero]

set_option maxRecDepth 100000 in
set_option maxHeartbeats 4000000 in
/-- On an extended registry, `createMaterials` makes the registrations it makes on the registry
of the extension. -/
theorem createMaterials_alike (init : Int → ℚ → Int × ℚ) (mc : VMC) :
    RunsAlike mc (fun _ _ => True) (createMaterials init) (createMaterials init) := by
  unfold createMaterials
  generalize init 2 10 = p
  obtain ⟨isxfld, sxmgmx⟩ := p
  dsimp only
  iterate 85 first
    | refine RunsAlike.bind mc (Material_alike mc _ _ _ _ _ _ _) (fun k k' hk => ?_); subst hk
    | refine RunsAlike.bind mc (Mixture_alike mc _ _ _ _ _ _ _) (fun k k' hk => ?_); subst hk
    | refine RunsAlike.bind mc (Medium_alike mc _ _ _ _ _ _ _ _ _ _ _) (fun _ _ _ => ?_)
  exact Medium_alike mc _ _ _ _ _ _ _ _ _ _ _

/-- One run of `createMaterials` on any registry appends the registrations of a run on the empty
registry, with keys that continue the counts of the registry. -/
theorem createMaterials_run (init : Int → ℚ → Int × ℚ) (mc : VMC) :
    ((createMaterials init).run mc).2 = mc.extend (registered init) := by
  have h := (createMaterials_alike init mc VMC.empty).2
  rw [VMC.extend_empty] at h
  exact h

/-- The name of a registration does not change with the keys handed out. -/
theorem Registration.name_shift (dmat dmed : Int) (e : Registration) :
    (e.shift dmat dmed).name = e.name := by
  cases e <;> rfl

/-- The names registered by one run of `createMaterials` on any registry: those the registry
held, followed by those of a run on the empty registry. -/
theorem createMaterials_run_names (init : Int → ℚ → Int × ℚ) (mc : VMC) :
    ((createMaterials init).run mc).2.names = mc.names ++ (registered init).names := by
  have h : ∀ l : List Registration,
      (l.map (Registration.shift mc.nmat mc.nmed)).map Registration.name =
        l.map Registration.name := by
    intro l
    rw [List.map_map]
    exact List.map_congr_left fun e _ => Registration.name_shift _ _ e
  rw [createMaterials_run]
  simp only [VMC.names, VMC.extend, List.map_append, h]

/-- The media held after one run of `createMaterials` on any registry: those the registry held,
followed by the newly registered ones, which carry the names of a run on the empty registry. -/
theorem createMaterials_run_media (init : Int → ℚ → Int × ℚ) (mc : VMC) :
    ∃ l : List MediumArgs, ((createMaterials init).run mc).2.media = mc.media ++ l ∧
      l.map (fun med => med.name) = (registered init).media.map fun med => med.name := by
  rw [createMaterials_run]
  refine ⟨((registered init).entries.map (Registration.shift mc.nmat mc.nmed)).filterMap
    (fun e => match e with
      | .medium x _ => some x
      | _ => none), ?_, ?_⟩
  · simp only [VMC.media, VMC.extend, List.filterMap_append]
  · simp only [VMC.media]
    induction (registered init).entries with
    | nil => rfl
    | cons e l ih =>
      cases e with
      | material x k => simpa [Registration.shift] using ih
      | mixture x k => simpa [Registration.shift] using ih
      | medium x k =>
        cases x
        simpa [Registration.shift] using ih

/-- A lookup finds a medium as soon as the registry holds one of that name. -/
theorem GetMedium_isSome_of_mem (mc : VMC) (x : String)
    (h : x ∈ mc.media.map fun med => med.name) : ∃ med, GetMedium mc x = some med := by
  obtain ⟨med, hmed, hx⟩ := List.mem_map.mp h
  have hs : (mc.media.find? fun med => med.name == x).isSome := by
    rw [List.find?_isSome]
    exact ⟨med, hmed, by simp [hx]⟩
  exact Option.isSome_iff_exists.mp hs

/-- After `createMaterials`, run on any registry, each of the 13 lookups of `ConstructGeometry`
finds a medium. -/
theorem GetMedium_after_createMaterials (init : Int → ℚ → Int × ℚ) (mc : VMC) (x : String)
    (hx : x ∈ mediumLookups) :
    ∃ med, GetMedium ((createMaterials init).run mc).2 x = some med := by
  apply GetMedium_isSome_of_mem
  obtain ⟨l, hl, hn⟩ := createMaterials_run_media init mc
  rw [hl, List.map_append, hn, registered_mediumNames]
  apply List.mem_append_right
  revert x
  decide

/-- The first part of `ConstructGeometry`, run on any registry, finds all its media and leaves
the registry as `createMaterials` made it. -/
theorem ConstructGeometry_media_isSome (init : Int → ℚ → Int × ℚ) (mc : VMC) :
    ∃ med, ConstructGeometry_media init mc = some (med, ((createMaterials init).run mc).2) := by
  obtain ⟨m1, h1⟩ := GetMedium_after_createMaterials init mc "ABSO_Ni/W0" (by decide)
  obtain ⟨m2, h2⟩ := GetMedium_after_createMaterials init mc "ABSO_Ni/W3" (by decide)
  obtain ⟨m3, h3⟩ := GetMedium_after_createMaterials init mc "ABSO_ST_C0" (by decide)
  obtain ⟨m4, h4⟩ := GetMedium_after_createMaterials init mc "ABSO_ST_C3" (by decide)
  obtain ⟨m5, h5⟩ := GetMedium_after_createMaterials init mc "ABSO_AIR_C0" (by decide)
  obtain ⟨m6, h6⟩ := GetMedium_after_createMaterials init mc "ABSO_PB_C0" (by decide)
  obtain ⟨m7, h7⟩ := GetMedium_after_createMaterials init mc "ABSO_PB_C2" (by decide)
  obtain ⟨m8, h8⟩ := GetMedium_after_createMaterials init mc "ABSO_CC_C2" (by decide)
  obtain ⟨m9, h9⟩ := GetMedium_after_createMaterials init mc "ABSO_CH2_C2" (by decide)
  obtain ⟨m10, h10⟩ := GetMedium_after_createMaterials init mc "ABSO_C_C0" (by decide)
  obtain ⟨m11, h11⟩ := GetMedium_after_createMaterials init mc "ABSO_C_C2" (by decide)
  obtain ⟨m12, h12⟩ := GetMedium_after_createMaterials init mc "ABSO_ALU_C0" (by decide)
  obtain ⟨m13, h13⟩ := GetMedium_after_createMaterials init mc "ABSO_MG_C0" (by decide)
  refine ⟨⟨m1, m2, m3, m4, m5, m6, m7, m8, m9, m10, m11, m12, m13⟩, ?_⟩
  simp only [ConstructGeometry_media, h1, h2, h3, h4, h5, h6, h7, h8, h9, h10, h11, h12, h13]
  rfl

/-! ## The volume tree -/

/-- The child placements after one `AddNode` call. -/
theorem TGeoVolume.nodes_AddNode (mother daughter : TGeoVolume K) (copyNo : Int)
    (matrix : TGeoMatrix K) :
    (mother.AddNode daughter copyNo matrix).nodes = mother.nodes ++ [(daughter, copyNo, matrix)] := by
  cases mother <;> rfl

/-- One run of `ConstructGeometry` on any state of the geometry manager succeeds, leaves the
registry as `createMaterials` made it and places the volume `voFA` in the top volume. -/
theorem ConstructGeometry_eq (init : Int → ℚ → Int × ℚ) (m : TMath K) (mc : VMC)
    (cave : TGeoVolume K) :
    ∃ g' med, ConstructGeometry init m ⟨mc, cave⟩ = some g' ∧
      g'.mc = ((createMaterials init).run mc).2 ∧
      g'.cave = cave.AddNode (voFA med m) 1 (.combi 0 0 (-90) rotxz) := by
  obtain ⟨med, hmed⟩ := ConstructGeometry_media_isSome init mc
  have h : ConstructGeometry init m ⟨mc, cave⟩ =
      some ⟨((createMaterials init).run mc).2,
        cave.AddNode (voFA med m) 1 (.combi 0 0 (-90) rotxz)⟩ := by
    simp only [ConstructGeometry, hmed]
    rfl
  generalize ((createMaterials init).run mc).2 = mc1 at h
  exact ⟨_, med, h, rfl, rfl⟩

/-- C11: one run of `ConstructGeometry` adds exactly one child placement to the top volume
"cave": the assembly volume "AFA" with copy number 1, translation (0, 0, -90) and the rotation
"rotxz" of angles (90, 0, 90, 90, 180, 0); the placements the top volume held before are kept and
nothing else is attached to it. -/
theorem ConstructGeometry_top_placement (init : Int → ℚ → Int × ℚ) (m : TMath K)
    (g : TGeoManager K) :
    ∃ g' voFA', ConstructGeometry init m g = some g' ∧
      g'.cave.nodes =
        g.cave.nodes ++ [(voFA', 1, .combi 0 0 (-90) ⟨"rotxz", 90, 0, 90, 90, 180, 0⟩)] ∧
      voFA'.name = "AFA" ∧ voFA'.shape = none ∧ voFA'.medium = none ∧
      g'.cave.placements =
        g.cave.placements ++ [("AFA", 1, .combi 0 0 (-90) ⟨"rotxz", 90, 0, 90, 90, 180, 0⟩)] := by
  obtain ⟨mc, cave⟩ := g
  obtain ⟨g', med, h, -, hcave⟩ := ConstructGeometry_eq init m mc cave
  refine ⟨g', voFA med m, h, ?_, rfl, rfl, rfl, ?_⟩
  · rw [hcave]
    exact TGeoVolume.nodes_AddNode _ _ _ _
  · rw [hcave]
    simp only [TGeoVolume.placements, TGeoVolume.nodes_AddNode, List.map_append, List.map_cons,
      List.map_nil]
    rfl

/-- The child placements of the assembly `voFA`: the mother volume "AFaM" (identity), the end
plate "AFaEndPlate" (translation (0, 0, dzFa + dzEndPlate/2) = (0, 0, 412)), the support
structure "AFass" (translation (0, 0, 388.45)) and, fourth and last, "AFassAlRing". -/
theorem voFA_placements (med : Media) (m : TMath K) :
    (voFA med m).placements =
        [("AFaM", 1, .identity), ("AFaEndPlate", 1, .translation 0 0 412),
          ("AFass", 1, .translation 0 0 388.45),
          ("AFassAlRing", 1, .translation 0 0 (382 - 3.56))] ∧
      (dzFa + dzEndPlate / 2 : K) = 412 ∧
      (voFA med m).daughters "AFaM" = [voFaM med m] ∧
      (voFA med m).daughters "AFaEndPlate" = [voFaEndPlate med] ∧
      (voFA med m).daughters "AFass" = [voFass med m] := by
  have h412 : (dzFa + dzEndPlate / 2 : K) = 412 := by
    simp only [dzFa, dzFaFlange, dzFaGraphiteCone, dzFaConcreteCone, dzFaSteelCone25,
      dzFaSteelCone31, dzEndPlate]
    norm_num
  refine ⟨?_, h412, rfl, rfl, rfl⟩
  rw [← h412]
  rfl

/-- C12: the assembly "AFA" built by `ConstructGeometry` contains exactly one placement of the
mother volume "AFaM" (identity), exactly one of the end plate "AFaEndPlate" (translation
(0, 0, dzFa + dzEndPlate/2) = (0, 0, 412)) and exactly one of the support structure "AFass"
(translation (0, 0, 388.45)); its fourth and last placement is that of "AFassAlRing". Whatever
the registry and the top volume held, `ConstructGeometry` returns, the one node it adds to the
top volume is this assembly, built with the media it looked up, and the three daughters are the
volumes built with these media. -/
theorem ConstructGeometry_AFA_children (init : Int → ℚ → Int × ℚ) (m : TMath K)
    (g : TGeoManager K) :
    ∃ g' med afa, ConstructGeometry init m g = some g' ∧
      ConstructGeometry_media init g.mc = some (med, g'.mc) ∧
      g'.cave.nodes = g.cave.nodes ++ [(afa, 1, .combi 0 0 (-90) rotxz)] ∧
      afa.name = "AFA" ∧
      afa.placements =
        [("AFaM", 1, .identity), ("AFaEndPlate", 1, .translation 0 0 412),
          ("AFass", 1, .translation 0 0 388.45),
          ("AFassAlRing", 1, .translation 0 0 (382 - 3.56))] ∧
      (dzFa + dzEndPlate / 2 : K) = 412 ∧
      afa.nodes.map (fun n => n.1) =
        [voFaM med m, voFaEndPlate med, voFass med m, voFassAlRing med] ∧
      afa.daughters "AFaM" = [voFaM med m] ∧
      afa.daughters "AFaEndPlate" = [voFaEndPlate med] ∧
      afa.daughters "AFass" = [voFass med m] := by
  obtain ⟨mc, cave⟩ := g
  obtain ⟨med, hmed⟩ := ConstructGeometry_media_isSome init mc
  have h : ConstructGeometry init m ⟨mc, cave⟩ =
      some ⟨((createMaterials init).run mc).2,
        cave.AddNode (voFA med m) 1 (.combi 0 0 (-90) rotxz)⟩ := by
    simp only [ConstructGeometry, hmed]
    rfl
  generalize ((createMaterials init).run mc).2 = mc1 at h hmed
  obtain ⟨hp, h412, hM, hE, hS⟩ := voFA_placements med m
  exact ⟨_, med, voFA med m, h, hmed, TGeoVolume.nodes_AddNode _ _ _ _, rfl, hp, h412, rfl, hM,
    hE, hS⟩

/-- The names of the materials, mixtures and media registered by one run, in call order. -/
theorem registered_names (init : Int → ℚ → Int × ℚ) :
    (registered init).names =
      ["CARBON0$", "CARBON1$", "CARBON2$", "ABSO_C_C0", "ABSO_C_C1", "ABSO_C_C2", "ALUMINIUM0$",
        "ALUMINIUM1$", "ALUMINIUM2$", "ABSO_ALU_C0", "ABSO_ALU_C1", "ABSO_ALU_C2", "MAGNESIUM$",
        "ABSO_MG_C0", "IRON0$", "IRON1$", "IRON2$", "ABSO_FE_C0", "ABSO_FE_C1", "ABSO_FE_C2",
        "COPPER0$", "COPPER1$", "COPPER2$", "ABSO_Cu_C0", "ABSO_Cu_C1", "ABSO_Cu_C2",
        "TUNGSTEN0$ ", "TUNGSTEN1$ ", "TUNGSTEN2$ ", "ABSO_W_C0", "ABSO_W_C1", "ABSO_W_C2",
        "Ni-W-Cu0$", "Ni-W-Cu1$", "Ni-W-Cu2$", "ABSO_Ni/W0", "ABSO_Ni/W1", "ABSO_Ni/W3",
        "LEAD0$", "LEAD1$", "LEAD2$", "ABSO_PB_C0", "ABSO_PB_C1", "ABSO_PB_C2", "INSULATION0$",
        "INSULATION1$", "INSULATION2$", "ABSO_INS_C0", "ABSO_INS_C1", "ABSO_INS_C2", "AIR0$",
        "AIR1$", "AIR2$", "ABSO_AIR_C0", "ABSO_AIR_C1", "ABSO_AIR_C2", "VACUUM0$", "VACUUM1$",
        "VACUUM2$", "ABSO_VA_C0", "ABSO_VA_C1", "ABSO_VA_C2", "CONCRETE0$", "CONCRETE1$",
        "CONCRETE2$", "ABSO_CC_C0", "ABSO_CC_C1", "ABSO_CC_C2", "POLYETHYLEN0$", "POLYETHYLEN1$",
        "POLYETHYLEN2$", "ABSO_CH2_C0", "ABSO_CH2_C1", "ABSO_CH2_C2", "STAINLESS STEEL0$",
        "STAINLESS STEEL1$", "STAINLESS STEEL2$", "ABSO_ST_C0", "ABSO_ST_C1", "ABSO_ST_C3",
        "Poly Concrete0$", "Poly Concrete1$", "Poly Concrete2$", "ABSO_PCc_C0", "ABSO_PCc_C1",
        "ABSO_PCc_C3"] := by
  rw [VMC.names, registered_entries]
  rfl

/-- One run of `createMaterials` on an empty registry registers no name twice. -/
theorem registered_names_nodup (init : Int → ℚ → Int × ℚ) : (registered init).names.Nodup := by
  rw [registered_names]
  decide!

/-- The numbers and names of the media that `ConstructGeometry` finds on a registry that was
empty, in the order of the lookups. -/
theorem ConstructGeometry_media_numbers (init : Int → ℚ → Int × ℚ) :
    (ConstructGeometry_media init VMC.empty).map
        (fun r => [(r.1.kMedNiW.numed, r.1.kMedNiW.name),
          (r.1.kMedNiWsh.numed, r.1.kMedNiWsh.name), (r.1.kMedSteel.numed, r.1.kMedSteel.name),
          (r.1.kMedSteelSh.numed, r.1.kMedSteelSh.name), (r.1.kMedAir.numed, r.1.kMedAir.name),
          (r.1.kMedPb.numed, r.1.kMedPb.name), (r.1.kMedPbSh.numed, r.1.kMedPbSh.name),
          (r.1.kMedConcSh.numed, r.1.kMedConcSh.name), (r.1.kMedCH2Sh.numed, r.1.kMedCH2Sh.name),
          (r.1.kMedC.numed, r.1.kMedC.name), (r.1.kMedCsh.numed, r.1.kMedCsh.name),
          (r.1.kMedAlu.numed, r.1.kMedAlu.name), (r.1.kMedMg.numed, r.1.kMedMg.name)]) =
      some [(21, "ABSO_Ni/W0"), (61, "ABSO_Ni/W3"), (19, "ABSO_ST_C0"), (59, "ABSO_ST_C3"),
          (15, "ABSO_AIR_C0"), (13, "ABSO_PB_C0"), (53, "ABSO_PB_C2"), (57, "ABSO_CC_C2"),
          (58, "ABSO_CH2_C2"), (6, "ABSO_C_C0"), (46, "ABSO_C_C2"), (9, "ABSO_ALU_C0"),
          (7, "ABSO_MG_C0")] := by
  have hrun : ((createMaterials init).run VMC.empty).2 = registered init := rfl
  simp only [ConstructGeometry_media, hrun, GetMedium_registered, registered_media]
  rfl

/-- The media that `ConstructGeometry` finds on a registry that was empty, by number and name. -/
theorem ConstructGeometry_media_fresh (init : Int → ℚ → Int × ℚ) :
    ∃ med, ConstructGeometry_media init VMC.empty = some (med, registered init) ∧
      [(med.kMedNiW.numed, med.kMedNiW.name), (med.kMedNiWsh.numed, med.kMedNiWsh.name),
          (med.kMedSteel.numed, med.kMedSteel.name),
          (med.kMedSteelSh.numed, med.kMedSteelSh.name), (med.kMedAir.numed, med.kMedAir.name),
          (med.kMedPb.numed, med.kMedPb.name), (med.kMedPbSh.numed, med.kMedPbSh.name),
          (med.kMedConcSh.numed, med.kMedConcSh.name), (med.kMedCH2Sh.numed, med.kMedCH2Sh.name),
          (med.kMedC.numed, med.kMedC.name), (med.kMedCsh.numed, med.kMedCsh.name),
          (med.kMedAlu.numed, med.kMedAlu.name), (med.kMedMg.numed, med.kMedMg.name)] =
        [(21, "ABSO_Ni/W0"), (61, "ABSO_Ni/W3"), (19, "ABSO_ST_C0"), (59, "ABSO_ST_C3"),
          (15, "ABSO_AIR_C0"), (13, "ABSO_PB_C0"), (53, "ABSO_PB_C2"), (57, "ABSO_CC_C2"),
          (58, "ABSO_CH2_C2"), (6, "ABSO_C_C0"), (46, "ABSO_C_C2"), (9, "ABSO_ALU_C0"),
          (7, "ABSO_MG_C0")] := by
  obtain ⟨med, hmed⟩ := ConstructGeometry_media_isSome init VMC.empty
  have hn := ConstructGeometry_media_numbers init
  rw [hmed] at hn
  exact ⟨med, hmed, Option.some.inj hn⟩

/-- C13: the support-structure assembly "AFass" built by `ConstructGeometry` holds exactly five
child placements: the upper back flange "AFassUBFlange" twice (copies 1 and 2), the median
flanges "AFassUMFlange" and "AFassLMFlange" and the perforated conical support "AFassCentral".
The reinforcing ring "AFassAlRing" is not among them: its single placement is in the assembly
"AFA", by the translation (0, 0, 382 - 3.56). -/
theorem voFass_placements (med : Media) (m : TMath K) :
    (voFass med m).placements.map (fun p => (p.1, p.2.1)) =
        [("AFassUBFlange", 1), ("AFassUBFlange", 2), ("AFassUMFlange", 1),
          ("AFassLMFlange", 1), ("AFassCentral", 1)] ∧
      (voFass med m).daughters "AFassAlRing" = [] ∧
      (voFA med m).placements.filter (fun p => p.1 == "AFassAlRing") =
        [("AFassAlRing", 1, .translation 0 0 (382 - 3.56))] ∧
      (voFA med m).daughters "AFassAlRing" = [voFassAlRing med] :=
  ⟨rfl, rfl, rfl, rfl⟩

/-- C13, as stated, fails on the volumes built from a fresh registry: no child placement of
"AFass" is one of "AFassAlRing". -/
theorem voFass_holds_AlRing_counterexample :
    ∃ med, ConstructGeometry_media keepFieldParams VMC.empty =
        some (med, registered keepFieldParams) ∧
      "AFassAlRing" ∉ (voFass med TMath.approx).placements.map fun p => p.1 := by
  obtain ⟨med, hmed, _⟩ := ConstructGeometry_media_fresh keepFieldParams
  refine ⟨med, hmed, ?_⟩
  have h : ((voFass med TMath.approx).placements.map fun p => p.1) =
      ["AFassUBFlange", "AFassUBFlange", "AFassUMFlange", "AFassLMFlange", "AFassCentral"] := rfl
  rw [h]
  decide

/-- C14: `ConstructGeometry` is not idempotent. Run twice, on a registry that was empty and
accepts duplicate names, it gives a state other than the one reached by the first run: the top
volume holds two more "AFA" child placements instead of one, and every name of a material,
mixture or medium, registered once by the first run, is registered twice. -/
theorem ConstructGeometry_twice (init : Int → ℚ → Int × ℚ) (m : TMath K) (cave : TGeoVolume K) :
    ∃ g1 g2, ConstructGeometry init m ⟨VMC.empty, cave⟩ = some g1 ∧
      ConstructGeometry init m g1 = some g2 ∧
      g1.cave.placements =
        cave.placements ++ [("AFA", 1, .combi 0 0 (-90) ⟨"rotxz", 90, 0, 90, 90, 180, 0⟩)] ∧
      g2.cave.placements =
        cave.placements ++ [("AFA", 1, .combi 0 0 (-90) ⟨"rotxz", 90, 0, 90, 90, 180, 0⟩),
          ("AFA", 1, .combi 0 0 (-90) ⟨"rotxz", 90, 0, 90, 90, 180, 0⟩)] ∧
      g1.mc.names = (registered init).names ∧
      g2.mc.names = (registered init).names ++ (registered init).names ∧
      g1.mc.names.length = 86 ∧
      (∀ x ∈ g1.mc.names, g1.mc.names.count x = 1 ∧ g2.mc.names.count x = 2) ∧
      g2.mc ≠ g1.mc ∧ g2.cave ≠ g1.cave := by
  obtain ⟨⟨mc1, cave1⟩, med1, h1, hmc1, hc1⟩ := ConstructGeometry_eq init m VMC.empty cave
  obtain ⟨⟨mc2, cave2⟩, med2, h2, hmc2, hc2⟩ := ConstructGeometry_eq init m mc1 cave1
  dsimp only at hmc1 hc1 hmc2 hc2
  have hn1 : mc1.names = (registered init).names := by
    rw [hmc1]
    rfl
  have hn2 : mc2.names = (registered init).names ++ (registered init).names := by
    rw [hmc2, createMaterials_run_names, hn1]
  have hlen : (registered init).names.length = 86 := by
    rw [registered_names]
    rfl
  have hp1 : cave1.placements =
      cave.placements ++ [("AFA", 1, .combi 0 0 (-90) ⟨"rotxz", 90, 0, 90, 90, 180, 0⟩)] := by
    rw [hc1]
    simp only [TGeoVolume.placements, TGeoVolume.nodes_AddNode, List.map_append, List.map_cons,
      List.map_nil]
    rfl
  have hp2 : cave2.placements =
      cave1.placements ++ [("AFA", 1, .combi 0 0 (-90) ⟨"rotxz", 90, 0, 90, 90, 180, 0⟩)] := by
    rw [hc2]
    simp only [TGeoVolume.placements, TGeoVolume.nodes_AddNode, List.map_append, List.map_cons,
      List.map_nil]
    rfl
  refine ⟨⟨mc1, cave1⟩, ⟨mc2, cave2⟩, h1, h2, hp1, ?_, hn1, hn2, ?_, ?_, ?_, ?_⟩
  · show cave2.placements = _
    rw [hp2, hp1, List.append_assoc]
    rfl
  · show mc1.names.length = 86
    rw [hn1, hlen]
  · show ∀ x ∈ mc1.names, mc1.names.count x = 1 ∧ mc2.names.count x = 2
    rw [hn1, hn2]
    intro x hx
    have hc : (registered init).names.count x = 1 :=
      List.count_eq_one_of_mem (registered_names_nodup init) hx
    exact ⟨hc, by rw [List.count_append, hc]⟩
  · show mc2 ≠ mc1
    intro h
    have hl : mc2.names.length = mc1.names.length := by rw [h]
    rw [hn2, hn1, List.length_append, hlen] at hl
    exact absurd hl (by decide)
  · show cave2 ≠ cave1
    intro h
    have hl : cave2.placements.length = cave1.placements.length := by rw [h]
    rw [hp2, List.length_append] at hl
    simp only [List.length_cons, List.length_nil] at hl
    omega

/-- C15: of the four parts that `ConstructGeometry` builds in two media, the W plate
"AFaWPlateA" and the lead cone "AFaPbCone" are made of the normal-cut medium of their substance
("ABSO_Ni/W0", "ABSO_PB_C0") and hold one copy of the sub-volume ("AFaWPlateAI", "AFaPbConeI"),
made of the tight-cut medium ("ABSO_Ni/W3", "ABSO_PB_C2") and placed with the identity. The
graphite cone is the other way round: "AFaGraphiteCone" is made of the tight-cut medium
"ABSO_C_C2" and the sub-volume "AFaGraphiteConeO" of the normal-cut medium "ABSO_C_C0", placed
by the translation (0, 0, 25). The sub-volume "AFaSteelCone31I" of the steel plate
"AFaSteelCone31" is placed by the translation (0, 0, 13). -/
theorem dual_medium_pairs (init : Int → ℚ → Int × ℚ) (m : TMath K) :
    ∃ med, ConstructGeometry_media init VMC.empty = some (med, registered init) ∧
      IsDualMediumPair (voFaWPlateA med m) (voFaWPlateAI med m) ∧
      (voFaWPlateA med m).medium.map (fun x => x.name) = some "ABSO_Ni/W0" ∧
      (voFaWPlateAI med m).medium.map (fun x => x.name) = some "ABSO_Ni/W3" ∧
      (voFaWPlateA med m).placements = [("AFaWPlateAI", 1, .identity)] ∧
      IsDualMediumPair (voFaPbCone med m) (voFaPbConeI med m) ∧
      (voFaPbCone med m).medium.map (fun x => x.name) = some "ABSO_PB_C0" ∧
      (voFaPbConeI med m).medium.map (fun x => x.name) = some "ABSO_PB_C2" ∧
      (voFaPbCone med m).placements = [("AFaPbConeI", 1, .identity)] ∧
      (voFaGraphiteCone med m).medium.map (fun x => (x.numed, x.name)) =
        some (46, "ABSO_C_C2") ∧
      (voFaGraphiteConeO med m).medium.map (fun x => (x.numed, x.name)) =
        some (6, "ABSO_C_C0") ∧
      IsTightVariant 6 46 ∧
      (voFaGraphiteCone med m).nodes =
        [(voFaGraphiteConeO med m, 1, .translation 0 0 25)] ∧
      (voFaGraphiteCone med m).placements =
        [("AFaGraphiteConeO", 1, .translation 0 0 25)] ∧
      (voFaSteelCone31 med m).nodes = [(voFaSteelCone31I med m, 1, .translation 0 0 13)] ∧
      (voFaSteelCone31 med m).placements = [("AFaSteelCone31I", 1, .translation 0 0 13)] := by
  obtain ⟨med, hmed, hn⟩ := ConstructGeometry_media_fresh init
  simp only [List.cons.injEq, Prod.mk.injEq, and_true] at hn
  obtain ⟨⟨h1, n1⟩, ⟨h2, n2⟩, -, -, -, ⟨h6, n6⟩, ⟨h7, n7⟩, -, -, ⟨h10, n10⟩, ⟨h11, n11⟩, -, -⟩ :=
    hn
  have h25 : ((50 : K) / 2) = 25 := by norm_num
  have h13 : (dzFaSteelCone31 / 2 - 5 / 2 : K) = 13 := by
    simp only [dzFaSteelCone31]
    norm_num
  have hg : (voFaGraphiteCone med m).nodes =
      [(voFaGraphiteConeO med m, 1, .translation 0 0 25)] := by
    rw [← h25]
    rfl
  have hs : (voFaSteelCone31 med m).nodes =
      [(voFaSteelCone31I med m, 1, .translation 0 0 13)] := by
    rw [← h13]
    rfl
  refine ⟨med, hmed, ⟨med.kMedNiW, med.kMedNiWsh, rfl, rfl, ?_, ?_, rfl⟩, ?_, ?_, rfl,
    ⟨med.kMedPb, med.kMedPbSh, rfl, rfl, ?_, ?_, rfl⟩, ?_, ?_, rfl, ?_, ?_, by decide, hg, ?_,
    hs, ?_⟩
  · rw [h1]
    decide
  · rw [h1, h2]
    decide
  · exact congrArg some n1
  · exact congrArg some n2
  · rw [h6]
    decide
  · rw [h6, h7]
    decide
  · exact congrArg some n6
  · exact congrArg some n7
  · show some (med.kMedCsh.numed, med.kMedCsh.name) = _
    rw [h11, n11]
  · show some (med.kMedC.numed, med.kMedC.name) = _
    rw [h10, n10]
  · rw [TGeoVolume.placements, hg]
    rfl
  · rw [TGeoVolume.placements, hs]
    rfl

/-- C15, as stated, fails on the graphite pair built from a fresh registry: the bulk volume
"AFaGraphiteCone" is made of the tight-cut medium 46, "ABSO_C_C2", not of a normal-cut one, and
its sub-volume is not placed with the identity. -/
theorem dual_medium_pairs_counterexample :
    ∃ med, ConstructGeometry_media keepFieldParams VMC.empty =
        some (med, registered keepFieldParams) ∧
      ¬ IsDualMediumPair (voFaGraphiteCone med TMath.approx)
        (voFaGraphiteConeO med TMath.approx) := by
  obtain ⟨med, hmed, hn⟩ := ConstructGeometry_media_fresh keepFieldParams
  simp only [List.cons.injEq, Prod.mk.injEq, and_true] at hn
  obtain ⟨-, -, -, -, -, -, -, -, -, -, ⟨h11, -⟩, -, -⟩ := hn
  refine ⟨med, hmed, ?_⟩
  rintro ⟨mb, ms, hb, -, hmem, -, -⟩
  have hb' : mb = med.kMedCsh := (Option.some.inj hb).symm
  rw [hb', h11] at hmem
  revert hmem
  decide

/-- The media of the steel plate "AFaSteelCone31" and of its sub-volume "AFaSteelCone31I", built
from a fresh registry: the plate is made of "ABSO_ST_C3" and the sub-volume of "ABSO_ST_C0". -/
theorem voFaSteelCone31_media (init : Int → ℚ → Int × ℚ) (m : TMath K) :
    ∃ med, ConstructGeometry_media init VMC.empty = some (med, registered init) ∧
      (voFaSteelCone31 med m).medium.map (fun x => (x.numed, x.name)) =
        some (59, "ABSO_ST_C3") ∧
      (voFaSteelCone31I med m).medium.map (fun x => (x.numed, x.name)) =
        some (19, "ABSO_ST_C0") := by
  obtain ⟨med, hmed, hn⟩ := ConstructGeometry_media_fresh init
  simp only [List.cons.injEq, Prod.mk.injEq, and_true] at hn
  obtain ⟨-, -, ⟨h3, n3⟩, ⟨h4, n4⟩, -⟩ := hn
  refine ⟨med, hmed, ?_, ?_⟩
  · show some (med.kMedSteelSh.numed, med.kMedSteelSh.name) = _
    rw [h4, n4]
  · show some (med.kMedSteel.numed, med.kMedSteel.name) = _
    rw [h3, n3]

/-- C16: the length of the absorber without end plate, `dzFa`, the sum of the lengths of the
flange, the graphite cone, the concrete cone and the two steel plates, is 409
(2 + 225 + 126 + 25 + 31: composite 2, graphite 225, concrete 126, steel 56); the end plate is
placed in "AFA" by the translation (0, 0, dzFa + dzEndPlate / 2) = (0, 0, 412), and the absorber
ends at zFa + dzFa = 499. -/
theorem dzFa_eq (med : Media) (m : TMath K) :
    (dzFa : K) =
        dzFaFlange + dzFaGraphiteCone + dzFaConcreteCone + dzFaSteelCone25 + dzFaSteelCone31 ∧
      (dzFaFlange : K) = 2 ∧ (dzFaGraphiteCone : K) = 225 ∧ (dzFaConcreteCone : K) = 126 ∧
      (dzFaSteelCone25 : K) = 25 ∧ (dzFaSteelCone31 : K) = 31 ∧
      (dzFaSteelCone25 + dzFaSteelCone31 : K) = 56 ∧
      (dzFa : K) = 409 ∧ (2 + 225 + 126 + 25 + 31 : K) = 409 ∧
      (voFA med m).placements.filter (fun p => p.1 == "AFaEndPlate") =
        [("AFaEndPlate", 1, .translation 0 0 (dzFa + dzEndPlate / 2))] ∧
      (dzFa + dzEndPlate / 2 : K) = 412 ∧ (zFa + dzFa : K) = 499 := by
  have h409 : (dzFa : K) = 409 := by
    simp only [dzFa, dzFaFlange, dzFaGraphiteCone, dzFaConcreteCone, dzFaSteelCone25,
      dzFaSteelCone31]
    norm_num
  refine ⟨rfl, rfl, ?_, ?_, ?_, ?_, ?_, h409, by norm_num, rfl, ?_, ?_⟩
  · simp only [dzFaGraphiteCone]
    norm_num
  · norm_num [dzFaConcreteCone]
  · norm_num [dzFaSteelCone25]
  · norm_num [dzFaSteelCone31]
  · simp only [dzFaSteelCone25, dzFaSteelCone31]
    norm_num
  · rw [h409]
    simp only [dzEndPlate]
    norm_num
  · rw [h409]
    simp only [zFa]
    norm_num

/-! ## Extents along `z` -/

/-- Extent in `z` of the polycone `shFaWTube1`. -/
theorem shFaWTube1_zRange : (shFaWTube1 : TGeoPcon K).zRange = (0, 99.8) := by
  have h : (shFaWTube1 : TGeoPcon K).zRange = (0, 0 + dzFaWTube1C + dzFaWTube1R) := rfl
  rw [h]
  simp only [dzFaWTube1C, dzFaWTube1R]
  norm_num

/-- Extent in `z` of the polycone `shFaWTube2`. -/
theorem shFaWTube2_zRange : (shFaWTube2 : TGeoPcon K).zRange = (0, 143.5) := by
  have h : (shFaWTube2 : TGeoPcon K).zRange = (0, 0 + dzFaWTube2F + dzFaWTube2C) := rfl
  rw [h]
  simp only [dzFaWTube2C, dzFaWTube2F]
  norm_num

/-- Extent in `z` of the polycone `shFaGraphiteCone`. -/
theorem shFaGraphiteCone_zRange (m : TMath K) : (shFaGraphiteCone m).zRange = (0, 225) := by
  have h : (shFaGraphiteCone m).zRange = (0, dzFaGraphiteCone) := rfl
  rw [h]
  simp only [dzFaGraphiteCone]
  norm_num

/-- Extent in `z` of the polycone `shFaAccM`. -/
theorem shFaAccM_zRange (m : TMath K) : (shFaAccM m).zRange = (0, 407) := by
  have h : (shFaAccM m).zRange =
      (0, dzFaGraphiteCone + dzFaConcreteCone + dzFaSteelCone25 + dzFaSteelCone31) := rfl
  rw [h]
  simp only [dzFaGraphiteCone, dzFaConcreteCone, dzFaSteelCone25, dzFaSteelCone31]
  norm_num

/-- The extents of the four tubes of the inner shield, as the program computes them. -/
theorem voFaInnerShield_daughterExtents (med : Media) :
    (voFaInnerShield med : TGeoVolume K).daughterExtents =
      [("AFaWTube1", 0 + (shFaWTube1 : TGeoPcon K).zRange.1, 0 + (shFaWTube1 : TGeoPcon K).zRange.2),
        ("AFaWTube2", dzFaWTube1 - 0.6 + (shFaWTube2 : TGeoPcon K).zRange.1,
          dzFaWTube1 - 0.6 + (shFaWTube2 : TGeoPcon K).zRange.2),
        ("AFaWTube3", dzFaWTube1 - 0.6 + dzFaWTube2 + dzFaWTube3 / 2 - dzFaWTube3 / 2,
          dzFaWTube1 - 0.6 + dzFaWTube2 + dzFaWTube3 / 2 + dzFaWTube3 / 2),
        ("AFaWTube4",
          dzFaWTube1 - 0.6 + dzFaWTube2 + dzFaWTube3 + dzFaWTube4 / 2 - dzFaWTube4 / 2,
          dzFaWTube1 - 0.6 + dzFaWTube2 + dzFaWTube3 + dzFaWTube4 / 2 + dzFaWTube4 / 2)] :=
  rfl

/-- The extents of the inner tungsten shield "AFaInnerShield" with the decimal literals taken
exactly: the tubes are 99.8, 143.5, 25 and 31 long and span [0, 99.8], [99.2, 242.7],
[242.7, 267.7] and [267.7, 298.7] in the frame of the assembly; the assembly is placed at
z = 110.3 in the mother volume and ends at 110.3 + 298.7 = dzFa = 409. -/
theorem voFaInnerShield_extents_exact (med : Media) (m : TMath K) :
    ((dzFaWTube1 : K) = 99.8 ∧ (dzFaWTube2 : K) = 143.5 ∧ (dzFaWTube3 : K) = 25 ∧
        (dzFaWTube4 : K) = 31) ∧
      (voFaInnerShield med : TGeoVolume K).placements.map (fun p => p.1) =
        ["AFaWTube1", "AFaWTube2", "AFaWTube3", "AFaWTube4"] ∧
      (voFaInnerShield med : TGeoVolume K).daughterExtents =
        [("AFaWTube1", 0, 99.8), ("AFaWTube2", 99.2, 242.7), ("AFaWTube3", 242.7, 267.7),
          ("AFaWTube4", 267.7, 298.7)] ∧
      (∀ e ∈ (voFaInnerShield med : TGeoVolume K).daughterExtents,
        0 ≤ e.2.1 ∧ e.2.2 ≤ 298.7) ∧
      (voFaM med m).placements.filter (fun p => p.1 == "AFaInnerShield") =
        [("AFaInnerShield", 1, .translation 0 0 (dzFaGraphiteConeS + dzFaFlange))] ∧
      (dzFaGraphiteConeS + dzFaFlange : K) = 110.3 ∧
      (shFaGraphiteCone m).GetZ 1 = 108.3 ∧
      (zFa + 110.3 : K) = 200.3 ∧ (zFa + 110.3 - (zFa + dzFaFlange) : K) = 108.3 ∧
      (110.3 + 298.7 : K) = dzFa ∧ (dzFa : K) = 409 ∧ (zFa + (110.3 + 298.7) : K) = 499 := by
  have hext : (voFaInnerShield med : TGeoVolume K).daughterExtents =
      [("AFaWTube1", 0, 99.8), ("AFaWTube2", 99.2, 242.7), ("AFaWTube3", 242.7, 267.7),
        ("AFaWTube4", 267.7, 298.7)] := by
    rw [voFaInnerShield_daughterExtents, shFaWTube1_zRange, shFaWTube2_zRange]
    simp only [dzFaWTube1, dzFaWTube1C, dzFaWTube1R, dzFaWTube2, dzFaWTube2C, dzFaWTube2F,
      dzFaWTube3, dzFaWTube4]
    norm_num
  have hz1 : (shFaGraphiteCone m).GetZ 1 = 0 + dzFaGraphiteConeS := rfl
  have h409 : (dzFa : K) = 409 := by
    simp only [dzFa, dzFaFlange, dzFaGraphiteCone, dzFaConcreteCone, dzFaSteelCone25,
      dzFaSteelCone31]
    norm_num
  refine ⟨⟨?_, ?_, ?_, ?_⟩, rfl, hext, ?_, rfl, ?_, ?_, ?_, ?_, ?_, h409, ?_⟩
  · simp only [dzFaWTube1, dzFaWTube1C, dzFaWTube1R]
    norm_num
  · simp only [dzFaWTube2, dzFaWTube2C, dzFaWTube2F]
    norm_num
  · simp only [dzFaWTube3]
    norm_num
  · simp only [dzFaWTube4]
    norm_num
  · rw [hext]
    simp only [List.forall_mem_cons, List.not_mem_nil, false_implies, implies_true, and_true]
    norm_num
  · simp only [dzFaGraphiteConeS, dzFaFlange]
    norm_num
  · rw [hz1]
    simp only [dzFaGraphiteConeS]
    norm_num
  · simp only [zFa]
    norm_num
  · simp only [zFa, dzFaFlange]
    norm_num
  · rw [h409]
    norm_num
  · simp only [zFa]
    norm_num

/-! ## The inner shield in the arithmetic of the program -/

/-- The extents of the four tubes of the inner shield, as the program computes them in single
and double precision. -/
theorem voFaInnerShield_daughterExtents_single (med : Media) :
    (Float_t.voFaInnerShield med).daughterExtents =
      [("AFaWTube1", 0 + Float_t.shFaWTube1.zRange.1, 0 + Float_t.shFaWTube1.zRange.2),
        ("AFaWTube2",
          Float_t.single (Float_t.double (Float_t.dzFaWTube1 - Float_t.double 0.6)) +
            Float_t.shFaWTube2.zRange.1,
          Float_t.single (Float_t.double (Float_t.dzFaWTube1 - Float_t.double 0.6)) +
            Float_t.shFaWTube2.zRange.2),
        ("AFaWTube3",
          Float_t.double
              (Float_t.single
                  (Float_t.single (Float_t.double (Float_t.dzFaWTube1 - Float_t.double 0.6)) +
                    Float_t.dzFaWTube2) +
                Float_t.double (Float_t.dzFaWTube3 / Float_t.double 2)) -
            Float_t.double (Float_t.dzFaWTube3 / Float_t.double 2),
          Float_t.double
              (Float_t.single
                  (Float_t.single (Float_t.double (Float_t.dzFaWTube1 - Float_t.double 0.6)) +
                    Float_t.dzFaWTube2) +
                Float_t.double (Float_t.dzFaWTube3 / Float_t.double 2)) +
            Float_t.double (Float_t.dzFaWTube3 / Float_t.double 2)),
        ("AFaWTube4",
          Float_t.double
              (Float_t.single
                  (Float_t.single
                      (Float_t.single
                          (Float_t.double (Float_t.dzFaWTube1 - Float_t.double 0.6)) +
                        Float_t.dzFaWTube2) +
                    Float_t.dzFaWTube3) +
                Float_t.double (Float_t.dzFaWTube4 / Float_t.double 2)) -
            Float_t.double (Float_t.dzFaWTube4 / Float_t.double 2),
          Float_t.double
              (Float_t.single
                  (Float_t.single
                      (Float_t.single
                          (Float_t.double (Float_t.dzFaWTube1 - Float_t.double 0.6)) +
                        Float_t.dzFaWTube2) +
                    Float_t.dzFaWTube3) +
                Float_t.double (Float_t.dzFaWTube4 / Float_t.double 2)) +
            Float_t.double (Float_t.dzFaWTube4 / Float_t.double 2))] :=
  rfl

/-- The extents of the four tubes of the inner shield in the arithmetic of the program, as
numbers. -/
theorem voFaInnerShield_extents_single (med : Media) :
    (Float_t.voFaInnerShield med).daughterExtents =
      [("AFaWTube1", 0, 99.8000030517578125),
        ("AFaWTube2", 99.20000457763671875, 242.70000457763671875),
        ("AFaWTube3", 242.70001220703125, 267.70001220703125),
        ("AFaWTube4", 267.70001220703125, 298.70001220703125)] := by
  rw [voFaInnerShield_daughterExtents_single]
  decide!

/-- The shifts along `z` of the four tubes of the inner shield in the arithmetic of the
program. -/
theorem voFaInnerShield_shifts_single (med : Media) :
    (Float_t.voFaInnerShield med).placements.map (fun p => (p.1, p.2.1, p.2.2.zShift)) =
      [("AFaWTube1", 1, some 0), ("AFaWTube2", 1, some 99.20000457763671875),
        ("AFaWTube3", 1, some 255.20001220703125),
        ("AFaWTube4", 1, some 283.20001220703125)] := by
  have h : (Float_t.voFaInnerShield med).placements.map (fun p => (p.1, p.2.1, p.2.2.zShift)) =
      [("AFaWTube1", 1, some 0),
        ("AFaWTube2", 1,
          some (Float_t.single (Float_t.double (Float_t.dzFaWTube1 - Float_t.double 0.6)))),
        ("AFaWTube3", 1,
          some (Float_t.double
            (Float_t.single
                (Float_t.single (Float_t.double (Float_t.dzFaWTube1 - Float_t.double 0.6)) +
                  Float_t.dzFaWTube2) +
              Float_t.double (Float_t.dzFaWTube3 / Float_t.double 2)))),
        ("AFaWTube4", 1,
          some (Float_t.double
            (Float_t.single
                (Float_t.single
                    (Float_t.single
                        (Float_t.double (Float_t.dzFaWTube1 - Float_t.double 0.6)) +
                      Float_t.dzFaWTube2) +
                  Float_t.dzFaWTube3) +
              Float_t.double (Float_t.dzFaWTube4 / Float_t.double 2))))] := rfl
  rw [h]
  decide!

/-- The extents of the four tubes of the inner shield with the decimal literals taken exactly,
over the rationals. -/
theorem voFaInnerShield_extents_rat (med : Media) :
    (voFaInnerShield med : TGeoVolume ℚ).daughterExtents =
      [("AFaWTube1", 0, 99.8), ("AFaWTube2", 99.2, 242.7), ("AFaWTube3", 242.7, 267.7),
        ("AFaWTube4", 267.7, 298.7)] := by
  rw [voFaInnerShield_daughterExtents, shFaWTube1_zRange, shFaWTube2_zRange]
  simp only [dzFaWTube1, dzFaWTube1C, dzFaWTube1R, dzFaWTube2, dzFaWTube2C, dzFaWTube2F,
    dzFaWTube3, dzFaWTube4]
  norm_num

/-- C17, as stated, fails in the arithmetic of the program, where the lengths are `Float_t`
numbers: with the inner shield placed at `z = dzFaGraphiteConeS + dzFaFlange` =
110.3000030517578125, the rear ends of its four tubes lie at 210.100006103515625,
353.00000762939453125, 378.0000152587890625 and 409.0000152587890625 in the mother volume, and
the last is not `dzFa`, which is 409: the shield ends `2 ^ (-16)` behind `dzFa`. -/
theorem voFaInnerShield_ends_at_dzFa_counterexample :
    ∃ med, ConstructGeometry_media keepFieldParams VMC.empty =
        some (med, registered keepFieldParams) ∧
      (Float_t.voFaInnerShield med).daughterExtents.map
          (fun e => (e.1, Float_t.zFaInnerShield + e.2.2)) =
        [("AFaWTube1", 210.100006103515625), ("AFaWTube2", 353.00000762939453125),
          ("AFaWTube3", 378.0000152587890625), ("AFaWTube4", 409.0000152587890625)] ∧
      Float_t.dzFa = 409 ∧
      ¬ ∀ e ∈ (Float_t.voFaInnerShield med).daughterExtents,
        Float_t.zFaInnerShield + e.2.2 ≤ Float_t.dzFa := by
  obtain ⟨med, hmed, -⟩ := ConstructGeometry_media_fresh keepFieldParams
  refine ⟨med, hmed, ?_, by decide!, ?_⟩
  · rw [voFaInnerShield_extents_single]
    decide!
  · rw [voFaInnerShield_extents_single]
    decide!

/-- C17: with the decimal literals taken exactly, the inner tungsten shield "AFaInnerShield" has
the extents of the source comment. The tubes are 99.8, 143.5, 25 and 31 long; with tube 2
shifted back by 0.6 they span [0, 99.8], [99.2, 242.7], [242.7, 267.7] and [267.7, 298.7] in the
frame of the assembly, [0, 298.7] in all. The assembly is placed at
z = dzFaGraphiteConeS + dzFaFlange = 110.3 in the mother volume, where the straight section of
the graphite cone, 108.3 long, ends; it starts at zFa + 110.3 = 200.3 from the origin and ends at
110.3 + 298.7 = dzFa = 409, 499 from the origin. In the arithmetic of the program, where the
lengths are `Float_t` numbers, these values hold up to rounding only: tube 1 is
99.8000030517578125 long, the tubes 2, 3 and 4 are placed at 99.20000457763671875,
255.20001220703125 and 283.20001220703125 and span [99.20000457763671875,
242.70000457763671875], [242.70001220703125, 267.70001220703125] and [267.70001220703125,
298.70001220703125], every end within 0.00002 of its decimal value; the assembly is placed at
110.3000030517578125 and ends at 409.0000152587890625, which is `dzFa` = 409 plus `2 ^ (-16)`. -/
theorem voFaInnerShield_extents (med : Media) (m : TMath K) :
    (((dzFaWTube1 : K) = 99.8 ∧ (dzFaWTube2 : K) = 143.5 ∧ (dzFaWTube3 : K) = 25 ∧
          (dzFaWTube4 : K) = 31) ∧
        (voFaInnerShield med : TGeoVolume K).placements.map (fun p => p.1) =
          ["AFaWTube1", "AFaWTube2", "AFaWTube3", "AFaWTube4"] ∧
        (voFaInnerShield med : TGeoVolume K).daughterExtents =
          [("AFaWTube1", 0, 99.8), ("AFaWTube2", 99.2, 242.7), ("AFaWTube3", 242.7, 267.7),
            ("AFaWTube4", 267.7, 298.7)] ∧
        (∀ e ∈ (voFaInnerShield med : TGeoVolume K).daughterExtents,
          0 ≤ e.2.1 ∧ e.2.2 ≤ 298.7) ∧
        (voFaM med m).placements.filter (fun p => p.1 == "AFaInnerShield") =
          [("AFaInnerShield", 1, .translation 0 0 (dzFaGraphiteConeS + dzFaFlange))] ∧
        (dzFaGraphiteConeS + dzFaFlange : K) = 110.3 ∧
        (shFaGraphiteCone m).GetZ 1 = 108.3 ∧
        (zFa + 110.3 : K) = 200.3 ∧ (zFa + 110.3 - (zFa + dzFaFlange) : K) = 108.3 ∧
        (110.3 + 298.7 : K) = dzFa ∧ (dzFa : K) = 409 ∧ (zFa + (110.3 + 298.7) : K) = 499) ∧
      (Float_t.dzFaWTube1 = 99.8000030517578125 ∧ Float_t.dzFaWTube2 = 143.5 ∧
        Float_t.dzFaWTube3 = 25 ∧ Float_t.dzFaWTube4 = 31) ∧
      (Float_t.voFaInnerShield med).placements.map (fun p => (p.1, p.2.1, p.2.2.zShift)) =
        [("AFaWTube1", 1, some 0), ("AFaWTube2", 1, some 99.20000457763671875),
          ("AFaWTube3", 1, some 255.20001220703125),
          ("AFaWTube4", 1, some 283.20001220703125)] ∧
      (Float_t.voFaInnerShield med).daughterExtents =
        [("AFaWTube1", 0, 99.8000030517578125),
          ("AFaWTube2", 99.20000457763671875, 242.70000457763671875),
          ("AFaWTube3", 242.70001220703125, 267.70001220703125),
          ("AFaWTube4", 267.70001220703125, 298.70001220703125)] ∧
      (∀ p ∈ List.zip (Float_t.voFaInnerShield med).daughterExtents
          (voFaInnerShield med : TGeoVolume ℚ).daughterExtents,
        p.1.1 = p.2.1 ∧ |p.1.2.1 - p.2.2.1| ≤ 0.00002 ∧ |p.1.2.2 - p.2.2.2| ≤ 0.00002) ∧
      (Float_t.zFaInnerShield = 110.3000030517578125 ∧ Float_t.dzFa = 409 ∧
        Float_t.zFa = 90) ∧
      Float_t.zFa + Float_t.zFaInnerShield = 200.3000030517578125 ∧
      Float_t.zFaInnerShield + 298.70001220703125 = 409.0000152587890625 ∧
      Float_t.zFaInnerShield + 298.70001220703125 = Float_t.dzFa + 1 / 65536 ∧
      Float_t.zFa + (Float_t.zFaInnerShield + 298.70001220703125) = 499.0000152587890625 ∧
      |Float_t.zFaInnerShield - 110.3| ≤ 0.00002 ∧
      |Float_t.zFaInnerShield + 298.70001220703125 - 409| ≤ 0.00002 := by
  refine ⟨voFaInnerShield_extents_exact med m, by decide!,
    voFaInnerShield_shifts_single med, voFaInnerShield_extents_single med, ?_, by decide!,
    by decide!, by decide!, by decide!, by decide!, by decide!, by decide!⟩
  rw [voFaInnerShield_extents_single, voFaInnerShield_extents_rat]
  decide!

/-- The extents of the four parts placed in "AFaAcc", as the program computes them. -/
theorem voFaAccM_daughterExtents (med : Media) (m : TMath K) :
    (voFaAccM med m).daughterExtents =
      [("AFaGraphiteCone", 0 + (shFaGraphiteCone m).zRange.1,
          0 + (shFaGraphiteCone m).zRange.2),
        ("AFaConcreteCone", 0 + dzFaGraphiteCone + dzFaConcreteCone / 2 - dzFaConcreteCone / 2,
          0 + dzFaGraphiteCone + dzFaConcreteCone / 2 + dzFaConcreteCone / 2),
        ("AFaSteelCone25",
          0 + dzFaGraphiteCone + dzFaConcreteCone + dzFaSteelCone25 / 2 - dzFaSteelCone25 / 2,
          0 + dzFaGraphiteCone + dzFaConcreteCone + dzFaSteelCone25 / 2 + dzFaSteelCone25 / 2),
        ("AFaSteelCone31",
          0 + dzFaGraphiteCone + dzFaConcreteCone + dzFaSteelCone25 + dzFaSteelCone31 / 2 -
            dzFaSteelCone31 / 2,
          0 + dzFaGraphiteCone + dzFaConcreteCone + dzFaSteelCone25 + dzFaSteelCone31 / 2 +
            dzFaSteelCone31 / 2)] :=
  rfl

/-- C20: the four parts placed in the acceptance volume "AFaAcc" tile its extent in `z` without
gap or overlap: the graphite cone on [0, 225], the concrete cone on [225, 351], the 25 cm steel
plate on [351, 376] and the 31 cm steel plate on [376, 407], each cone centred at its
translation with half its length on either side; each part starts where the one before ends, and
[0, 407] is the extent of the polycone `shFaAccM` of "AFaAcc", from its first section at z = 0
to its last of 7 at z = 407. -/
theorem voFaAccM_parts_tile (med : Media) (m : TMath K) :
    (voFaAccM med m).placements.map (fun p => p.1) =
        ["AFaGraphiteCone", "AFaConcreteCone", "AFaSteelCone25", "AFaSteelCone31"] ∧
      (voFaAccM med m).daughterExtents =
        [("AFaGraphiteCone", 0, 225), ("AFaConcreteCone", 225, 351),
          ("AFaSteelCone25", 351, 376), ("AFaSteelCone31", 376, 407)] ∧
      (voFaAccM med m).daughterExtents.Chain' (fun e f => e.2.2 = f.2.1) ∧
      (voFaAccM med m).shape = some (.pcon (shFaAccM m)) ∧
      (shFaAccM m).GetNz = 7 ∧ (shFaAccM m).GetZ 0 = 0 ∧ (shFaAccM m).GetZ 6 = 407 ∧
      (shFaAccM m).zRange = (0, 407) := by
  have hext : (voFaAccM med m).daughterExtents =
      [("AFaGraphiteCone", 0, 225), ("AFaConcreteCone", 225, 351),
        ("AFaSteelCone25", 351, 376), ("AFaSteelCone31", 376, 407)] := by
    rw [voFaAccM_daughterExtents, shFaGraphiteCone_zRange]
    simp only [dzFaGraphiteCone, dzFaConcreteCone, dzFaSteelCone25, dzFaSteelCone31]
    norm_num
  have hr := shFaAccM_zRange m
  refine ⟨rfl, hext, ?_, rfl, rfl, rfl, ?_, hr⟩
  · rw [hext]
    simp only [List.chain'_cons, List.chain'_singleton, and_self]
  · exact congrArg Prod.snd hr

/-! ## Radial profiles along `z` -/

/-- An element found at an index of a list is a member of the list. -/
theorem mem_of_index {α : Type} (l : List α) (n : Nat) (a : α) (h : l[n]? = some a) : a ∈ l :=
  List.getElem?_mem h

/-- A function that is linear in `z` and not negative at both ends of a range is not negative on
the range. -/
theorem linear_nonneg_of_endpoints (A B lo hi z : K) (hlo : 0 ≤ A + B * lo)
    (hhi : 0 ≤ A + B * hi) (h1 : lo ≤ z) (h2 : z ≤ hi) : 0 ≤ A + B * z := by
  rcases le_total 0 B with hB | hB
  · have := mul_le_mul_of_nonneg_left h1 hB
    linarith
  · have := mul_le_mul_of_nonpos_left h2 hB
    linarith

/-- An interpolated value that is at most another at both ends of a range is at most the other
on the range. -/
theorem interpolate_le_interpolate (z1 r1 z2 r2 z1' r1' z2' r2' lo hi z : K)
    (hlo : interpolate z1 r1 z2 r2 lo ≤ interpolate z1' r1' z2' r2' lo)
    (hhi : interpolate z1 r1 z2 r2 hi ≤ interpolate z1' r1' z2' r2' hi)
    (h1 : lo ≤ z) (h2 : z ≤ hi) :
    interpolate z1 r1 z2 r2 z ≤ interpolate z1' r1' z2' r2' z := by
  have e : ∀ (a b c d x : K), interpolate a b c d x =
      (b - a * ((d - b) / (c - a))) + ((d - b) / (c - a)) * x := by
    intro a b c d x
    simp only [interpolate]
    ring
  rw [e z1 r1 z2 r2, e z1' r1' z2' r2'] at hlo hhi ⊢
  have h := linear_nonneg_of_endpoints
    ((r1' - z1' * ((r2' - r1') / (z2' - z1'))) - (r1 - z1 * ((r2 - r1) / (z2 - z1))))
    ((r2' - r1') / (z2' - z1') - (r2 - r1) / (z2 - z1)) lo hi z (by linarith) (by linarith)
    h1 h2
  linarith

namespace Segment

/-- A stretch lies within another as soon as it does at both ends of the range of `z` that they
share. -/
theorem within_of_endpoints (s b : Segment K)
    (h : s.Overlaps b →
      (b.rminAt (max s.z1 b.z1) ≤ s.rminAt (max s.z1 b.z1) ∧
        s.rmaxAt (max s.z1 b.z1) ≤ b.rmaxAt (max s.z1 b.z1)) ∧
      (b.rminAt (min s.z2 b.z2) ≤ s.rminAt (min s.z2 b.z2) ∧
        s.rmaxAt (min s.z2 b.z2) ≤ b.rmaxAt (min s.z2 b.z2))) :
    s.Within b := by
  intro z hz
  obtain ⟨hov, h1, h2⟩ := hz
  obtain ⟨⟨ha, hb⟩, hc, hd⟩ := h hov
  exact ⟨interpolate_le_interpolate _ _ _ _ _ _ _ _ _ _ z ha hc h1 h2,
    interpolate_le_interpolate _ _ _ _ _ _ _ _ _ _ z hb hd h1 h2⟩

/-- A stretch lies in the bore of another as soon as it does at both ends of the range of `z`
that they share. -/
theorem inBore_of_endpoints (s b : Segment K)
    (h : s.Overlaps b →
      s.rmaxAt (max s.z1 b.z1) ≤ b.rminAt (max s.z1 b.z1) ∧
        s.rmaxAt (min s.z2 b.z2) ≤ b.rminAt (min s.z2 b.z2)) :
    s.InBore b := by
  intro z hz
  obtain ⟨hov, h1, h2⟩ := hz
  obtain ⟨ha, hb⟩ := h hov
  exact interpolate_le_interpolate _ _ _ _ _ _ _ _ _ _ z ha hb h1 h2

/-- The outer radius of a stretch stays below that of another as soon as it does at both ends of
the range of `z` that they share. -/
theorem outerWithin_of_endpoints (s b : Segment K)
    (h : s.Overlaps b →
      s.rmaxAt (max s.z1 b.z1) ≤ b.rmaxAt (max s.z1 b.z1) ∧
        s.rmaxAt (min s.z2 b.z2) ≤ b.rmaxAt (min s.z2 b.z2)) :
    s.OuterWithin b := by
  intro z hz
  obtain ⟨hov, h1, h2⟩ := hz
  obtain ⟨ha, hb⟩ := h hov
  exact interpolate_le_interpolate _ _ _ _ _ _ _ _ _ _ z ha hb h1 h2

end Segment

/-! ### The sections of the polycones -/

/-- A run of `DefineSection` calls numbered `k`, `k + 1`, ... fills the sections from `k` on in
the order of the calls and leaves the others as they were. -/
theorem DefineSections_sections_aux (calls : List (DefineSectionCall K)) :
    ∀ (p : TGeoPcon K) (done rest : List (PconSection K)),
      p.sections = done ++ rest → calls.length ≤ rest.length →
      calls.map (fun c => c.snum) = List.range' done.length calls.length →
      (p.DefineSections calls).sections =
        done ++ calls.map (fun c => ⟨c.z, c.rmin, c.rmax⟩) ++ rest.drop calls.length := by
  induction calls with
  | nil =>
    intro p done rest hp _ _
    simp [TGeoPcon.DefineSections, hp]
  | cons c calls ih =>
    intro p done rest hp hlen hnum
    cases rest with
    | nil => simp at hlen
    | cons r rest =>
      simp only [List.map_cons, List.length_cons, List.range'_succ, List.cons.injEq] at hnum
      obtain ⟨hc, hnum⟩ := hnum
      have hstep : (p.DefineSection c.snum c.z c.rmin c.rmax).sections =
          (done ++ [⟨c.z, c.rmin, c.rmax⟩]) ++ rest := by
        show p.sections.set c.snum ⟨c.z, c.rmin, c.rmax⟩ = _
        rw [hp, hc, List.set_append_right _ _ (le_refl _)]
        simp
      have h := ih (p.DefineSection c.snum c.z c.rmin c.rmax)
        (done ++ [⟨c.z, c.rmin, c.rmax⟩]) rest hstep
        (by simpa using hlen) (by simpa using hnum)
      simp only [TGeoPcon.DefineSections, List.foldl_cons] at h ⊢
      rw [h]
      simp

/-- A polycone of `n` sections on which `n` calls numbered `0..n-1` are made in order has the
values of the calls as its sections. -/
theorem DefineSections_sections (phi1 dphi : K) (calls : List (DefineSectionCall K))
    (h : calls.map (fun c => c.snum) = List.range calls.length) :
    ((TGeoPcon.new phi1 dphi calls.length).DefineSections calls).sections =
      calls.map fun c => ⟨c.z, c.rmin, c.rmax⟩ := by
  have h' := DefineSections_sections_aux calls (TGeoPcon.new phi1 dphi calls.length) []
    (List.replicate calls.length ⟨0, 0, 0⟩) rfl (by simp)
    (by rw [h, List.range_eq_range']; rfl)
  simpa using h'

/-! ### The stretches of the polycones -/

/-- The sections of the mother polycone `shFaM` are the values of the calls made on it. -/
theorem shFaM_sections (m : TMath K) :
    (shFaM m).sections = (shFaM_calls m).map fun c => ⟨c.z, c.rmin, c.rmax⟩ :=
  DefineSections_sections 0 360 (shFaM_calls m) rfl

/-- The stretches of the polycone `shFaSteelEnvelopeC`, from its sections. -/
theorem shFaSteelEnvelopeC_segments (m : TMath K) (z0 : K) :
    (shFaSteelEnvelopeC m).segments z0 =
      [⟨z0 + 0, rInSteelEnvelopeFC1, rOuSteelEnvelopeFC1, z0 + (0 + dzSteelEnvelopeFC),
          rInSteelEnvelopeFC2 m, rOuSteelEnvelopeFC2 m⟩,
       ⟨z0 + (0 + dzSteelEnvelopeFC), rInSteelEnvelopeFC2 m, rOuSteelEnvelopeFC2 m,
          z0 + (0 + dzSteelEnvelopeFC), rInSteelEnvelopeC5 m, rOuSteelEnvelopeC5 m⟩,
       ⟨z0 + (0 + dzSteelEnvelopeFC), rInSteelEnvelopeC5 m, rOuSteelEnvelopeC5 m,
          z0 + (0 + dzSteelEnvelopeFC + dzSteelEnvelopeC5), rInSteelEnvelopeC10,
          rOuSteelEnvelopeC10 m⟩,
       ⟨z0 + (0 + dzSteelEnvelopeFC + dzSteelEnvelopeC5), rInSteelEnvelopeC10,
          rOuSteelEnvelopeC10 m,
          z0 + (0 + dzSteelEnvelopeFC + dzSteelEnvelopeC5 + dzSteelEnvelopeC10),
          rInSteelEnvelopeR1 m, rOuSteelEnvelopeR1 m⟩,
       ⟨z0 + (0 + dzSteelEnvelopeFC + dzSteelEnvelopeC5 + dzSteelEnvelopeC10),
          rInSteelEnvelopeR1 m, rOuSteelEnvelopeR1 m,
          z0 + (0 + dzSteelEnvelopeFC + dzSteelEnvelopeC5 + dzSteelEnvelopeC10),
          rInSteelEnvelopeR1 m, rOuSteelEnvelopeR2⟩,
       ⟨z0 + (0 + dzSteelEnvelopeFC + dzSteelEnvelopeC5 + dzSteelEnvelopeC10),
          rInSteelEnvelopeR1 m, rOuSteelEnvelopeR2,
          z0 + (0 + dzSteelEnvelopeFC + dzSteelEnvelopeC5 + dzSteelEnvelopeC10 + dzSteelEnvelopeR),
          rInSteelEnvelopeR2, rOuSteelEnvelopeR2⟩] := rfl

/-- The stretches of the polycone `shFaWPlateA`, from its sections. -/
theorem shFaWPlateA_segments (m : TMath K) (z0 : K) :
    (shFaWPlateA m).segments z0 =
      [⟨z0 + 0, rInFaQPlateF, rOuFaQPlateF, z0 + (0 + dzFaWPlateF), rInFaQPlateF, rOuFaQPlateC1 m⟩,
       ⟨z0 + (0 + dzFaWPlateF), rInFaQPlateF, rOuFaQPlateC1 m, z0 + (0 + dzFaWPlateF),
          rInFaQPlateC1, rOuFaQPlateC1 m⟩,
       ⟨z0 + (0 + dzFaWPlateF), rInFaQPlateC1, rOuFaQPlateC1 m,
          z0 + (0 + dzFaWPlateF + dzFaWPlateC1), rInFaQPlateC2 m, rOuFaQPlateC2 m⟩,
       ⟨z0 + (0 + dzFaWPlateF + dzFaWPlateC1), rInFaQPlateC2 m, rOuFaQPlateC2 m,
          z0 + (0 + dzFaWPlateF + dzFaWPlateC1 + dzFaWPlateC2), rInFaQPlateC3, rOuFaQPlateC3⟩,
       ⟨z0 + (0 + dzFaWPlateF + dzFaWPlateC1 + dzFaWPlateC2), rInFaQPlateC3, rOuFaQPlateC3,
          z0 + (0 + dzFaWPlateF + dzFaWPlateC1 + dzFaWPlateC2), rInFaQPlateR, rOuFaQPlateR⟩,
       ⟨z0 + (0 + dzFaWPlateF + dzFaWPlateC1 + dzFaWPlateC2), rInFaQPlateR, rOuFaQPlateR,
          z0 + (0 + dzFaWPlateF + dzFaWPlateC1 + dzFaWPlateC2 + dzFaWPlateR), rInFaQPlateR,
          rOuFaQPlateR⟩] := rfl

/-- The stretches of the polycone `shFaWPlateAI`, from its sections. -/
theorem shFaWPlateAI_segments (m : TMath K) (z0 : K) :
    (shFaWPlateAI m).segments z0 =
      [⟨z0 + 3, rInFaQPlateF + 3 * angle10 m, rOuFaQPlateC1 m + (3 - dzFaWPlateF) * angle24 m,
          z0 + (0 + dzFaWPlateF + dzFaWPlateC1), rInFaQPlateC2 m, rOuFaQPlateC2 m - 3⟩,
       ⟨z0 + (0 + dzFaWPlateF + dzFaWPlateC1), rInFaQPlateC2 m, rOuFaQPlateC2 m - 3,
          z0 + (0 + dzFaWPlateF + dzFaWPlateC1 + dzFaWPlateC2), rInFaQPlateC3, rOuFaQPlateC3 - 3⟩,
       ⟨z0 + (0 + dzFaWPlateF + dzFaWPlateC1 + dzFaWPlateC2), rInFaQPlateC3, rOuFaQPlateC3 - 3,
          z0 + (0 + dzFaWPlateF + dzFaWPlateC1 + dzFaWPlateC2), rInFaQPlateR, rOuFaQPlateR - 3⟩,
       ⟨z0 + (0 + dzFaWPlateF + dzFaWPlateC1 + dzFaWPlateC2), rInFaQPlateR, rOuFaQPlateR - 3,
          z0 + (0 + dzFaWPlateF + dzFaWPlateC1 + dzFaWPlateC2 + dzFaWPlateR), rInFaQPlateR,
          rOuFaQPlateR - 3⟩] := rfl

/-- The stretches of the polycone `shFaWTube1`, from its sections. -/
theorem shFaWTube1_segments (z0 : K) :
    (shFaWTube1 : TGeoPcon K).segments z0 =
      [⟨z0 + 0, rInFaWTube1C1, rOuFaWTube1C1, z0 + (0 + dzFaWTube1C), rInFaWTube1C1, rOuFaWTube1C2⟩,
       ⟨z0 + (0 + dzFaWTube1C), rInFaWTube1C1, rOuFaWTube1C2, z0 + (0 + dzFaWTube1C),
          rInFaWTube1C1, rOuFaWTube1R⟩,
       ⟨z0 + (0 + dzFaWTube1C), rInFaWTube1C1, rOuFaWTube1R, z0 + (0 + dzFaWTube1C + dzFaWTube1R),
          rInFaWTube1C1, rOuFaWTube1R⟩] := rfl

/-- The stretches of the polycone `shFaWTube2`, from its sections. -/
theorem shFaWTube2_segments (z0 : K) :
    (shFaWTube2 : TGeoPcon K).segments z0 =
      [⟨z0 + 0, rInFaWTube2F, rOuFaWTube2C1, z0 + (0 + dzFaWTube2F), rInFaWTube2F, rOuFaWTube2C1⟩,
       ⟨z0 + (0 + dzFaWTube2F), rInFaWTube2F, rOuFaWTube2C1, z0 + (0 + dzFaWTube2F),
          rInFaWTube2C1, rOuFaWTube2C1⟩,
       ⟨z0 + (0 + dzFaWTube2F), rInFaWTube2C1, rOuFaWTube2C1,
          z0 + (0 + dzFaWTube2F + dzFaWTube2C), rInFaWTube2C2, rOuFaWTube2C2⟩] := rfl

/-- The stretches of the polycone `shFaGraphiteCone`, from its sections. -/
theorem shFaGraphiteCone_segments (m : TMath K) (z0 : K) :
    (shFaGraphiteCone m).segments z0 =
      [⟨z0 + 0, rInFaGraphiteCone1, rOuFaGraphiteCone1 m, z0 + (0 + dzFaGraphiteConeS),
          rInFaGraphiteCone1, rOuFaGraphiteCone2 m⟩,
       ⟨z0 + (0 + dzFaGraphiteConeS), rInFaGraphiteCone1, rOuFaGraphiteCone2 m,
          z0 + (0 + dzFaGraphiteConeS), rInFaGraphiteCone2, rOuFaGraphiteCone2 m⟩,
       ⟨z0 + (0 + dzFaGraphiteConeS), rInFaGraphiteCone2, rOuFaGraphiteCone2 m,
          z0 + dzFaGraphiteCone, rInFaGraphiteCone3, rOuFaGraphiteCone3 m⟩] := rfl

/-- The stretches of the polycone `shFaPbCone`, from its sections. -/
theorem shFaPbCone_segments (m : TMath K) (z0 : K) :
    (shFaPbCone m).segments z0 =
      [⟨z0 + 0, rInFaPbCone5, rOuFaPbCone5, z0 + (0 + dzFaPbCone5), rInFaPbCone10 m, rOuFaPbCone10⟩,
       ⟨z0 + (0 + dzFaPbCone5), rInFaPbCone10 m, rOuFaPbCone10,
          z0 + (0 + dzFaPbCone5 + dzFaPbCone10), rInFaPbConeE, rOuFaPbConeE⟩] := rfl

/-- The stretches of the polycone `shFaPbConeI`, from its sections. -/
theorem shFaPbConeI_segments (m : TMath K) (z0 : K) :
    (shFaPbConeI m).segments z0 =
      [⟨z0 + 0, rInFaPbCone5 + 0, rOuFaPbCone5 + -3, z0 + (0 + dzFaPbCone5), rInFaPbCone10 m + 0,
          rOuFaPbCone10 + -3⟩,
       ⟨z0 + (0 + dzFaPbCone5), rInFaPbCone10 m + 0, rOuFaPbCone10 + -3,
          z0 + (0 + dzFaPbCone5 + dzFaPbCone10), rInFaPbConeE + 0, rOuFaPbConeE + -3⟩] := rfl

/-- The stretches of the polycone `shFaM`, from its sections. -/
theorem shFaM_segments (m : TMath K) (z0 : K) :
    (shFaM m).segments z0 =
      [⟨z0 + 0, rInFaMgRingO, rOuFaQPlateF, z0 + (0 + dzFaMgRingO), rInFaMgRingO,
          rOuFaQPlateF + dzFaMgRingO * angle24 m⟩,
       ⟨z0 + (0 + dzFaMgRingO), rInFaMgRingO, rOuFaQPlateF + dzFaMgRingO * angle24 m,
          z0 + (0 + dzFaMgRingO), rInFaMgRingI, rOuFaQPlateF + dzFaMgRingO * angle24 m⟩,
       ⟨z0 + (0 + dzFaMgRingO), rInFaMgRingI, rOuFaQPlateF + dzFaMgRingO * angle24 m,
          z0 + (0 + dzFaMgRingO + dzFaMgRingI), rInFaMgRingI,
          rOuFaQPlateF + (dzFaMgRingO + dzFaMgRingI) * angle24 m⟩,
       ⟨z0 + (0 + dzFaMgRingO + dzFaMgRingI), rInFaMgRingI,
          rOuFaQPlateF + (dzFaMgRingO + dzFaMgRingI) * angle24 m,
          z0 + (0 + dzFaMgRingO + dzFaMgRingI), rInFaMgRingO,
          rOuFaQPlateF + (dzFaMgRingO + dzFaMgRingI) * angle24 m⟩,
       ⟨z0 + (0 + dzFaMgRingO + dzFaMgRingI), rInFaMgRingO,
          rOuFaQPlateF + (dzFaMgRingO + dzFaMgRingI) * angle24 m,
          z0 + (0 + dzFaMgRingO + dzFaMgRingI + dzFaMgRingO), rInFaMgRingO,
          rOuFaQPlateF + (dzFaMgRingO + dzFaMgRingI + dzFaMgRingO) * angle24 m⟩,
       ⟨z0 + (0 + dzFaMgRingO + dzFaMgRingI + dzFaMgRingO), rInFaMgRingO,
          rOuFaQPlateF + (dzFaMgRingO + dzFaMgRingI + dzFaMgRingO) * angle24 m,
          z0 + (0 + dzFaMgRingO + dzFaMgRingI + dzFaMgRingO), rInFaGraphiteCone1,
          rOuFaQPlateF + (dzFaMgRingO + dzFaMgRingI + dzFaMgRingO) * angle24 m⟩,
       ⟨z0 + (0 + dzFaMgRingO + dzFaMgRingI + dzFaMgRingO), rInFaGraphiteCone1,
          rOuFaQPlateF + (dzFaMgRingO + dzFaMgRingI + dzFaMgRingO) * angle24 m,
          z0 + (0 + dzFaMgRingO + dzFaMgRingI + dzFaMgRingO + dzFaWPlateC1), rInFaGraphiteCone1,
          rOuFaQPlateC2 m⟩,
       ⟨z0 + (0 + dzFaMgRingO + dzFaMgRingI + dzFaMgRingO + dzFaWPlateC1), rInFaGraphiteCone1,
          rOuFaQPlateC2 m,
          z0 + (0 + dzFaMgRingO + dzFaMgRingI + dzFaMgRingO + dzFaWPlateC1 + dzFaWPlateC2),
          rInFaGraphiteCone1, rOuFaQPlateC3⟩,
       ⟨z0 + (0 + dzFaMgRingO + dzFaMgRingI + dzFaMgRingO + dzFaWPlateC1 + dzFaWPlateC2),
          rInFaGraphiteCone1, rOuFaQPlateC3,
          z0 + (0 + dzFaMgRingO + dzFaMgRingI + dzFaMgRingO + dzFaWPlateC1 + dzFaWPlateC2 + dzSteelEnvelopeFC + dzSteelEnvelopeC5),
          rInFaGraphiteCone1, rOuSteelEnvelopeC10 m⟩,
       ⟨z0 + (0 + dzFaMgRingO + dzFaMgRingI + dzFaMgRingO + dzFaWPlateC1 + dzFaWPlateC2 + dzSteelEnvelopeFC + dzSteelEnvelopeC5),
          rInFaGraphiteCone1, rOuSteelEnvelopeC10 m,
          z0 + (dzFaFlange + dzFaGraphiteConeS + dzFaWTube1C), rInFaGraphiteCone1,
          rOuSteelEnvelopeC10 m + (dzFaFlange + dzFaGraphiteConeS + dzFaWTube1C - (0 + dzFaMgRingO + dzFaMgRingI + dzFaMgRingO + dzFaWPlateC1 + dzFaWPlateC2 + dzSteelEnvelopeFC + dzSteelEnvelopeC5)) * angle10 m⟩,
       ⟨z0 + (dzFaFlange + dzFaGraphiteConeS + dzFaWTube1C), rInFaGraphiteCone1,
          rOuSteelEnvelopeC10 m + (dzFaFlange + dzFaGraphiteConeS + dzFaWTube1C - (0 + dzFaMgRingO + dzFaMgRingI + dzFaMgRingO + dzFaWPlateC1 + dzFaWPlateC2 + dzSteelEnvelopeFC + dzSteelEnvelopeC5)) * angle10 m,
          z0 + (dzFa - dzSteelEnvelopeR / 2),
          rInFaGraphiteCone1 + (dzFa - dzSteelEnvelopeR / 2 - (dzFaFlange + dzFaGraphiteConeS + dzFaWTube1C)) * angle71 m,
          rOuSteelEnvelopeR1 m⟩,
       ⟨z0 + (dzFa - dzSteelEnvelopeR / 2),
          rInFaGraphiteCone1 + (dzFa - dzSteelEnvelopeR / 2 - (dzFaFlange + dzFaGraphiteConeS + dzFaWTube1C)) * angle71 m,
          rOuSteelEnvelopeR1 m, z0 + (dzFa - dzSteelEnvelopeR / 2),
          rInFaGraphiteCone1 + (dzFa - dzSteelEnvelopeR / 2 - (dzFaFlange + dzFaGraphiteConeS + dzFaWTube1C)) * angle71 m,
          rOuSteelEnvelopeR2⟩,
       ⟨z0 + (dzFa - dzSteelEnvelopeR / 2),
          rInFaGraphiteCone1 + (dzFa - dzSteelEnvelopeR / 2 - (dzFaFlange + dzFaGraphiteConeS + dzFaWTube1C)) * angle71 m,
          rOuSteelEnvelopeR2, z0 + (dzFa - dzSteelEnvelopeR / 2 + dzSteelEnvelopeR / 2),
          rInFaWTube4C2, rOuSteelEnvelopeR2⟩,
       ⟨z0 + (dzFa - dzSteelEnvelopeR / 2 + dzSteelEnvelopeR / 2), rInFaWTube4C2,
          rOuSteelEnvelopeR2, z0 + (dzFa - dzSteelEnvelopeR / 2 + dzSteelEnvelopeR / 2),
          rInFaCH2Cone2 - (dzSteelEnvelopeR / 2) * angle10 m, rOuSteelEnvelopeR2⟩,
       ⟨z0 + (dzFa - dzSteelEnvelopeR / 2 + dzSteelEnvelopeR / 2),
          rInFaCH2Cone2 - (dzSteelEnvelopeR / 2) * angle10 m, rOuSteelEnvelopeR2,
          z0 + (dzFa - dzSteelEnvelopeR / 2 + dzSteelEnvelopeR / 2 + dzSteelEnvelopeR / 2),
          rInFaCH2Cone2, rOuSteelEnvelopeR2⟩] := by
  rw [TGeoPcon.segments, shFaM_sections]
  rfl

/-- The stretches of the polycone `shFaAccM`, from its sections. -/
theorem shFaAccM_segments (m : TMath K) (z0 : K) :
    (shFaAccM m).segments z0 =
      [⟨z0 + 0, rInFaGraphiteCone1, rOuFaGraphiteCone1 m, z0 + (0 + dzFaGraphiteConeS),
          rInFaGraphiteCone1, rOuFaGraphiteCone2 m⟩,
       ⟨z0 + (0 + dzFaGraphiteConeS), rInFaGraphiteCone1, rOuFaGraphiteCone2 m,
          z0 + (0 + dzFaGraphiteConeS), rInFaGraphiteCone2, rOuFaGraphiteCone2 m⟩,
       ⟨z0 + (0 + dzFaGraphiteConeS), rInFaGraphiteCone2, rOuFaGraphiteCone2 m,
          z0 + dzFaGraphiteCone, rInFaGraphiteCone3, rOuFaGraphiteCone3 m⟩,
       ⟨z0 + dzFaGraphiteCone, rInFaGraphiteCone3, rOuFaGraphiteCone3 m,
          z0 + (dzFaGraphiteCone + dzFaConcreteCone + dzFaSteelCone25), rOuFaWTube3C2,
          (dzFaGraphiteCone + dzFaConcreteCone + dzFaSteelCone25 + zFa + dzFaFlange) * angle10 m⟩,
       ⟨z0 + (dzFaGraphiteCone + dzFaConcreteCone + dzFaSteelCone25), rOuFaWTube3C2,
          (dzFaGraphiteCone + dzFaConcreteCone + dzFaSteelCone25 + zFa + dzFaFlange) * angle10 m,
          z0 + (dzFaGraphiteCone + dzFaConcreteCone + dzFaSteelCone25), rOuFaWTube4C1,
          (dzFaGraphiteCone + dzFaConcreteCone + dzFaSteelCone25 + zFa + dzFaFlange) * angle10 m⟩,
       ⟨z0 + (dzFaGraphiteCone + dzFaConcreteCone + dzFaSteelCone25), rOuFaWTube4C1,
          (dzFaGraphiteCone + dzFaConcreteCone + dzFaSteelCone25 + zFa + dzFaFlange) * angle10 m,
          z0 + (dzFaGraphiteCone + dzFaConcreteCone + dzFaSteelCone25 + dzFaSteelCone31),
          rOuFaWTube4C2,
          (dzFaGraphiteCone + dzFaConcreteCone + dzFaSteelCone25 + zFa + dzFaFlange + dzFaSteelCone31) * angle10 m⟩] := rfl

/-! ### Embedded volumes -/

set_option maxHeartbeats 1000000 in
/-- The inner region of the W plate lies radially within the W plate. -/
theorem shFaWPlateAI_within (m : TMath K) (h10 : 0 ≤ angle10 m) (h24 : 0 ≤ angle24 m) :
    ∀ s ∈ (shFaWPlateAI m).segments 0, ∀ b ∈ (shFaWPlateA m).segments 0, s.Within b := by
  rw [shFaWPlateAI_segments, shFaWPlateA_segments]
  simp only [List.forall_mem_cons, List.not_mem_nil, false_implies, implies_true, and_true]
  refine ⟨⟨?_, ?_, ?_, ?_, ?_, ?_⟩, ⟨?_, ?_, ?_, ?_, ?_, ?_⟩, ⟨?_, ?_, ?_, ?_, ?_, ?_⟩,
    ⟨?_, ?_, ?_, ?_, ?_, ?_⟩⟩
  all_goals
    apply Segment.within_of_endpoints
    intro hov
    norm_num [Segment.Overlaps, Segment.rminAt, Segment.rmaxAt, interpolate, max_def, min_def,
      dzFaWPlateF, dzFaWPlateC1, dzFaWPlateC2, dzFaWPlateR, rInFaQPlateF, rOuFaQPlateF,
      rInFaQPlateC1, rOuFaQPlateC1, rInFaQPlateC2, rOuFaQPlateC2, rInFaQPlateC3, rOuFaQPlateC3,
      rInFaQPlateR, rOuFaQPlateR] at hov ⊢
  repeat' apply And.intro
  all_goals linarith

/-- The inner region of the lead cone lies radially within the lead cone. -/
theorem shFaPbConeI_within (m : TMath K) :
    ∀ s ∈ (shFaPbConeI m).segments 0, ∀ b ∈ (shFaPbCone m).segments 0, s.Within b := by
  rw [shFaPbConeI_segments, shFaPbCone_segments]
  simp only [List.forall_mem_cons, List.not_mem_nil, false_implies, implies_true, and_true]
  refine ⟨⟨?_, ?_⟩, ⟨?_, ?_⟩⟩
  all_goals
    apply Segment.within_of_endpoints
    intro hov
    norm_num [Segment.Overlaps, Segment.rminAt, Segment.rmaxAt, interpolate, max_def, min_def,
      dzFaPbCone5, dzFaPbCone10, rInFaPbCone5, rOuFaPbCone5, rInFaPbCone10, rOuFaPbCone10,
      rInFaPbConeE, rOuFaPbConeE] at hov ⊢

/-- The stretch of the steel plate "AFaSteelCone31". -/
theorem voFaSteelCone31_segments (med : Media) (m : TMath K) :
    (voFaSteelCone31 med m).segments 0 =
      [⟨0 - dzFaSteelCone31 / 2, rInFaSteelCone31A + eps, rOuFaSteelCone31A m - eps,
        0 + dzFaSteelCone31 / 2, rInFaSteelCone31B + eps, rOuFaSteelCone31B m - eps⟩] := rfl

/-- The stretch of the region "AFaSteelCone31I", in the frame of the steel plate. -/
theorem voFaSteelCone31_daughterSegments (med : Media) (m : TMath K) :
    (voFaSteelCone31 med m).daughterSegments =
      [("AFaSteelCone31I",
        [⟨dzFaSteelCone31 / 2 - 5 / 2 - 5 / 2, rInFaSteelCone31B - 5 * angle03 m + eps,
          rOuFaSteelCone31B m - 5 * angle10 m - eps, dzFaSteelCone31 / 2 - 5 / 2 + 5 / 2,
          rInFaSteelCone31B + eps, rOuFaSteelCone31B m - eps⟩])] := rfl

/-- The region "AFaSteelCone31I" lies within the steel plate "AFaSteelCone31" as soon as the
tangent of 3 degrees is at most 0.052415. -/
theorem voFaSteelCone31_embedded (med : Media) (m : TMath K) (h03 : angle03 m ≤ 0.052415) :
    EmbeddedWithin (voFaSteelCone31 med m) := by
  intro d hd s hs
  rw [voFaSteelCone31_daughterSegments] at hd
  rw [List.mem_singleton] at hd
  subst hd
  rw [List.mem_singleton] at hs
  subst hs
  refine ⟨⟨0 - dzFaSteelCone31 / 2, 0 + dzFaSteelCone31 / 2, rfl, ?_, ?_⟩, ?_, ?_⟩
  · norm_num [dzFaSteelCone31]
  · norm_num [dzFaSteelCone31]
  · intro _
    rw [voFaSteelCone31_segments]
    refine ⟨_, List.mem_singleton_self _, ?_, ?_⟩
    · norm_num [dzFaSteelCone31]
    · norm_num [dzFaSteelCone31]
  · rw [voFaSteelCone31_segments]
    intro b hb
    rw [List.mem_singleton] at hb
    subst hb
    apply Segment.within_of_endpoints
    intro hov
    norm_num at h03
    norm_num [Segment.Overlaps, Segment.rminAt, Segment.rmaxAt, interpolate, max_def, min_def,
      dzFaSteelCone31, rInFaSteelCone31A, rInFaSteelCone31B, rOuFaSteelCone31A,
      rOuFaSteelCone31B, rOuFaSteelCone25A, rOuFaSteelCone25B, rOuFaConcreteCone1,
      rOuFaConcreteCone2, rOuFaGraphiteCone3, rOuFaWTube4C1, rOuFaWTube4C2, eps, zFa,
      dzFaFlange, dzFaGraphiteCone, dzFaConcreteCone, dzFaSteelCone25] at hov ⊢
    repeat' apply And.intro
    all_goals linarith

/-- The inner region "AFaWPlateAI" lies within the W plate "AFaWPlateA" as soon as the tangents
of 10 and 24 degrees are not negative. -/
theorem voFaWPlateA_embedded (med : Media) (m : TMath K) (h10 : 0 ≤ angle10 m)
    (h24 : 0 ≤ angle24 m) : EmbeddedWithin (voFaWPlateA med m) := by
  have hd : (voFaWPlateA med m).daughterSegments =
      [("AFaWPlateAI", (shFaWPlateAI m).segments 0)] := rfl
  have hz : ((voFaWPlateA med m).shape.bind fun shape => zExtent shape 0) =
      some (0 + 0, 0 + (0 + dzFaWPlateF + dzFaWPlateC1 + dzFaWPlateC2 + dzFaWPlateR)) := rfl
  intro d hd' s hs
  rw [hd, List.mem_singleton] at hd'
  subst hd'
  have hb : (voFaWPlateA med m).segments 0 = (shFaWPlateA m).segments 0 := rfl
  refine ⟨⟨_, _, hz, ?_, ?_⟩, ?_, shFaWPlateAI_within m h10 h24 s hs⟩
  · revert s
    rw [shFaWPlateAI_segments]
    simp only [List.forall_mem_cons, List.not_mem_nil, false_implies, implies_true, and_true]
    norm_num [dzFaWPlateF, dzFaWPlateC1, dzFaWPlateC2, dzFaWPlateR]
  · revert s
    rw [shFaWPlateAI_segments]
    simp only [List.forall_mem_cons, List.not_mem_nil, false_implies, implies_true, and_true]
    norm_num [dzFaWPlateF, dzFaWPlateC1, dzFaWPlateC2, dzFaWPlateR]
  · revert s
    rw [hb, shFaWPlateAI_segments, shFaWPlateA_segments]
    simp only [List.forall_mem_cons, List.not_mem_nil, false_implies, implies_true, and_true]
    refine ⟨fun _ => ⟨_, mem_of_index _ 2 _ rfl, ?_, ?_⟩,
      fun _ => ⟨_, mem_of_index _ 3 _ rfl, ?_, ?_⟩, fun h => absurd h (lt_irrefl _),
      fun _ => ⟨_, mem_of_index _ 5 _ rfl, ?_, ?_⟩⟩
    all_goals norm_num [dzFaWPlateF, dzFaWPlateC1, dzFaWPlateC2, dzFaWPlateR]

/-- The inner region "AFaPbConeI" lies within the lead cone "AFaPbCone". -/
theorem voFaPbCone_embedded (med : Media) (m : TMath K) : EmbeddedWithin (voFaPbCone med m) := by
  have hd : (voFaPbCone med m).daughterSegments =
      [("AFaPbConeI", (shFaPbConeI m).segments 0)] := rfl
  have hz : ((voFaPbCone med m).shape.bind fun shape => zExtent shape 0) =
      some (0 + 0, 0 + (0 + dzFaPbCone5 + dzFaPbCone10)) := rfl
  intro d hd' s hs
  rw [hd, List.mem_singleton] at hd'
  subst hd'
  have hb : (voFaPbCone med m).segments 0 = (shFaPbCone m).segments 0 := rfl
  refine ⟨⟨_, _, hz, ?_, ?_⟩, ?_, shFaPbConeI_within m s hs⟩
  · revert s
    rw [shFaPbConeI_segments]
    simp only [List.forall_mem_cons, List.not_mem_nil, false_implies, implies_true, and_true]
    norm_num [dzFaPbCone5, dzFaPbCone10]
  · revert s
    rw [shFaPbConeI_segments]
    simp only [List.forall_mem_cons, List.not_mem_nil, false_implies, implies_true, and_true]
    norm_num [dzFaPbCone5, dzFaPbCone10]
  · revert s
    rw [hb, shFaPbConeI_segments, shFaPbCone_segments]
    simp only [List.forall_mem_cons, List.not_mem_nil, false_implies, implies_true, and_true]
    refine ⟨fun _ => ⟨_, mem_of_index _ 0 _ rfl, ?_, ?_⟩,
      fun _ => ⟨_, mem_of_index _ 1 _ rfl, ?_, ?_⟩⟩
    all_goals norm_num [dzFaPbCone5, dzFaPbCone10]

/-! ### The inner shield and the acceptance volume -/

/-- The stretches of the four tungsten tubes, in the frame of the inner shield. -/
theorem voFaInnerShield_daughterSegments (med : Media) :
    (voFaInnerShield med : TGeoVolume K).daughterSegments =
      [("AFaWTube1", (shFaWTube1 : TGeoPcon K).segments 0),
        ("AFaWTube2", (shFaWTube2 : TGeoPcon K).segments (dzFaWTube1 - 0.6)),
        ("AFaWTube3",
          [⟨dzFaWTube1 - 0.6 + dzFaWTube2 + dzFaWTube3 / 2 - dzFaWTube3 / 2, rInFaWTube3C1,
            rOuFaWTube3C1, dzFaWTube1 - 0.6 + dzFaWTube2 + dzFaWTube3 / 2 + dzFaWTube3 / 2,
            rInFaWTube3C2, rOuFaWTube3C2⟩]),
        ("AFaWTube4",
          [⟨dzFaWTube1 - 0.6 + dzFaWTube2 + dzFaWTube3 + dzFaWTube4 / 2 - dzFaWTube4 / 2,
            rInFaWTube4C1, rOuFaWTube4C1,
            dzFaWTube1 - 0.6 + dzFaWTube2 + dzFaWTube3 + dzFaWTube4 / 2 + dzFaWTube4 / 2,
            rInFaWTube4C2, rOuFaWTube4C2⟩])] := rfl

set_option maxHeartbeats 4000000 in
/-- Every stretch of the tungsten tubes, placed with the inner shield in the mother volume,
lies in the bore of the acceptance volume. -/
theorem voFaInnerShield_inBore (med : Media) (m : TMath K) :
    ∀ d ∈ (voFaInnerShield med : TGeoVolume K).daughterSegments, ∀ s ∈ d.2,
      ∀ b ∈ (shFaAccM m).segments dzFaFlange,
        (s.shift (dzFaGraphiteConeS + dzFaFlange)).InBore b := by
  rw [voFaInnerShield_daughterSegments, shFaWTube1_segments, shFaWTube2_segments,
    shFaAccM_segments]
  simp only [List.forall_mem_cons, List.not_mem_nil, false_implies, implies_true, and_true]
  repeat' apply And.intro
  all_goals
    apply Segment.inBore_of_endpoints
    intro hov
    norm_num [Segment.Overlaps, Segment.shift, Segment.rminAt, Segment.rmaxAt, interpolate,
      max_def, min_def, dzFaFlange, dzFaGraphiteConeS, dzFaGraphiteCone, dzFaConcreteCone,
      dzFaSteelCone25, dzFaSteelCone31, dzFaWTube1, dzFaWTube1C, dzFaWTube1R, dzFaWTube2,
      dzFaWTube2C, dzFaWTube2F, dzFaWTube3, dzFaWTube4, rInFaGraphiteCone1,
      rInFaGraphiteCone2, rInFaGraphiteCone3, rOuFaWTube1C1, rOuFaWTube1C2, rOuFaWTube1R,
      rOuFaWTube2C1, rOuFaWTube2C2, rOuFaWTube3C1, rOuFaWTube3C2, rOuFaWTube4C1,
      rOuFaWTube4C2] at hov ⊢

/-! ### The steel envelope and the mother volume -/

set_option maxHeartbeats 8000000 in
/-- The outer radius of the steel envelope "steelEnvC", placed at `dzFaWPlate` in the mother
volume, stays below the outer radius of the mother polycone `shFaM` under the bounds
`SharpAngleBounds` on the trigonometric constants. -/
theorem shFaSteelEnvelopeC_outerWithin (m : TMath K) (hb : SharpAngleBounds m) :
    ∀ s ∈ (shFaSteelEnvelopeC m).segments dzFaWPlate, ∀ b ∈ (shFaM m).segments 0,
      s.OuterWithin b := by
  obtain ⟨hc10, hc10u, h03, h05, h10, h24⟩ := hb
  have hi10 : 1 ≤ (m.Cos (10 * kDegRad m))⁻¹ := by
    rw [← inv_one]
    exact inv_anti₀ hc10 hc10u
  norm_num at h05 h10
  rw [shFaSteelEnvelopeC_segments, shFaM_segments]
  simp only [List.forall_mem_cons, List.not_mem_nil, false_implies, implies_true, and_true]
  repeat' apply And.intro
  all_goals
    apply Segment.outerWithin_of_endpoints
    intro hov
    norm_num [Segment.Overlaps, Segment.rminAt, Segment.rmaxAt, interpolate, max_def, min_def,
      dzFaWPlate, dzFaWPlateF, dzFaWPlateC1, dzFaWPlateC2, dzSteelEnvelopeFC,
      dzSteelEnvelopeC5, dzSteelEnvelopeC10, dzSteelEnvelopeR, dSteelEnvelope,
      rOuSteelEnvelopeFC1, rOuSteelEnvelopeFC2, rOuSteelEnvelopeC5, rInSteelEnvelopeC10,
      rOuSteelEnvelopeC10, rInSteelEnvelopeR1, rInSteelEnvelopeR2, rOuSteelEnvelopeR1,
      rOuSteelEnvelopeR2, dzFaMgRingO, dzFaMgRingI, rOuFaQPlateF, rOuFaQPlateC1,
      rOuFaQPlateC2, rOuFaQPlateC3, dzFaFlange, dzFaGraphiteConeS, dzFaWTube1C, dzFa,
      dzFaGraphiteCone, dzFaConcreteCone, dzFaSteelCone25, dzFaSteelCone31,
      div_eq_mul_inv] at hov ⊢
  all_goals repeat' apply And.intro
  all_goals linarith

/-! ### Sharper bounds on the real trigonometric constants -/

/-- An upper bound on the real tangent of 3 degrees, from the power series of sine and cosine. -/
theorem Real_tan_three_deg_le : Real.tan (3 * (Real.pi / 180)) ≤ (0.052415 : ℝ) := by
  have hpil : (3.1415 : ℝ) < Real.pi := Real.pi_gt_d4
  have hpiu : Real.pi < (3.1416 : ℝ) := Real.pi_lt_d4
  have hxl : (0.05235 : ℝ) ≤ 3 * (Real.pi / 180) := by linarith
  have hxu : 3 * (Real.pi / 180) ≤ (0.05236 : ℝ) := by linarith
  generalize 3 * (Real.pi / 180) = x at hxl hxu ⊢
  have hx0 : (0 : ℝ) ≤ x := by linarith
  have habs : |x| ≤ 1 := by rw [abs_of_nonneg hx0]; linarith
  have hs := (abs_le.mp (Real.sin_bound habs)).2
  have hc := (abs_le.mp (Real.cos_bound habs)).1
  rw [abs_of_nonneg hx0] at hs hc
  have h2 : x ^ 2 ≤ (0.05236 : ℝ) ^ 2 := pow_le_pow_left₀ hx0 hxu 2
  have h3 : (0.05235 : ℝ) ^ 3 ≤ x ^ 3 := pow_le_pow_left₀ (by norm_num) hxl 3
  have h4 : x ^ 4 ≤ (0.05236 : ℝ) ^ 4 := pow_le_pow_left₀ hx0 hxu 4
  have h40 : (0 : ℝ) ≤ x ^ 4 := by positivity
  norm_num at h2 h3 h4
  have hcpos : 0 < Real.cos x := by linarith
  rw [Real.tan_eq_sin_div_cos, div_le_iff₀ hcpos]
  linarith

/-- A lower bound on the real tangent of 10 degrees, from `sin 30° = 1 / 2` and the formula for
the sine of three times an angle. -/
theorem Real_le_tan_ten_deg : (0.17631 : ℝ) ≤ Real.tan (10 * (Real.pi / 180)) := by
  have hpil : (3.1415 : ℝ) < Real.pi := Real.pi_gt_d4
  have hpiu : Real.pi < (3.1416 : ℝ) := Real.pi_lt_d4
  have hx0 : 0 < 10 * (Real.pi / 180) := by linarith
  have hxu : 10 * (Real.pi / 180) < Real.pi / 2 := by linarith
  have hx18 : 10 * (Real.pi / 180) < 0.18 := by linarith
  have h3x : 3 * (10 * (Real.pi / 180)) = Real.pi / 6 := by ring
  generalize 10 * (Real.pi / 180) = x at hx0 hxu hx18 h3x ⊢
  have hs3 : 3 * Real.sin x - 4 * Real.sin x ^ 3 = 1 / 2 := by
    rw [← Real.sin_three_mul, h3x, Real.sin_pi_div_six]
  have hspos : 0 < Real.sin x := Real.sin_pos_of_pos_of_lt_pi hx0 (by linarith)
  have hsx : Real.sin x < x := Real.sin_lt hx0
  have hcpos : 0 < Real.cos x := Real.cos_pos_of_mem_Ioo ⟨by linarith, hxu⟩
  have hsc : Real.sin x ^ 2 + Real.cos x ^ 2 = 1 := Real.sin_sq_add_cos_sq x
  have hsl : (0.17364 : ℝ) ≤ Real.sin x := by
    by_contra hlt
    push_neg at hlt
    have hsu : Real.sin x < 0.18 := by linarith
    nlinarith [mul_pos hspos hspos, mul_pos (sub_pos.mpr hlt) hspos,
      mul_pos (sub_pos.mpr hlt) (sub_pos.mpr hlt)]
  rw [Real.tan_eq_sin_div_cos, le_div_iff₀ hcpos]
  by_contra hlt
  push_neg at hlt
  have h1 : Real.sin x ^ 2 < (0.17631 * Real.cos x) ^ 2 :=
    pow_lt_pow_left₀ hlt hspos.le (by norm_num)
  have h2 : (0.17364 : ℝ) ^ 2 ≤ Real.sin x ^ 2 := pow_le_pow_left₀ (by norm_num) hsl 2
  nlinarith

/-- The real tangents and cosines of the angles of `ConstructGeometry` satisfy
`SharpAngleBounds`. -/
theorem real_SharpAngleBounds :
    SharpAngleBounds (⟨Real.pi, Real.tan, Real.cos, Real.arctan⟩ : TMath ℝ) := by
  have hpil : (3.14 : ℝ) < Real.pi := Real.pi_gt_d2
  have hpiu : Real.pi < (3.15 : ℝ) := Real.pi_lt_d2
  refine ⟨?_, ?_, ?_, ?_, ?_, ?_⟩
  · show 0 < Real.cos (10 * (Real.pi / 180))
    exact Real.cos_pos_of_mem_Ioo ⟨by linarith, by linarith⟩
  · exact Real.cos_le_one _
  · exact Real_tan_three_deg_le
  · show Real.tan (5 * (Real.pi / 180)) ≤ (0.0886 : ℝ)
    have h1 : (0 : ℝ) < 5 * (Real.pi / 180) := by linarith
    have h2 : 5 * (Real.pi / 180) ≤ (0.0875 : ℝ) := by linarith
    apply Real_tan_le_of_le _ _ h1 (by linarith)
    nlinarith
  · exact Real_le_tan_ten_deg
  · show 0 ≤ Real.tan (24 * (Real.pi / 180))
    exact (Real.tan_pos_of_pos_of_lt_pi_div_two (by linarith) (by linarith)).le

/-! ### The outer radii of the acceptance stack -/

/-- The value at `z` of the line through `(z1, (c + z1) * a)` and `(z2, (c + z2) * a)`. -/
theorem interpolate_line (c a z1 z2 z : K) (h : z1 < z2) :
    interpolate z1 ((c + z1) * a) z2 ((c + z2) * a) z = (c + z) * a := by
  have hne : z2 - z1 ≠ 0 := sub_ne_zero.mpr (ne_of_gt h)
  rw [interpolate]
  field_simp
  ring

/-- The stretches of the four parts of the acceptance volume, in its frame. -/
theorem voFaAccM_daughterSegments (med : Media) (m : TMath K) :
    (voFaAccM med m).daughterSegments =
      [("AFaGraphiteCone", (shFaGraphiteCone m).segments 0),
        ("AFaConcreteCone",
          [⟨0 + dzFaGraphiteCone + dzFaConcreteCone / 2 - dzFaConcreteCone / 2,
            rInFaConcreteCone1, rOuFaConcreteCone1 m,
            0 + dzFaGraphiteCone + dzFaConcreteCone / 2 + dzFaConcreteCone / 2,
            rInFaConcreteCone2 m, rOuFaConcreteCone2 m⟩]),
        ("AFaSteelCone25",
          [⟨0 + dzFaGraphiteCone + dzFaConcreteCone + dzFaSteelCone25 / 2 - dzFaSteelCone25 / 2,
            rInFaSteelCone25A m + eps, rOuFaSteelCone25A m - eps,
            0 + dzFaGraphiteCone + dzFaConcreteCone + dzFaSteelCone25 / 2 + dzFaSteelCone25 / 2,
            rInFaSteelCone25B m + eps, rOuFaSteelCone25B m - eps⟩]),
        ("AFaSteelCone31",
          [⟨0 + dzFaGraphiteCone + dzFaConcreteCone + dzFaSteelCone25 + dzFaSteelCone31 / 2 -
              dzFaSteelCone31 / 2,
            rInFaSteelCone31A + eps, rOuFaSteelCone31A m - eps,
            0 + dzFaGraphiteCone + dzFaConcreteCone + dzFaSteelCone25 + dzFaSteelCone31 / 2 +
              dzFaSteelCone31 / 2,
            rInFaSteelCone31B + eps, rOuFaSteelCone31B m - eps⟩])] := rfl

/-- The nominal outer radii of the acceptance stack, as multiples of `angle10`. -/
theorem rOuFa_on_line (m : TMath K) :
    rOuFaGraphiteCone1 m = (92 + 0) * angle10 m ∧
      rOuFaGraphiteCone2 m = (92 + 108.3) * angle10 m ∧
      rOuFaGraphiteCone3 m = (92 + 225) * angle10 m ∧
      rOuFaConcreteCone2 m = (92 + 351) * angle10 m ∧
      rOuFaSteelCone25B m = (92 + 376) * angle10 m ∧
      rOuFaSteelCone31B m = (92 + 407) * angle10 m := by
  refine ⟨?_, ?_, ?_, ?_, ?_, ?_⟩
  all_goals
    simp only [rOuFaGraphiteCone1, rOuFaGraphiteCone2, rOuFaGraphiteCone3, rOuFaConcreteCone1,
      rOuFaConcreteCone2, rOuFaSteelCone25A, rOuFaSteelCone25B, rOuFaSteelCone31A,
      rOuFaSteelCone31B, zFa, dzFaFlange, dzFaGraphiteConeS, dzFaGraphiteCone, dzFaConcreteCone,
      dzFaSteelCone25, dzFaSteelCone31]
    ring

/-- C21: the outer radii of the acceptance stack lie on one line of slope `angle10`, whatever the
value of `angle10`. At each boundary z of 0, 108.3, 225, 351, 376 and 407 in the frame of
"AFaAcc" the nominal outer radius of the graphite cone, the concrete cone and the 25 cm and 31 cm
steel plates is `(zFa + dzFaFlange + z) * angle10` = `(92 + z) * angle10`; the rear outer radius
of each part is the front outer radius of the next; the outer radii of the two steel plates are
the nominal values less `eps` = 0.001; and the outer radii of the sections 0 to 6 of `shFaAccM`
are the same values, so that the outer radius of `shFaAccM` is `(92 + z) * angle10` at every
`z`. -/
theorem acceptance_outer_radii_on_line (med : Media) (m : TMath K) :
    ((zFa + dzFaFlange : K) = 92 ∧ (eps : K) = 0.001) ∧
      (∀ p ∈ [((0 : K), rOuFaGraphiteCone1 m), (108.3, rOuFaGraphiteCone2 m),
          (225, rOuFaGraphiteCone3 m), (225, rOuFaConcreteCone1 m),
          (351, rOuFaConcreteCone2 m), (351, rOuFaSteelCone25A m),
          (376, rOuFaSteelCone25B m), (376, rOuFaSteelCone31A m),
          (407, rOuFaSteelCone31B m)],
        p.2 = (zFa + dzFaFlange + p.1) * angle10 m ∧ p.2 = (92 + p.1) * angle10 m) ∧
      (rOuFaGraphiteCone3 m = rOuFaConcreteCone1 m ∧
        rOuFaConcreteCone2 m = rOuFaSteelCone25A m ∧
        rOuFaSteelCone25B m = rOuFaSteelCone31A m) ∧
      (voFaAccM med m).daughterSegments.map
          (fun d => (d.1, d.2.map fun s => (s.z1, s.rmax1, s.z2, s.rmax2))) =
        [("AFaGraphiteCone",
            [(0, rOuFaGraphiteCone1 m, 108.3, rOuFaGraphiteCone2 m),
              (108.3, rOuFaGraphiteCone2 m, 108.3, rOuFaGraphiteCone2 m),
              (108.3, rOuFaGraphiteCone2 m, 225, rOuFaGraphiteCone3 m)]),
          ("AFaConcreteCone", [(225, rOuFaConcreteCone1 m, 351, rOuFaConcreteCone2 m)]),
          ("AFaSteelCone25",
            [(351, rOuFaSteelCone25A m - eps, 376, rOuFaSteelCone25B m - eps)]),
          ("AFaSteelCone31",
            [(376, rOuFaSteelCone31A m - eps, 407, rOuFaSteelCone31B m - eps)])] ∧
      (shFaAccM m).sections.map (fun s => (s.z, s.rmax)) =
        [(0, rOuFaGraphiteCone1 m), (108.3, rOuFaGraphiteCone2 m),
          (108.3, rOuFaGraphiteCone2 m), (225, rOuFaGraphiteCone3 m),
          (376, rOuFaSteelCone25B m), (376, rOuFaSteelCone31A m),
          (407, rOuFaSteelCone31B m)] ∧
      (∀ i < 7, (shFaAccM m).GetRmax i = (92 + (shFaAccM m).GetZ i) * angle10 m) ∧
      ∀ s ∈ (shFaAccM m).segments 0, s.z1 < s.z2 → ∀ z, s.rmaxAt z = (92 + z) * angle10 m := by
  obtain ⟨e1, e2, e3, e4, e5, e6⟩ := rOuFa_on_line m
  have c1 : rOuFaConcreteCone1 m = rOuFaGraphiteCone3 m := rfl
  have c2 : rOuFaSteelCone25A m = rOuFaConcreteCone2 m := rfl
  have c3 : rOuFaSteelCone31A m = rOuFaSteelCone25B m := rfl
  have h92 : (zFa + dzFaFlange : K) = 92 := by norm_num [zFa, dzFaFlange]
  have hsec : (shFaAccM m).sections =
      [⟨0, rInFaGraphiteCone1, rOuFaGraphiteCone1 m⟩,
        ⟨0 + dzFaGraphiteConeS, rInFaGraphiteCone1, rOuFaGraphiteCone2 m⟩,
        ⟨0 + dzFaGraphiteConeS, rInFaGraphiteCone2, rOuFaGraphiteCone2 m⟩,
        ⟨dzFaGraphiteCone, rInFaGraphiteCone3, rOuFaGraphiteCone3 m⟩,
        ⟨dzFaGraphiteCone + dzFaConcreteCone + dzFaSteelCone25, rOuFaWTube3C2,
          (dzFaGraphiteCone + dzFaConcreteCone + dzFaSteelCone25 + zFa + dzFaFlange) *
            angle10 m⟩,
        ⟨dzFaGraphiteCone + dzFaConcreteCone + dzFaSteelCone25, rOuFaWTube4C1,
          (dzFaGraphiteCone + dzFaConcreteCone + dzFaSteelCone25 + zFa + dzFaFlange) *
            angle10 m⟩,
        ⟨dzFaGraphiteCone + dzFaConcreteCone + dzFaSteelCone25 + dzFaSteelCone31,
          rOuFaWTube4C2,
          (dzFaGraphiteCone + dzFaConcreteCone + dzFaSteelCone25 + zFa + dzFaFlange +
            dzFaSteelCone31) * angle10 m⟩] := rfl
  have h5 : (dzFaGraphiteCone + dzFaConcreteCone + dzFaSteelCone25 + zFa + dzFaFlange : K) =
      92 + 376 := by
    norm_num [dzFaGraphiteCone, dzFaConcreteCone, dzFaSteelCone25, zFa, dzFaFlange]
  have h6 : (dzFaGraphiteCone + dzFaConcreteCone + dzFaSteelCone25 + zFa + dzFaFlange +
      dzFaSteelCone31 : K) = 92 + 407 := by
    norm_num [dzFaGraphiteCone, dzFaConcreteCone, dzFaSteelCone25, zFa, dzFaFlange,
      dzFaSteelCone31]
  have hz1 : (0 + dzFaGraphiteConeS : K) = 108.3 := by norm_num [dzFaGraphiteConeS]
  have hz3 : (dzFaGraphiteCone : K) = 225 := by norm_num [dzFaGraphiteCone]
  have hz4 : (dzFaGraphiteCone + dzFaConcreteCone + dzFaSteelCone25 : K) = 376 := by
    norm_num [dzFaGraphiteCone, dzFaConcreteCone, dzFaSteelCone25]
  have hz6 : (dzFaGraphiteCone + dzFaConcreteCone + dzFaSteelCone25 + dzFaSteelCone31 : K) =
      407 := by
    norm_num [dzFaGraphiteCone, dzFaConcreteCone, dzFaSteelCone25, dzFaSteelCone31]
  have hsec' : (shFaAccM m).sections =
      [⟨0, rInFaGraphiteCone1, rOuFaGraphiteCone1 m⟩,
        ⟨108.3, rInFaGraphiteCone1, rOuFaGraphiteCone2 m⟩,
        ⟨108.3, rInFaGraphiteCone2, rOuFaGraphiteCone2 m⟩,
        ⟨225, rInFaGraphiteCone3, rOuFaGraphiteCone3 m⟩,
        ⟨376, rOuFaWTube3C2, (92 + 376) * angle10 m⟩,
        ⟨376, rOuFaWTube4C1, (92 + 376) * angle10 m⟩,
        ⟨407, rOuFaWTube4C2, (92 + 407) * angle10 m⟩] := by
    rw [hsec, h6, h5, hz6, hz4, hz1, hz3]
  refine ⟨⟨h92, rfl⟩, ?_, ⟨rfl, rfl, rfl⟩, ?_, ?_, ?_, ?_⟩
  · rw [h92, c1, c2, c3]
    simp only [List.forall_mem_cons, List.not_mem_nil, false_implies, implies_true, and_true,
      and_self]
    exact ⟨e1, e2, e3, e3, e4, e4, e5, e5, e6⟩
  · rw [voFaAccM_daughterSegments, shFaGraphiteCone_segments]
    simp only [List.map]
    norm_num [dzFaGraphiteConeS, dzFaGraphiteCone, dzFaConcreteCone, dzFaSteelCone25,
      dzFaSteelCone31]
  · rw [hsec', c3, e5, e6]
    rfl
  · intro i hi
    simp only [TGeoPcon.GetRmax, TGeoPcon.GetZ, hsec']
    interval_cases i
    · exact e1
    · exact e2
    · exact e2
    · exact e3
    · rfl
    · rfl
    · rfl
  · rw [shFaAccM_segments, h6, h5, hz6, hz4, hz1, hz3]
    simp only [List.forall_mem_cons, List.not_mem_nil, false_implies, implies_true, and_true,
      zero_add, e1, e2, e3]
    refine ⟨?_, ?_, ?_, ?_, ?_, ?_⟩
    all_goals
      intro h z
      first
        | exact absurd h (lt_irrefl _)
        | exact interpolate_line 92 (angle10 m) _ _ z h

/-! ### Extents along `z` in the mother volume -/

/-- Extent in `z` of the polycone `shFaSteelEnvelopeC`. -/
theorem shFaSteelEnvelopeC_zRange (m : TMath K) : (shFaSteelEnvelopeC m).zRange = (0, 400) := by
  have h : (shFaSteelEnvelopeC m).zRange =
      (0, 0 + dzSteelEnvelopeFC + dzSteelEnvelopeC5 + dzSteelEnvelopeC10 + dzSteelEnvelopeR) :=
    rfl
  rw [h]
  norm_num [dzSteelEnvelopeFC, dzSteelEnvelopeC5, dzSteelEnvelopeC10, dzSteelEnvelopeR]

/-- C23: each of the three embedded volumes lies within its bulk volume, the angle constants
being the real tangents of 3, 10 and 24 degrees. "AFaWPlateAI" is placed with the identity in
"AFaWPlateA", "AFaPbConeI" with the identity in "AFaPbCone" and "AFaSteelCone31I" at
z = `dzFaSteelCone31 / 2 - 2.5` = 13 in "AFaSteelCone31". Every stretch of the embedded volume
stays in the extent of the bulk volume along `z`, lies between the planes of one stretch of the
bulk volume, and at every `z` it shares with a stretch of the bulk volume its inner radius is at
least that of the bulk volume and its outer radius at most that of the bulk volume, the radii
being linear in `z` between consecutive sections. -/
theorem embedded_volumes_within_bulk (med : Media) :
    (dzFaSteelCone31 / 2 - 2.5 : ℝ) = 13 ∧
      ∀ v ∈ ([voFaWPlateA, voFaPbCone, voFaSteelCone31].map fun f =>
          f med (⟨Real.pi, Real.tan, Real.cos, Real.arctan⟩ : TMath ℝ)),
        (v.name, v.placements) ∈
            [("AFaWPlateA", [("AFaWPlateAI", 1, TGeoMatrix.identity)]),
              ("AFaPbCone", [("AFaPbConeI", 1, TGeoMatrix.identity)]),
              ("AFaSteelCone31", [("AFaSteelCone31I", 1, TGeoMatrix.translation 0 0 13)])] ∧
          v.daughterSegments ≠ [] ∧ EmbeddedWithin v := by
  have hb := real_SharpAngleBounds
  have h10 : 0 ≤ angle10 (⟨Real.pi, Real.tan, Real.cos, Real.arctan⟩ : TMath ℝ) :=
    le_trans (by norm_num) hb.angle10_lower
  have h13 : (dzFaSteelCone31 / 2 - 5 / 2 : ℝ) = 13 := by norm_num [dzFaSteelCone31]
  have hs : ∀ m : TMath ℝ, (voFaSteelCone31 med m).placements =
      [("AFaSteelCone31I", 1, .translation 0 0 13)] := by
    intro m
    rw [← h13]
    rfl
  refine ⟨by norm_num [dzFaSteelCone31], ?_⟩
  simp only [List.map, List.forall_mem_cons, List.not_mem_nil, false_implies, implies_true,
    and_true]
  refine ⟨⟨?_, ?_, voFaWPlateA_embedded med _ h10 hb.angle24_nonneg⟩,
    ⟨?_, ?_, voFaPbCone_embedded med _⟩,
    ⟨?_, ?_, voFaSteelCone31_embedded med _ hb.angle03_upper⟩⟩
  · exact List.mem_cons_self _ _
  · intro h
    exact List.noConfusion (congrArg (List.map fun d => d.1) h)
  · exact mem_of_index _ 1 _ rfl
  · intro h
    exact List.noConfusion (congrArg (List.map fun d => d.1) h)
  · rw [hs]
    exact mem_of_index _ 2 _ rfl
  · rw [voFaSteelCone31_daughterSegments]
    exact List.cons_ne_nil _ _

/-! ### The outer region of the graphite cone -/

/-- C24: the region "AFaGraphiteConeO" of the graphite cone coincides with the front 50 cm of the
cone. On a fresh registry the graphite cone "AFaGraphiteCone" is made of the medium "ABSO_C_C2"
and the region of the medium "ABSO_C_C0". The region, a cone 50 long, is placed at z = 25, so
that it spans [0, 50], within the first stretch [0, 108.3] of the graphite cone; at every `z` of
[0, 50] its inner radius is `rInFaGraphiteCone1` = 4.5 and its outer radius is
`rOuFaGraphiteCone1 + z * angle10`, and both are the inner and the outer radius of the graphite
cone at that `z`, whatever the value of `angle10`. -/
theorem graphite_outer_region_coincides (init : Int → ℚ → Int × ℚ) (m : TMath K) :
    ∃ med, ConstructGeometry_media init VMC.empty = some (med, registered init) ∧
      (voFaGraphiteCone med m).medium.map (fun x => x.name) = some "ABSO_C_C2" ∧
      (voFaGraphiteCone med m).nodes.map (fun n => (n.1.name, n.1.medium.map fun x => x.name)) =
        [("AFaGraphiteConeO", some "ABSO_C_C0")] ∧
      (voFaGraphiteCone med m).placements =
        [("AFaGraphiteConeO", 1, .translation 0 0 25)] ∧
      (voFaGraphiteCone med m).daughterExtents = [("AFaGraphiteConeO", 0, 50)] ∧
      (voFaGraphiteCone med m).daughterSegments =
        [("AFaGraphiteConeO",
          [⟨0, rInFaGraphiteCone1, rOuFaGraphiteCone1 m, 50, rInFaGraphiteCone1,
            rOuFaGraphiteCone1 m + 50 * angle10 m⟩])] ∧
      (rInFaGraphiteCone1 : K) = 4.5 ∧
      ∃ b ∈ (voFaGraphiteCone med m).segments 0, (b.z1 = 0 ∧ b.z2 = 108.3) ∧
        ∀ d ∈ (voFaGraphiteCone med m).daughterSegments, ∀ s ∈ d.2,
          (s.z1 = 0 ∧ s.z2 = 50) ∧
            ∀ z, 0 ≤ z → z ≤ 50 →
              (s.Common b z ∧ s.rminAt z = 4.5 ∧ b.rminAt z = 4.5) ∧
                s.rmaxAt z = rOuFaGraphiteCone1 m + z * angle10 m ∧
                b.rmaxAt z = rOuFaGraphiteCone1 m + z * angle10 m := by
  obtain ⟨med, hmed, hn⟩ := ConstructGeometry_media_fresh init
  simp only [List.cons.injEq, Prod.mk.injEq, and_true] at hn
  obtain ⟨-, -, -, -, -, -, -, -, -, ⟨-, n10⟩, ⟨-, n11⟩, -, -⟩ := hn
  have h25 : ((50 : K) / 2) = 25 := by norm_num
  have hp : (voFaGraphiteCone med m).placements =
      [("AFaGraphiteConeO", 1, .translation 0 0 25)] := by
    rw [← h25]
    rfl
  have hraw : (voFaGraphiteCone med m).daughterSegments =
      [("AFaGraphiteConeO",
        [⟨50 / 2 - 50 / 2, rInFaGraphiteCone1, rOuFaGraphiteCone1 m, 50 / 2 + 50 / 2,
          rInFaGraphiteCone1, rOuFaGraphiteCone1 m + 50 * angle10 m⟩])] := rfl
  have hseg : (voFaGraphiteCone med m).daughterSegments =
      [("AFaGraphiteConeO",
        [⟨0, rInFaGraphiteCone1, rOuFaGraphiteCone1 m, 50, rInFaGraphiteCone1,
          rOuFaGraphiteCone1 m + 50 * angle10 m⟩])] := by
    rw [hraw]
    norm_num
  have hextraw : (voFaGraphiteCone med m).daughterExtents =
      [("AFaGraphiteConeO", 50 / 2 - 50 / 2, 50 / 2 + 50 / 2)] := rfl
  have hbulk : (voFaGraphiteCone med m).segments 0 = (shFaGraphiteCone m).segments 0 := rfl
  refine ⟨med, hmed, ?_, ?_, hp, ?_, hseg, by norm_num [rInFaGraphiteCone1], ?_⟩
  · show some med.kMedCsh.name = _
    rw [n11]
  · show [("AFaGraphiteConeO", some med.kMedC.name)] = _
    rw [n10]
  · rw [hextraw]
    norm_num
  · rw [hbulk, hseg, shFaGraphiteCone_segments]
    refine ⟨_, mem_of_index _ 0 _ rfl, ⟨by norm_num, by norm_num [dzFaGraphiteConeS]⟩, ?_⟩
    intro d hd s hs
    rw [List.mem_singleton] at hd
    subst hd
    rw [List.mem_singleton] at hs
    subst hs
    refine ⟨⟨rfl, rfl⟩, ?_⟩
    intro z h0 h50
    have e2 : rOuFaGraphiteCone2 m = rOuFaGraphiteCone1 m + 108.3 * angle10 m := by
      simp only [rOuFaGraphiteCone1, rOuFaGraphiteCone2, dzFaGraphiteConeS]
      ring
    rw [e2]
    refine ⟨⟨?_, ?_, ?_⟩, ?_, ?_⟩
    · norm_num [Segment.Common, Segment.Overlaps, max_def, min_def, dzFaGraphiteConeS]
      exact ⟨h0, h50⟩
    · norm_num [Segment.rminAt, interpolate, rInFaGraphiteCone1]
    · norm_num [Segment.rminAt, interpolate, rInFaGraphiteCone1]
    · norm_num [Segment.rmaxAt, interpolate]
      ring
    · norm_num [Segment.rmaxAt, interpolate, dzFaGraphiteConeS]
      ring

/-! ### The inner shield in the bore of the acceptance volume -/

/-- Every `z` between 110.3 and 409 of the mother volume lies on a stretch of a tungsten tube and
on a stretch of the acceptance volume that share a range of `z`. -/
theorem voFaInnerShield_covers (med : Media) (m : TMath K) (z : K) (h1 : 110.3 ≤ z)
    (h2 : z ≤ 409) :
    ∃ d ∈ (voFaInnerShield med : TGeoVolume K).daughterSegments, ∃ s ∈ d.2,
      ∃ b ∈ (shFaAccM m).segments dzFaFlange,
        (s.shift (dzFaGraphiteConeS + dzFaFlange)).Common b z := by
  rw [voFaInnerShield_daughterSegments, shFaWTube1_segments, shFaWTube2_segments,
    shFaAccM_segments]
  norm_num at h1 h2
  rcases le_total z 209.1 with h | h
  · refine ⟨_, mem_of_index _ 0 _ rfl, _, mem_of_index _ 0 _ rfl, _, mem_of_index _ 2 _ rfl, ?_⟩
    norm_num at h
    norm_num [Segment.Common, Segment.Overlaps, Segment.shift, max_def, min_def, dzFaFlange,
      dzFaGraphiteConeS, dzFaGraphiteCone, dzFaWTube1C]
    exact ⟨h1, h⟩
  rcases le_total z 210.1 with h' | h'
  · refine ⟨_, mem_of_index _ 0 _ rfl, _, mem_of_index _ 2 _ rfl, _, mem_of_index _ 2 _ rfl, ?_⟩
    norm_num at h h'
    norm_num [Segment.Common, Segment.Overlaps, Segment.shift, max_def, min_def, dzFaFlange,
      dzFaGraphiteConeS, dzFaGraphiteCone, dzFaWTube1C, dzFaWTube1R]
    exact ⟨h, h'⟩
  rcases le_total z 227 with h'' | h''
  · refine ⟨_, mem_of_index _ 1 _ rfl, _, mem_of_index _ 2 _ rfl, _, mem_of_index _ 2 _ rfl, ?_⟩
    norm_num at h h' h''
    norm_num [Segment.Common, Segment.Overlaps, Segment.shift, max_def, min_def, dzFaFlange,
      dzFaGraphiteConeS, dzFaGraphiteCone, dzFaWTube1, dzFaWTube1C, dzFaWTube1R, dzFaWTube2F,
      dzFaWTube2C]
    exact ⟨h', h''⟩
  rcases le_total z 353 with h3 | h3
  · refine ⟨_, mem_of_index _ 1 _ rfl, _, mem_of_index _ 2 _ rfl, _, mem_of_index _ 3 _ rfl, ?_⟩
    norm_num [Segment.Common, Segment.Overlaps, Segment.shift, max_def, min_def, dzFaFlange,
      dzFaGraphiteConeS, dzFaGraphiteCone, dzFaConcreteCone, dzFaSteelCone25, dzFaWTube1,
      dzFaWTube1C, dzFaWTube1R, dzFaWTube2F, dzFaWTube2C]
    exact ⟨h'', h3⟩
  rcases le_total z 378 with h4 | h4
  · refine ⟨_, mem_of_index _ 2 _ rfl, _, mem_of_index _ 0 _ rfl, _, mem_of_index _ 3 _ rfl, ?_⟩
    norm_num [Segment.Common, Segment.Overlaps, Segment.shift, max_def, min_def, dzFaFlange,
      dzFaGraphiteConeS, dzFaGraphiteCone, dzFaConcreteCone, dzFaSteelCone25, dzFaWTube1,
      dzFaWTube1C, dzFaWTube1R, dzFaWTube2, dzFaWTube2F, dzFaWTube2C, dzFaWTube3]
    exact ⟨h3, h4⟩
  · refine ⟨_, mem_of_index _ 3 _ rfl, _, mem_of_index _ 0 _ rfl, _, mem_of_index _ 5 _ rfl, ?_⟩
    norm_num [Segment.Common, Segment.Overlaps, Segment.shift, max_def, min_def, dzFaFlange,
      dzFaGraphiteConeS, dzFaGraphiteCone, dzFaConcreteCone, dzFaSteelCone25, dzFaSteelCone31,
      dzFaWTube1, dzFaWTube1C, dzFaWTube1R, dzFaWTube2, dzFaWTube2F, dzFaWTube2C, dzFaWTube3,
      dzFaWTube4]
    exact ⟨h4, h2⟩

/-- C25: the inner shield and the acceptance volume, both placed in the mother volume, do not
overlap. The assembly "AFaInnerShield" is placed at z = 110.3 and "AFaAcc" at z = 2; in the frame
of the mother volume the four tungsten tubes span [110.3, 210.1], [209.5, 353], [353, 378] and
[378, 409], and the polycone `shFaAccM` spans [2, 409]. Every `z` of [110.3, 409] lies on a
stretch of a tube and a stretch of `shFaAccM` that share a range of `z`, and wherever two such
stretches share a `z` the outer radius of the tube, linear between its sections, is at most the
inner radius of `shFaAccM`. The two surfaces touch along tube 4, whose outer radius is the inner
radius of `shFaAccM` at every `z`, and at the rear end of tube 3, z = 378, where both radii are
16.175. -/
theorem innerShield_in_acceptance_bore (med : Media) (m : TMath K) :
    (voFaM med m).placements.filter (fun p => p.1 == "AFaInnerShield" || p.1 == "AFaAcc") =
        [("AFaInnerShield", 1, .translation 0 0 (dzFaGraphiteConeS + dzFaFlange)),
          ("AFaAcc", 1, .translation 0 0 dzFaFlange)] ∧
      (dzFaGraphiteConeS + dzFaFlange : K) = 110.3 ∧ (dzFaFlange : K) = 2 ∧
      (voFaInnerShield med : TGeoVolume K).daughterExtents.map
          (fun e => (e.1, dzFaGraphiteConeS + dzFaFlange + e.2.1,
            dzFaGraphiteConeS + dzFaFlange + e.2.2)) =
        [("AFaWTube1", 110.3, 210.1), ("AFaWTube2", 209.5, 353), ("AFaWTube3", 353, 378),
          ("AFaWTube4", 378, 409)] ∧
      (voFaAccM med m).shape = some (.pcon (shFaAccM m)) ∧
      zExtent (.pcon (shFaAccM m)) dzFaFlange = some (2, 409) ∧
      (∀ z : K, 110.3 ≤ z → z ≤ 409 →
        ∃ d ∈ (voFaInnerShield med : TGeoVolume K).daughterSegments, ∃ s ∈ d.2,
          ∃ b ∈ (shFaAccM m).segments dzFaFlange,
            (s.shift (dzFaGraphiteConeS + dzFaFlange)).Common b z) ∧
      (∀ d ∈ (voFaInnerShield med : TGeoVolume K).daughterSegments, ∀ s ∈ d.2,
        ∀ b ∈ (shFaAccM m).segments dzFaFlange,
          (s.shift (dzFaGraphiteConeS + dzFaFlange)).InBore b) ∧
      (∃ d ∈ (voFaInnerShield med : TGeoVolume K).daughterSegments, ∃ s ∈ d.2,
        ∃ b ∈ (shFaAccM m).segments dzFaFlange,
          d.1 = "AFaWTube4" ∧
            ((s.shift (dzFaGraphiteConeS + dzFaFlange)).z1 = 378 ∧
              (s.shift (dzFaGraphiteConeS + dzFaFlange)).z2 = 409) ∧
            (b.z1 = 378 ∧ b.z2 = 409) ∧
            ∀ z, (s.shift (dzFaGraphiteConeS + dzFaFlange)).rmaxAt z = b.rminAt z) ∧
      ∃ d ∈ (voFaInnerShield med : TGeoVolume K).daughterSegments, ∃ s ∈ d.2,
        ∃ b ∈ (shFaAccM m).segments dzFaFlange,
          d.1 = "AFaWTube3" ∧ (s.shift (dzFaGraphiteConeS + dzFaFlange)).z2 = 378 ∧
            b.z2 = 378 ∧ (s.shift (dzFaGraphiteConeS + dzFaFlange)).rmaxAt 378 = 16.175 ∧
            b.rminAt 378 = 16.175 := by
  have hext : (voFaInnerShield med : TGeoVolume K).daughterExtents.map
      (fun e => (e.1, dzFaGraphiteConeS + dzFaFlange + e.2.1,
        dzFaGraphiteConeS + dzFaFlange + e.2.2)) =
      [("AFaWTube1", 110.3, 210.1), ("AFaWTube2", 209.5, 353), ("AFaWTube3", 353, 378),
        ("AFaWTube4", 378, 409)] := by
    rw [voFaInnerShield_daughterExtents, shFaWTube1_zRange, shFaWTube2_zRange]
    simp only [List.map, dzFaGraphiteConeS, dzFaFlange, dzFaWTube1, dzFaWTube1C, dzFaWTube1R,
      dzFaWTube2, dzFaWTube2C, dzFaWTube2F, dzFaWTube3, dzFaWTube4]
    norm_num
  have hacc : zExtent (.pcon (shFaAccM m)) (dzFaFlange : K) = some (2, 409) := by
    rw [zExtent, shFaAccM_zRange]
    norm_num [dzFaFlange]
  refine ⟨rfl, by norm_num [dzFaGraphiteConeS, dzFaFlange], rfl, hext, rfl, hacc,
    voFaInnerShield_covers med m, voFaInnerShield_inBore med m, ?_, ?_⟩
  · rw [voFaInnerShield_daughterSegments, shFaAccM_segments]
    refine ⟨_, mem_of_index _ 3 _ rfl, _, mem_of_index _ 0 _ rfl, _, mem_of_index _ 5 _ rfl,
      rfl, ⟨?_, ?_⟩, ⟨?_, ?_⟩, ?_⟩
    · norm_num [Segment.shift, dzFaFlange, dzFaGraphiteConeS, dzFaWTube1, dzFaWTube1C,
        dzFaWTube1R, dzFaWTube2, dzFaWTube2F, dzFaWTube2C, dzFaWTube3, dzFaWTube4]
    · norm_num [Segment.shift, dzFaFlange, dzFaGraphiteConeS, dzFaWTube1, dzFaWTube1C,
        dzFaWTube1R, dzFaWTube2, dzFaWTube2F, dzFaWTube2C, dzFaWTube3, dzFaWTube4]
    · norm_num [dzFaFlange, dzFaGraphiteCone, dzFaConcreteCone, dzFaSteelCone25]
    · norm_num [dzFaFlange, dzFaGraphiteCone, dzFaConcreteCone, dzFaSteelCone25,
        dzFaSteelCone31]
    · intro z
      norm_num [Segment.shift, Segment.rminAt, Segment.rmaxAt, interpolate, dzFaFlange,
        dzFaGraphiteConeS, dzFaGraphiteCone, dzFaConcreteCone, dzFaSteelCone25,
        dzFaSteelCone31, dzFaWTube1, dzFaWTube1C, dzFaWTube1R, dzFaWTube2, dzFaWTube2F,
        dzFaWTube2C, dzFaWTube3, dzFaWTube4]
  · rw [voFaInnerShield_daughterSegments, shFaAccM_segments]
    refine ⟨_, mem_of_index _ 2 _ rfl, _, mem_of_index _ 0 _ rfl, _, mem_of_index _ 3 _ rfl,
      rfl, ?_, ?_, ?_, ?_⟩
    · norm_num [Segment.shift, dzFaFlange, dzFaGraphiteConeS, dzFaWTube1, dzFaWTube1C,
        dzFaWTube1R, dzFaWTube2, dzFaWTube2F, dzFaWTube2C, dzFaWTube3]
    · norm_num [dzFaFlange, dzFaGraphiteCone, dzFaConcreteCone, dzFaSteelCone25]
    · norm_num [Segment.shift, Segment.rmaxAt, interpolate, dzFaFlange, dzFaGraphiteConeS,
        dzFaWTube1, dzFaWTube1C, dzFaWTube1R, dzFaWTube2, dzFaWTube2F, dzFaWTube2C, dzFaWTube3,
        rOuFaWTube3C1, rOuFaWTube3C2]
    · norm_num [Segment.rminAt, interpolate, dzFaFlange, dzFaGraphiteCone, dzFaConcreteCone,
        dzFaSteelCone25, rInFaGraphiteCone3, rOuFaWTube3C2]

/-! ### The steel envelope within the profile of the mother volume -/

/-- Every `z` between 11 and 411 of the mother volume lies on a stretch of the steel envelope and
on a stretch of the mother polycone that share a range of `z`. -/
theorem shFaSteelEnvelopeC_covers (m : TMath K) (z : K) (h1 : 11 ≤ z) (h2 : z ≤ 411) :
    ∃ s ∈ (shFaSteelEnvelopeC m).segments dzFaWPlate, ∃ b ∈ (shFaM m).segments 0,
      s.Common b z := by
  rw [shFaSteelEnvelopeC_segments, shFaM_segments]
  rcases le_total z 15 with h | h
  · refine ⟨_, mem_of_index _ 0 _ rfl, _, mem_of_index _ 8 _ rfl, ?_⟩
    norm_num [Segment.Common, Segment.Overlaps, max_def, min_def, dzFaWPlate, dzFaWPlateF,
      dzFaWPlateC1, dzFaWPlateC2, dzSteelEnvelopeFC, dzSteelEnvelopeC5, dzFaMgRingO,
      dzFaMgRingI]
    exact ⟨h1, h⟩
  rcases le_total z 183.9 with h' | h'
  · refine ⟨_, mem_of_index _ 2 _ rfl, _, mem_of_index _ 8 _ rfl, ?_⟩
    norm_num at h'
    norm_num [Segment.Common, Segment.Overlaps, max_def, min_def, dzFaWPlate, dzFaWPlateF,
      dzFaWPlateC1, dzFaWPlateC2, dzSteelEnvelopeFC, dzSteelEnvelopeC5, dzFaMgRingO,
      dzFaMgRingI]
    exact ⟨h, h'⟩
  rcases le_total z 209.1 with h'' | h''
  · refine ⟨_, mem_of_index _ 3 _ rfl, _, mem_of_index _ 9 _ rfl, ?_⟩
    norm_num at h' h''
    norm_num [Segment.Common, Segment.Overlaps, max_def, min_def, dzFaWPlate, dzFaWPlateF,
      dzFaWPlateC1, dzFaWPlateC2, dzSteelEnvelopeFC, dzSteelEnvelopeC5, dzSteelEnvelopeC10,
      dzFaMgRingO, dzFaMgRingI, dzFaFlange, dzFaGraphiteConeS, dzFaWTube1C]
    exact ⟨h', h''⟩
  rcases le_total z 407 with h3 | h3
  · refine ⟨_, mem_of_index _ 3 _ rfl, _, mem_of_index _ 10 _ rfl, ?_⟩
    norm_num at h''
    norm_num [Segment.Common, Segment.Overlaps, max_def, min_def, dzFaWPlate, dzFaWPlateF,
      dzFaWPlateC1, dzFaWPlateC2, dzSteelEnvelopeFC, dzSteelEnvelopeC5, dzSteelEnvelopeC10,
      dzSteelEnvelopeR, dzFaMgRingO, dzFaMgRingI, dzFaFlange, dzFaGraphiteConeS, dzFaWTube1C,
      dzFa, dzFaGraphiteCone, dzFaConcreteCone, dzFaSteelCone25, dzFaSteelCone31]
    exact ⟨h'', h3⟩
  rcases le_total z 409 with h4 | h4
  · refine ⟨_, mem_of_index _ 5 _ rfl, _, mem_of_index _ 12 _ rfl, ?_⟩
    norm_num [Segment.Common, Segment.Overlaps, max_def, min_def, dzFaWPlate, dzFaWPlateF,
      dzFaWPlateC1, dzFaWPlateC2, dzSteelEnvelopeFC, dzSteelEnvelopeC5, dzSteelEnvelopeC10,
      dzSteelEnvelopeR, dzFaMgRingO, dzFaMgRingI, dzFaFlange, dzFaGraphiteConeS, dzFaWTube1C,
      dzFa, dzFaGraphiteCone, dzFaConcreteCone, dzFaSteelCone25, dzFaSteelCone31]
    exact ⟨h3, h4⟩
  · refine ⟨_, mem_of_index _ 5 _ rfl, _, mem_of_index _ 14 _ rfl, ?_⟩
    norm_num [Segment.Common, Segment.Overlaps, max_def, min_def, dzFaWPlate, dzFaWPlateF,
      dzFaWPlateC1, dzFaWPlateC2, dzSteelEnvelopeFC, dzSteelEnvelopeC5, dzSteelEnvelopeC10,
      dzSteelEnvelopeR, dzFaMgRingO, dzFaMgRingI, dzFaFlange, dzFaGraphiteConeS, dzFaWTube1C,
      dzFa, dzFaGraphiteCone, dzFaConcreteCone, dzFaSteelCone25, dzFaSteelCone31]
    exact ⟨h4, h2⟩

set_option maxHeartbeats 4000000 in
/-- From z = 407 on, the outer radius of the steel envelope and that of the mother polycone are
both `rOuSteelEnvelopeR2`. -/
theorem shFaSteelEnvelopeC_rear (m : TMath K) :
    ∀ s ∈ (shFaSteelEnvelopeC m).segments dzFaWPlate, ∀ b ∈ (shFaM m).segments 0,
      407 ≤ s.z1 → 407 ≤ b.z1 → ∀ z, s.Common b z →
        s.rmaxAt z = rOuSteelEnvelopeR2 ∧ b.rmaxAt z = rOuSteelEnvelopeR2 := by
  rw [shFaSteelEnvelopeC_segments, shFaM_segments]
  simp only [List.forall_mem_cons, List.not_mem_nil, false_implies, implies_true, and_true]
  repeat' apply And.intro
  all_goals
    intro h1 h2 z hz
    obtain ⟨hov, -, -⟩ := hz
    norm_num [Segment.Overlaps, Segment.rmaxAt, interpolate, dzFaWPlate, dzFaWPlateF,
      dzFaWPlateC1, dzFaWPlateC2, dzSteelEnvelopeFC, dzSteelEnvelopeC5, dzSteelEnvelopeC10,
      dzSteelEnvelopeR, dzFaMgRingO, dzFaMgRingI, dzFaFlange, dzFaGraphiteConeS, dzFaWTube1C,
      dzFa, dzFaGraphiteCone, dzFaConcreteCone, dzFaSteelCone25, dzFaSteelCone31]
      at h1 h2 hov ⊢

/-- C26: the outer surface of the steel envelope stays within the outer profile of the mother
volume. The volume "AFaSteelEnvelope", whose shape is the polycone "steelEnvC" less the insert
"steelEnvT", is placed at z = `dzFaWPlate` = 11 in the mother volume, where "steelEnvC" spans
[11, 411]. Every `z` of [11, 411] lies on a stretch of "steelEnvC" and a stretch of the mother
polycone `shFaM` that share a range of `z`, and, with the real tangents and cosines of 5, 10 and
24 degrees, wherever two such stretches share a `z` the outer radius of "steelEnvC", linear
between its sections, is at most the outer radius of `shFaM`. The two radii are equal at
z = 183.9, where both are `rOuSteelEnvelopeC10`, at z = 407, where both rise from
`rOuSteelEnvelopeR1` to `rOuSteelEnvelopeR2`, and from there on, where both are
`rOuSteelEnvelopeR2`. -/
theorem steelEnvelope_within_mother (med : Media) :
    (∀ s ∈ (shFaSteelEnvelopeC (⟨Real.pi, Real.tan, Real.cos, Real.arctan⟩ : TMath ℝ)).segments
          dzFaWPlate,
        ∀ b ∈ (shFaM (⟨Real.pi, Real.tan, Real.cos, Real.arctan⟩ : TMath ℝ)).segments 0,
          s.OuterWithin b) ∧
      ∀ m : TMath ℝ,
        (voFaM med m).placements.filter (fun p => p.1 == "AFaSteelEnvelope") =
            [("AFaSteelEnvelope", 1, .translation 0 0 (0 + dzFaWPlate))] ∧
          (voFaSteelEnvelope med : TGeoVolume ℝ).shape =
            some (.composite "shFaSteelEnvelope" "steelEnvC-steelEnvT") ∧
          (0 + dzFaWPlate : ℝ) = 11 ∧
          zExtent (.pcon (shFaSteelEnvelopeC m)) (0 + dzFaWPlate) = some (11, 411) ∧
          (∀ z : ℝ, 11 ≤ z → z ≤ 411 →
            ∃ s ∈ (shFaSteelEnvelopeC m).segments dzFaWPlate, ∃ b ∈ (shFaM m).segments 0,
              s.Common b z) ∧
          (dzFaWPlate + (shFaSteelEnvelopeC m).GetZ 3 = 183.9 ∧ (shFaM m).GetZ 9 = 183.9 ∧
            (shFaSteelEnvelopeC m).GetRmax 3 = rOuSteelEnvelopeC10 m ∧
            (shFaM m).GetRmax 9 = rOuSteelEnvelopeC10 m) ∧
          (dzFaWPlate + (shFaSteelEnvelopeC m).GetZ 4 = 407 ∧
            dzFaWPlate + (shFaSteelEnvelopeC m).GetZ 5 = 407 ∧
            (shFaM m).GetZ 11 = 407 ∧ (shFaM m).GetZ 12 = 407 ∧
            (shFaSteelEnvelopeC m).GetRmax 4 = rOuSteelEnvelopeR1 m ∧
            (shFaM m).GetRmax 11 = rOuSteelEnvelopeR1 m ∧
            (shFaSteelEnvelopeC m).GetRmax 5 = rOuSteelEnvelopeR2 ∧
            (shFaM m).GetRmax 12 = rOuSteelEnvelopeR2) ∧
          (rOuSteelEnvelopeR2 : ℝ) = 106 ∧
          ∀ s ∈ (shFaSteelEnvelopeC m).segments dzFaWPlate, ∀ b ∈ (shFaM m).segments 0,
            407 ≤ s.z1 → 407 ≤ b.z1 → ∀ z, s.Common b z →
              s.rmaxAt z = rOuSteelEnvelopeR2 ∧ b.rmaxAt z = rOuSteelEnvelopeR2 := by
  refine ⟨shFaSteelEnvelopeC_outerWithin _ real_SharpAngleBounds, ?_⟩
  intro m
  have h11 : (0 + dzFaWPlate : ℝ) = 11 := by
    norm_num [dzFaWPlate, dzFaWPlateF, dzFaWPlateC1, dzFaWPlateC2]
  have hM : ∀ i, (shFaM m).GetZ i =
      (((shFaM_calls m).map fun c => (⟨c.z, c.rmin, c.rmax⟩ : PconSection ℝ)).getD i
        ⟨0, 0, 0⟩).z := by
    intro i
    rw [TGeoPcon.GetZ, shFaM_sections]
  have hR : ∀ i, (shFaM m).GetRmax i =
      (((shFaM_calls m).map fun c => (⟨c.z, c.rmin, c.rmax⟩ : PconSection ℝ)).getD i
        ⟨0, 0, 0⟩).rmax := by
    intro i
    rw [TGeoPcon.GetRmax, shFaM_sections]
  have hz3 : (shFaSteelEnvelopeC m).GetZ 3 = 0 + dzSteelEnvelopeFC + dzSteelEnvelopeC5 := rfl
  have hz4 : (shFaSteelEnvelopeC m).GetZ 4 =
      0 + dzSteelEnvelopeFC + dzSteelEnvelopeC5 + dzSteelEnvelopeC10 := rfl
  have hz5 : (shFaSteelEnvelopeC m).GetZ 5 =
      0 + dzSteelEnvelopeFC + dzSteelEnvelopeC5 + dzSteelEnvelopeC10 := rfl
  have hM9 : (shFaM m).GetZ 9 = 0 + dzFaMgRingO + dzFaMgRingI + dzFaMgRingO + dzFaWPlateC1 +
      dzFaWPlateC2 + dzSteelEnvelopeFC + dzSteelEnvelopeC5 := by
    rw [hM]
    rfl
  have hM11 : (shFaM m).GetZ 11 = dzFa - dzSteelEnvelopeR / 2 := by
    rw [hM]
    rfl
  have hM12 : (shFaM m).GetZ 12 = dzFa - dzSteelEnvelopeR / 2 := by
    rw [hM]
    rfl
  refine ⟨rfl, rfl, h11, ?_, shFaSteelEnvelopeC_covers m, ⟨?_, ?_, rfl, ?_⟩,
    ⟨?_, ?_, ?_, ?_, rfl, ?_, rfl, ?_⟩, ?_, shFaSteelEnvelopeC_rear m⟩
  · rw [zExtent, shFaSteelEnvelopeC_zRange, h11]
    norm_num
  · rw [hz3]
    norm_num [dzFaWPlate, dzFaWPlateF, dzFaWPlateC1, dzFaWPlateC2, dzSteelEnvelopeFC,
      dzSteelEnvelopeC5]
  · rw [hM9]
    norm_num [dzFaMgRingO, dzFaMgRingI, dzFaWPlateC1, dzFaWPlateC2, dzSteelEnvelopeFC,
      dzSteelEnvelopeC5]
  · rw [hR]
    rfl
  · rw [hz4]
    norm_num [dzFaWPlate, dzFaWPlateF, dzFaWPlateC1, dzFaWPlateC2, dzSteelEnvelopeFC,
      dzSteelEnvelopeC5, dzSteelEnvelopeC10]
  · rw [hz5]
    norm_num [dzFaWPlate, dzFaWPlateF, dzFaWPlateC1, dzFaWPlateC2, dzSteelEnvelopeFC,
      dzSteelEnvelopeC5, dzSteelEnvelopeC10]
  · rw [hM11]
    norm_num [dzFa, dzFaFlange, dzFaGraphiteCone, dzFaConcreteCone, dzFaSteelCone25,
      dzFaSteelCone31, dzSteelEnvelopeR]
  · rw [hM12]
    norm_num [dzFa, dzFaFlange, dzFaGraphiteCone, dzFaConcreteCone, dzFaSteelCone25,
      dzFaSteelCone31, dzSteelEnvelopeR]
  · rw [hR]
    rfl
  · rw [hR]
    rfl
  · norm_num [rOuSteelEnvelopeR2]

/-! ### Tubes 1 and 2 of the inner shield -/

/-- The sections of the polycone returned by `MakeShapeFromTemplate`, all at once. -/
theorem MakeShapeFromTemplate_sections (p : TGeoPcon K) (drMin drMax : K) :
    (MakeShapeFromTemplate p drMin drMax).sections =
      p.sections.map fun s => ⟨s.z, s.rmin + drMin, s.rmax + drMax⟩ := by
  have hlen : (MakeShapeFromTemplate p drMin drMax).sections.length = p.sections.length :=
    MakeShapeFromTemplate_GetNz p drMin drMax
  apply List.ext_getElem
  · rw [hlen, List.length_map]
  · intro i h1 h2
    have hi : i < p.GetNz := by
      rw [hlen] at h1
      exact h1
    have h := MakeShapeFromTemplate_getD p drMin drMax i hi
    rw [List.getD_eq_getElem _ _ h1] at h
    rw [h, List.getElem_map]
    simp only [TGeoPcon.GetZ, TGeoPcon.GetRmin, TGeoPcon.GetRmax,
      List.getD_eq_getElem _ _ hi]

/-- C29: in exact arithmetic the radial offsets of `MakeShapeFromTemplate` compose additively:
for every polycone `p` and all `a`, `b`, `c`, `d`, the polycone made from the one made from `p`
with offsets `(a, b)`, with offsets `(c, d)`, has the sections of the polycone made from `p`
with offsets `(a + c, b + d)`; the offsets `(0, 0)` give the sections of `p`, and the offsets
`(a, b)` followed by `(-a, -b)` give them back. -/
theorem MakeShapeFromTemplate_offsets_compose (p : TGeoPcon K) (a b c d : K) :
    (MakeShapeFromTemplate (MakeShapeFromTemplate p a b) c d).sections =
        (MakeShapeFromTemplate p (a + c) (b + d)).sections ∧
      (MakeShapeFromTemplate p 0 0).sections = p.sections ∧
      (MakeShapeFromTemplate (MakeShapeFromTemplate p a b) (-a) (-b)).sections = p.sections := by
  have h0 : (MakeShapeFromTemplate p 0 0).sections = p.sections := by
    rw [MakeShapeFromTemplate_sections]
    conv_rhs => rw [← List.map_id p.sections]
    apply List.map_congr_left
    intro s _
    simp only [add_zero, id_eq]
  have hc : ∀ c d : K, (MakeShapeFromTemplate (MakeShapeFromTemplate p a b) c d).sections =
      (MakeShapeFromTemplate p (a + c) (b + d)).sections := by
    intro c d
    simp only [MakeShapeFromTemplate_sections, List.map_map]
    apply List.map_congr_left
    intro s _
    simp only [Function.comp_apply, add_assoc]
  refine ⟨hc c d, h0, ?_⟩
  rw [hc, add_neg_cancel, add_neg_cancel, h0]

/-! ## Materials wrapped by the media -/

/-- The material keys after a shift of the keys. -/
theorem materialKeys_shift (dmat dmed : Int) (l : List Registration) :
    materialKeys (l.map (Registration.shift dmat dmed)) =
      (materialKeys l).map fun p => (p.1, dmat + p.2) := by
  induction l with
  | nil => rfl
  | cons e l ih =>
    cases e with
    | material x k => simpa [materialKeys, Registration.shift] using ih
    | mixture x k => simpa [materialKeys, Registration.shift] using ih
    | medium x k =>
      cases x
      simpa [materialKeys, Registration.shift] using ih

/-- The materials given to the media after a shift of the keys. -/
theorem mediumMaterials_shift (dmat dmed : Int) (l : List Registration) :
    mediumMaterials (l.map (Registration.shift dmat dmed)) =
      (mediumMaterials l).map fun x => (x.1, x.2.1, dmat + x.2.2) := by
  induction l with
  | nil => rfl
  | cons e l ih =>
    cases e with
    | material x k => simpa [mediumMaterials, Registration.shift] using ih
    | mixture x k => simpa [mediumMaterials, Registration.shift] using ih
    | medium x k =>
      cases x
      simpa [mediumMaterials, Registration.shift] using ih

/-- The numbers of the 43 `Material` and `Mixture` calls of one run, with the keys returned. -/
theorem registered_materialKeys (init : Int → ℚ → Int × ℚ) :
    materialKeys (registered init).entries =
      [(6, 1), (26, 2), (46, 3), (9, 4), (29, 5), (49, 6), (7, 7), (10, 8), (30, 9), (50, 10),
        (11, 11), (31, 12), (51, 13), (12, 14), (32, 15), (52, 16), (21, 17), (41, 18),
        (61, 19), (13, 20), (33, 21), (53, 22), (14, 23), (34, 24), (54, 25), (15, 26),
        (35, 27), (55, 28), (16, 29), (36, 30), (56, 31), (17, 32), (37, 33), (57, 34),
        (18, 35), (38, 36), (58, 37), (19, 38), (39, 39), (59, 40), (20, 41), (40, 42),
        (60, 43)] := by
  rw [registered_entries]
  rfl

/-- The numbers and names of the 43 `Medium` calls of one run, with the material keys given. -/
theorem registered_mediumMaterials (init : Int → ℚ → Int × ℚ) :
    mediumMaterials (registered init).entries =
      [(6, "ABSO_C_C0", 1), (26, "ABSO_C_C1", 2), (46, "ABSO_C_C2", 3), (9, "ABSO_ALU_C0", 4),
        (29, "ABSO_ALU_C1", 5), (49, "ABSO_ALU_C2", 6), (7, "ABSO_MG_C0", 7),
        (10, "ABSO_FE_C0", 8), (30, "ABSO_FE_C1", 9), (50, "ABSO_FE_C2", 10),
        (11, "ABSO_Cu_C0", 11), (31, "ABSO_Cu_C1", 12), (51, "ABSO_Cu_C2", 13),
        (12, "ABSO_W_C0", 14), (32, "ABSO_W_C1", 15), (52, "ABSO_W_C2", 16),
        (21, "ABSO_Ni/W0", 17), (41, "ABSO_Ni/W1", 18), (61, "ABSO_Ni/W3", 19),
        (13, "ABSO_PB_C0", 20), (33, "ABSO_PB_C1", 21), (53, "ABSO_PB_C2", 22),
        (14, "ABSO_INS_C0", 23), (34, "ABSO_INS_C1", 24), (54, "ABSO_INS_C2", 25),
        (15, "ABSO_AIR_C0", 26), (35, "ABSO_AIR_C1", 27), (55, "ABSO_AIR_C2", 28),
        (16, "ABSO_VA_C0", 29), (36, "ABSO_VA_C1", 30), (56, "ABSO_VA_C2", 31),
        (17, "ABSO_CC_C0", 32), (37, "ABSO_CC_C1", 33), (57, "ABSO_CC_C2", 34),
        (18, "ABSO_CH2_C0", 35), (38, "ABSO_CH2_C1", 36), (58, "ABSO_CH2_C2", 37),
        (19, "ABSO_ST_C0", 38), (39, "ABSO_ST_C1", 39), (59, "ABSO_ST_C3", 40),
        (20, "ABSO_PCc_C0", 41), (40, "ABSO_PCc_C1", 42), (60, "ABSO_PCc_C3", 43)] := by
  rw [registered_entries]
  rfl

/-- On an empty registry, every `Medium` call of `createMaterials` is given the key returned by
the `Material` or `Mixture` call made with the same number. -/
theorem registered_MediaWrapOwnMaterial (init : Int → ℚ → Int × ℚ) :
    MediaWrapOwnMaterial (registered init).entries := by
  intro x hx
  rw [registered_mediumMaterials] at hx
  rw [registered_materialKeys]
  revert x
  decide!

/-- C28: every `Medium` call of `createMaterials` wraps the material of the same substance and
tier. Whatever the registry held before, among the 86 registrations of the run the medium
registered with number `n` is given the key that the `Material` or `Mixture` call made with
number `n` returned; no number and no key is given out twice, so this is the only such call.
There are 43 media; those with the irregular names "ABSO_Ni/W3", "ABSO_ST_C3" and "ABSO_PCc_C3"
have the numbers 61, 59 and 60 and wrap the tier 2 materials with these numbers. -/
theorem media_wrap_own_material (init : Int → ℚ → Int × ℚ) (mc : VMC) :
    ∃ l : List Registration,
      ((createMaterials init).run mc).2.entries = mc.entries ++ l ∧ l.length = 86 ∧
      (mediumMaterials l).length = 43 ∧
      MediaWrapOwnMaterial l ∧
      ((materialKeys l).map fun p => p.1).Nodup ∧ ((materialKeys l).map fun p => p.2).Nodup ∧
      (mediumMaterials l).map (fun x => x.1) = (materialKeys l).map (fun p => p.1) ∧
      (∀ x ∈ mediumMaterials l,
        (x.2.1 = "ABSO_Ni/W3" → x.1 = 61) ∧ (x.2.1 = "ABSO_ST_C3" → x.1 = 59) ∧
          (x.2.1 = "ABSO_PCc_C3" → x.1 = 60)) ∧
      (["ABSO_Ni/W3", "ABSO_ST_C3", "ABSO_PCc_C3"] ⊆ (mediumMaterials l).map fun x => x.2.1) := by
  refine ⟨(registered init).entries.map (Registration.shift mc.nmat mc.nmed), ?_, ?_, ?_, ?_,
    ?_, ?_, ?_, ?_, ?_⟩
  · rw [createMaterials_run]
    rfl
  · rw [List.length_map, registered_entries]
    rfl
  · rw [mediumMaterials_shift, List.length_map, registered_mediumMaterials]
    rfl
  · intro x hx
    rw [mediumMaterials_shift] at hx
    obtain ⟨y, hy, rfl⟩ := List.mem_map.mp hx
    rw [materialKeys_shift]
    exact List.mem_map.mpr ⟨(y.1, y.2.2), registered_MediaWrapOwnMaterial init y hy, rfl⟩
  · have h : (materialKeys ((registered init).entries.map
        (Registration.shift mc.nmat mc.nmed))).map (fun p => p.1) =
        (materialKeys (registered init).entries).map fun p => p.1 := by
      rw [materialKeys_shift, List.map_map]
      rfl
    rw [h, registered_materialKeys]
    decide!
  · rw [materialKeys_shift]
    have h : ((materialKeys (registered init).entries).map
        fun p => (p.1, mc.nmat + p.2)).map (fun p => p.2) =
        ((materialKeys (registered init).entries).map fun p => p.2).map
          fun k => mc.nmat + k := by
      rw [List.map_map, List.map_map]
      rfl
    rw [h]
    apply List.Nodup.map (fun a b hab => by simpa using hab)
    rw [registered_materialKeys]
    decide!
  · rw [mediumMaterials_shift, materialKeys_shift, List.map_map, List.map_map,
      registered_mediumMaterials, registered_materialKeys]
    rfl
  · rw [mediumMaterials_shift, registered_mediumMaterials]
    intro x hx
    obtain ⟨y, hy, rfl⟩ := List.mem_map.mp hx
    show (y.2.1 = "ABSO_Ni/W3" → y.1 = 61) ∧ (y.2.1 = "ABSO_ST_C3" → y.1 = 59) ∧
      (y.2.1 = "ABSO_PCc_C3" → y.1 = 60)
    clear hx
    revert y
    decide!
  · have h : (mediumMaterials ((registered init).entries.map
        (Registration.shift mc.nmat mc.nmed))).map (fun x => x.2.1) =
        (mediumMaterials (registered init).entries).map fun x => x.2.1 := by
      rw [mediumMaterials_shift, List.map_map]
      rfl
    rw [h, registered_mediumMaterials]
    decide!

end Absorber

/-! ## Properties of the converter workflow -/

namespace AodMcToHepMC

/-- C18: without `HEPMC_PROCESS_AUX`, `defineDataProcessing` returns a workflow of exactly one
data processor, named "o2-aod-to-hepmc" in both cases: it is built from `Task1` (header, tracks
and auxiliary tables) when the option "hepmc-aux" is true and from `Task2` (header and tracks
only) when it is false. `customize` declares the option as a boolean process flag with default
false, so that, with no value given, the workflow is the one of `Task2`. -/
theorem defineDataProcessing_workflow (cfg : ConfigContext) (withHeavyIon : Bool) :
    defineDataProcessing false cfg =
        (cfg.get "hepmc-aux").map
          (fun b => [adaptAnalysisTask (if b then Task.Task1 else Task.Task2)
            "o2-aod-to-hepmc"]) ∧
      customize false [] =
        [⟨"hepmc-aux", VariantType.Bool, false, "Also process auxiliary HepMC tables",
          ConfigParamKind.kProcessFlag⟩] ∧
      (⟨customize false [], []⟩ : ConfigContext).get "hepmc-aux" = some false ∧
      defineDataProcessing false ⟨customize false [], []⟩ =
        some [⟨Task.Task2, "o2-aod-to-hepmc"⟩] ∧
      (∀ b, defineDataProcessing false ⟨customize false [], [("hepmc-aux", b)]⟩ =
        some [⟨if b then Task.Task1 else Task.Task2, "o2-aod-to-hepmc"⟩]) ∧
      Task.processParams withHeavyIon .Task1 =
        [.Header, .XSections, .PdfInfos] ++ (if withHeavyIon then [.HeavyIons] else []) ++
          [.Tracks] ∧
      Task.processParams withHeavyIon .Task2 = [.Header, .Tracks] := by
  refine ⟨?_, by decide, by decide, by decide, by decide, rfl, rfl⟩
  unfold defineDataProcessing
  cases cfg.get "hepmc-aux" with
  | none => rfl
  | some b => cases b <;> rfl

/-- C19: for every event, `Task2::process` issues the calls of `Task1::process` with the call on
the auxiliary tables removed: `Task1` issues `startEvent`, `process(collision, xsections,
pdfs[, heavyions])`, `process(collision, tracks)`, `endEvent`, and `Task2` issues `startEvent`,
`process(collision, tracks)`, `endEvent`. In both, the calls of the event start with the one
`startEvent` and end with the one `endEvent`. -/
theorem Task2_process_refines_Task1 {Header XSections PdfInfos HeavyIons Tracks : Type}
    (withHeavyIon : Bool) (mConverter : Converter Header XSections PdfInfos HeavyIons Tracks)
    (collision : Header) (xsections : XSections) (pdfs : PdfInfos) (heavyions : HeavyIons)
    (tracks : Tracks) :
    ∃ calls1 calls2 : Converter Header XSections PdfInfos HeavyIons Tracks,
      Task1.process withHeavyIon mConverter collision xsections pdfs heavyions tracks =
        mConverter ++ calls1 ∧
      Task2.process mConverter collision tracks = mConverter ++ calls2 ∧
      calls1 =
        [.startEvent,
          .processAux collision xsections pdfs (if withHeavyIon then some heavyions else none),
          .processTracks collision tracks, .endEvent] ∧
      calls2 = [.startEvent, .processTracks collision tracks, .endEvent] ∧
      calls2 = calls1.filter (fun c => !c.isAux) ∧
      (∀ calls ∈ [calls1, calls2],
        (calls.filter ConverterCall.isStartEvent).length = 1 ∧
          (calls.filter ConverterCall.isEndEvent).length = 1 ∧
          (calls.head?.map ConverterCall.isStartEvent) = some true ∧
          (calls.getLast?.map ConverterCall.isEndEvent) = some true) := by
  refine ⟨_, _, ?_, ?_, rfl, rfl, rfl, ?_⟩
  · simp only [Task1.process, List.append_assoc, List.cons_append, List.nil_append]
  · simp only [Task2.process, List.append_assoc, List.cons_append, List.nil_append]
  · intro calls h
    simp only [List.mem_cons, List.mem_singleton, List.not_mem_nil, or_false] at h
    rcases h with h | h <;> subst h <;> exact ⟨rfl, rfl, rfl, rfl⟩

end AodMcToHepMC
